import Mathlib

/-!
# RSA / ECDSA key wrappers of `sdk/tlibcrypto/ipp/sgx_rsa_encryption.cpp`

A shallow embedding of the seven entry points of the file.  Every C function
becomes a Lean function from its arguments (and from the replies of the
external engine) to the final state of its local variables, of the caller's
buffers, and of the log of external calls it made.

Conventions.

* C `int` is `Int` and `size_t` is `Nat`, without wrap-around (the byte
  sizes at hand are far from the limits); pointers to engine objects are
  addresses (`Ptr`, `0` is `NULL`); a pointer to a caller buffer is an
  `Option` of the buffer's bytes (`none` is `NULL`).
* The body of a `do { ... } while (0)` block is a list of steps; a step maps
  the state to the new state and says whether `break` was executed.
* The arithmetic engine, `malloc` and the random source are outside the
  file.  What they answer is an input: the `k`-th external call site of a
  function body (source order) receives the reply `ω k`.
-/

namespace SgxRsa

/-! ## Basic types -/

/-- An address; `0` is `NULL`. -/
abbrev Ptr := Nat

/-- The bytes found at a buffer, first byte first. -/
abbrev Bytes := List Nat

/-- The status codes of `sgx_error.h` that the file returns. -/
inductive sgx_status_t where
  | SGX_SUCCESS
  | SGX_ERROR_UNEXPECTED
  | SGX_ERROR_INVALID_PARAMETER
  deriving DecidableEq, Repr

open sgx_status_t

/-- An engine status (`IppStatus`). -/
abbrev IppStatus := Int

/-- The engine's success status. -/
def ippStsNoErr : IppStatus := 0

/-- Modelled from the spec: the validity flag value `IPP_IS_VALID` of the engine header,
which is not part of the file; only its difference from `IPP_IS_INVALID` is used. -/
def IPP_IS_VALID : Int := 7

/-- Modelled from the spec: the validity flag value `IPP_IS_INVALID` of the engine header. -/
def IPP_IS_INVALID : Int := 8

/-- The C limit `INT_MAX` for a 32-bit `int`. -/
def INT_MAX : Nat := 2147483647

/-- The macro `RSA_SEED_SIZE_SHA256`. -/
def RSA_SEED_SIZE_SHA256 : Nat := 32

/-- Modelled from the spec: `sizeof(sgx_ec256_private_t)`, the fixed scalar width of the
curve (32 bytes); the type is declared in a header outside the file. -/
def sizeof_sgx_ec256_private_t : Int := 32

/-- The value of `sizeof(Ipp32u)` and of `sizeof(uint32_t)`. -/
def sizeof_Ipp32u : Int := 4

/-- The external functions the file calls. -/
inductive Fn where
  | newPRNG | newPrimeGen | newBN | malloc | memset | memset_s | free
  | secure_free_BN | secure_free_rsa_pub_key
  | secure_free_rsa_pri1_key | secure_free_rsa_pri2_key
  | ippsRSA_GetSizePrivateKeyType1 | ippsRSA_InitPrivateKeyType1
  | ippsRSA_SetPrivateKeyType1
  | ippsRSA_GetSizePrivateKeyType2 | ippsRSA_InitPrivateKeyType2
  | ippsRSA_SetPrivateKeyType2 | ippsRSA_GetPrivateKeyType2
  | ippsRSA_GetSizePublicKey | ippsRSA_InitPublicKey | ippsRSA_SetPublicKey
  | ippsRSA_GenerateKeys | ippsRSA_ValidateKeys
  | ippsGetSize_BN | ippsGet_BN
  | ippsRSA_GetBufferSizePublicKey | ippsRSA_GetBufferSizePrivateKey
  | sgx_read_rand | ippsRSAEncrypt_OAEP | ippsRSADecrypt_OAEP
  | ippsMod_BN | ippsAdd_BN | ippsGetOctString_BN
  deriving DecidableEq, Repr

/-- One external call, as logged: the function, its integer arguments in
source order, and the addresses it was given or handed back. -/
structure Event where
  fn : Fn
  ints : List Int
  ptrs : List Ptr
  deriving DecidableEq, Repr

/-- What the outside world answers to one call: the status returned, the
address handed back (allocators), the integer stored through a size
out-parameter, the value stored through the validity out-parameter (`none`
when the callee leaves it untouched) and the bytes stored into a buffer. -/
structure Reply where
  status : IppStatus
  ptr : Ptr
  size : Int
  flag : Option Int
  bytes : Bytes
  deriving DecidableEq, Repr

/-- The replies of the outside world, by call site. -/
abbrev Oracle := Nat → Reply

/-- One straight-line piece of a `do { ... } while (0)` body: the state after
it, and `true` when it ended in `break`. -/
abbrev Step (σ : Type) := σ → σ × Bool

/-- Runs a `do { ... } while (0)` body: the steps in order, up to the first
`break`.  The flag of the result is `true` when a `break` was taken. -/
def runBody {σ : Type} : List (Step σ) → σ → σ × Bool
  | [], s => (s, false)
  | f :: rest, s => if (f s).2 then ((f s).1, true) else runBody rest (f s).1

/-- The macro `ERROR_BREAK(x)`: `break` unless `x` is `ippStsNoErr`. -/
def ERROR_BREAK (x : IppStatus) : Bool := x != ippStsNoErr

/-- The macro `NULL_BREAK(x)`: `break` when `x` is `NULL`. -/
def NULL_BREAK (x : Ptr) : Bool := x == 0

/-- The macro `SAFE_FREE_MM(ptr)`, defined in a header outside the file.  Every
use hands it the pointer alone, never the length of the block, so it can
release the block but has nothing to overwrite it with: it `free`s the block
when the pointer is not `NULL`.  The log entry it leaves. -/
def SAFE_FREE_MM (p : Ptr) : List Event :=
  if p ≠ 0 then [⟨Fn.free, [], [p]⟩] else []

/-- Modelled from the spec: the address the wrapper constructors `newBN`, `newPRNG` and
`newPrimeGen` store through their out-parameter, the new object on success
and `NULL` on failure (they live in the wrapper file, which is not part of
this one). -/
def newBN_ptr (r : Reply) : Ptr :=
  if r.status = ippStsNoErr then r.ptr else 0

/-- Storing `src` at the start of the memory `dst`. -/
def writeAt (dst src : Bytes) : Bytes :=
  src ++ dst.drop src.length

/-- The effect of `memset_s(p, len, 0, len)` on the memory at `p`. -/
def zeroFill (dst : Bytes) (len : Int) : Bytes :=
  List.replicate len.toNat 0 ++ dst.drop len.toNat

/-- The integer held by a little-endian byte string (the engine's native word
order on the little-endian target of the enclave). -/
def leVal : Bytes → Nat
  | [] => 0
  | b :: bs => b + 256 * leVal bs

/-- The integer held by a big-endian byte string. -/
def beVal (bs : Bytes) : Nat :=
  bs.foldl (fun acc b => acc * 256 + b) 0

/-- The big-endian octet string of `v` on exactly `n` bytes. -/
def beBytes : Nat → Nat → Bytes
  | 0, _ => []
  | n + 1, v => beBytes n (v / 256) ++ [v % 256]

/-- Modelled from the spec: the value a BigInteger built by `newBN(data, size, ..)` holds:
the first `size` bytes of `data` read in the engine's word order, zero when
`data` is `NULL`. -/
def newBN_val (data : Option Bytes) (size : Int) : Nat :=
  match data with
  | none => 0
  | some d => leVal (d.take size.toNat)

/-- Modelled from the spec: the value `ippsMod_BN(a, m, r)` leaves in `r`: `a mod m` on
success, the old value on failure. -/
def ippsMod_BN_val (r : Reply) (a m old : Nat) : Nat :=
  if r.status = ippStsNoErr then a % m else old

/-- Modelled from the spec: the value `ippsAdd_BN(a, b, r)` leaves in `r`: `a + b` on
success, the old value on failure. -/
def ippsAdd_BN_val (r : Reply) (a b old : Nat) : Nat :=
  if r.status = ippStsNoErr then a + b else old

/-- Modelled from the spec: the memory `ippsGetOctString_BN(buf, len, bn)` leaves at `buf`:
on success the value of `bn` as a big-endian octet string of `len` bytes,
nothing on failure. -/
def ippsGetOctString_BN_store (r : Reply) (buf : Option Bytes) (len : Int) (v : Nat) :
    Option Bytes :=
  if r.status = ippStsNoErr then buf.map (fun m => writeAt m (beBytes len.toNat v)) else buf

/-! ## `sgx_calculate_ecdsa_priv_key` -/

/-- The locals of `sgx_calculate_ecdsa_priv_key`, the memory at `out_key`,
and the log.  `v_d`, `v_m`, `v_o`, `v_one` are the integers held by the
BigIntegers `bn_d`, `bn_m`, `bn_o`, `bn_one` point to. -/
structure EcdsaState where
  ret_code : sgx_status_t
  ipp_status : IppStatus
  bn_d : Ptr
  bn_m : Ptr
  bn_o : Ptr
  bn_one : Ptr
  v_d : Nat
  v_m : Nat
  v_o : Nat
  v_one : Nat
  out_key : Option Bytes
  trace : List Event
  deriving DecidableEq, Repr

/-- The body of the `do { ... } while (0)` block of
`sgx_calculate_ecdsa_priv_key` (source lines 492-533).  Call sites: 0-3 the
four `newBN`, 4 `ippsMod_BN`, 5 `ippsAdd_BN`, 6 `ippsGetOctString_BN`.
The integer held by `bn_o` follows `ippsMod_BN_val` and `ippsAdd_BN_val`. -/
def ecdsa_body (ω : Oracle) (hash_drg : Option Bytes) (hash_drg_len : Int)
    (sgx_nistp256_r_m1 : Option Bytes) (sgx_nistp256_r_m1_len : Int) :
    List (Step EcdsaState) :=
  [ -- ipp_status = newBN(hash_drg, hash_drg_len, &bn_d); ERROR_BREAK
    fun s =>
      ({ s with ipp_status := (ω 0).status, bn_d := newBN_ptr (ω 0),
                v_d := newBN_val hash_drg hash_drg_len,
                trace := s.trace ++ [⟨Fn.newBN, [hash_drg_len], [newBN_ptr (ω 0)]⟩] },
       ERROR_BREAK (ω 0).status),
    -- ipp_status = newBN(sgx_nistp256_r_m1, sgx_nistp256_r_m1_len, &bn_m); ERROR_BREAK
    fun s =>
      ({ s with ipp_status := (ω 1).status, bn_m := newBN_ptr (ω 1),
                v_m := newBN_val sgx_nistp256_r_m1 sgx_nistp256_r_m1_len,
                trace := s.trace ++ [⟨Fn.newBN, [sgx_nistp256_r_m1_len], [newBN_ptr (ω 1)]⟩] },
       ERROR_BREAK (ω 1).status),
    -- ipp_status = newBN(NULL, sgx_nistp256_r_m1_len, &bn_o); ERROR_BREAK
    fun s =>
      ({ s with ipp_status := (ω 2).status, bn_o := newBN_ptr (ω 2),
                v_o := newBN_val none sgx_nistp256_r_m1_len,
                trace := s.trace ++ [⟨Fn.newBN, [sgx_nistp256_r_m1_len], [newBN_ptr (ω 2)]⟩] },
       ERROR_BREAK (ω 2).status),
    -- ipp_status = newBN(&i, sizeof(Ipp32u), &bn_one); ERROR_BREAK   (i = 1)
    fun s =>
      ({ s with ipp_status := (ω 3).status, bn_one := newBN_ptr (ω 3),
                v_one := newBN_val (some [1, 0, 0, 0]) sizeof_Ipp32u,
                trace := s.trace ++ [⟨Fn.newBN, [sizeof_Ipp32u], [newBN_ptr (ω 3)]⟩] },
       ERROR_BREAK (ω 3).status),
    -- ipp_status = ippsMod_BN(bn_d, bn_m, bn_o); ERROR_BREAK
    fun s =>
      ({ s with ipp_status := (ω 4).status,
                v_o := ippsMod_BN_val (ω 4) s.v_d s.v_m s.v_o,
                trace := s.trace ++ [⟨Fn.ippsMod_BN, [], [s.bn_d, s.bn_m, s.bn_o]⟩] },
       ERROR_BREAK (ω 4).status),
    -- ipp_status = ippsAdd_BN(bn_o, bn_one, bn_o); ERROR_BREAK
    fun s =>
      ({ s with ipp_status := (ω 5).status,
                v_o := ippsAdd_BN_val (ω 5) s.v_o s.v_one s.v_o,
                trace := s.trace ++ [⟨Fn.ippsAdd_BN, [], [s.bn_o, s.bn_one, s.bn_o]⟩] },
       ERROR_BREAK (ω 5).status),
    -- if (sgx_nistp256_r_m1_len != sizeof(sgx_ec256_private_t)) break;
    fun s => (s, sgx_nistp256_r_m1_len != sizeof_sgx_ec256_private_t),
    -- ipp_status = ippsGetOctString_BN(out_key, sgx_nistp256_r_m1_len, bn_o); ERROR_BREAK
    fun s =>
      ({ s with ipp_status := (ω 6).status,
                out_key := ippsGetOctString_BN_store (ω 6) s.out_key
                  sgx_nistp256_r_m1_len s.v_o,
                trace := s.trace ++
                  [⟨Fn.ippsGetOctString_BN, [sgx_nistp256_r_m1_len], [s.bn_o]⟩] },
       ERROR_BREAK (ω 6).status),
    -- ret_code = SGX_SUCCESS;
    fun s => ({ s with ret_code := SGX_SUCCESS }, false) ]

/-- The log entry of `if (NULL != bn) secure_free_BN(bn, size);`. -/
def free_BN_if_set (bn : Ptr) (size : Int) : List Event :=
  if bn ≠ 0 then [⟨Fn.secure_free_BN, [size], [bn]⟩] else []

/-- The function `sgx_calculate_ecdsa_priv_key` (source lines 475-552). -/
def sgx_calculate_ecdsa_priv_key (ω : Oracle) (hash_drg : Option Bytes) (hash_drg_len : Int)
    (sgx_nistp256_r_m1 : Option Bytes) (sgx_nistp256_r_m1_len : Int)
    (out_key : Option Bytes) (out_key_len : Int) : EcdsaState :=
  let s0 : EcdsaState :=
    { ret_code := SGX_ERROR_UNEXPECTED, ipp_status := ippStsNoErr,
      bn_d := 0, bn_m := 0, bn_o := 0, bn_one := 0,
      v_d := 0, v_m := 0, v_o := 0, v_one := 0,
      out_key := out_key, trace := [] }
  if out_key = none ∨ hash_drg_len ≤ 0 ∨ sgx_nistp256_r_m1_len ≤ 0 ∨
      out_key_len ≤ 0 ∨ hash_drg = none ∨ sgx_nistp256_r_m1 = none then
    { s0 with ret_code := SGX_ERROR_INVALID_PARAMETER }
  else
    let s := (runBody (ecdsa_body ω hash_drg hash_drg_len
                sgx_nistp256_r_m1 sgx_nistp256_r_m1_len) s0).1
    let s := { s with trace := s.trace
                ++ free_BN_if_set s.bn_d hash_drg_len
                ++ free_BN_if_set s.bn_m sgx_nistp256_r_m1_len
                ++ free_BN_if_set s.bn_o sgx_nistp256_r_m1_len
                ++ free_BN_if_set s.bn_one sizeof_Ipp32u }
    if s.ret_code ≠ SGX_SUCCESS then
      { s with out_key := s.out_key.map (fun m => zeroFill m out_key_len),
               trace := s.trace ++ [⟨Fn.memset_s, [out_key_len, 0, out_key_len], []⟩] }
    else s

/-! ## `sgx_create_rsa_key_pair` -/

/-- The locals of `sgx_create_rsa_key_pair`, the caller's eight buffers
(`p_n` ... `p_iqmp`, `none` for a `NULL` pointer) and the log. -/
structure KeyPairState where
  p_pri_key : Ptr
  p_pub_key : Ptr
  error_code : IppStatus
  ret_code : sgx_status_t
  p_rand : Ptr
  p_prime : Ptr
  scratch_buffer : Ptr
  pri_size : Int
  bn_n : Ptr
  bn_e : Ptr
  bn_d : Ptr
  bn_e_s : Ptr
  bn_p : Ptr
  bn_q : Ptr
  bn_dmp1 : Ptr
  bn_dmq1 : Ptr
  bn_iqmp : Ptr
  validate_keys : Int
  size : Int
  p_n : Option Bytes
  p_d : Option Bytes
  p_e : Option Bytes
  p_p : Option Bytes
  p_q : Option Bytes
  p_dmp1 : Option Bytes
  p_dmq1 : Option Bytes
  p_iqmp : Option Bytes
  trace : List Event
  deriving DecidableEq, Repr

/-- The bytes a successful `ippsGet_BN` stores into a caller buffer; a failed
call stores nothing. -/
def get_BN_store (r : Reply) (buf : Option Bytes) : Option Bytes :=
  if r.status = ippStsNoErr then buf.map (fun m => writeAt m r.bytes) else buf

/-- The integer a size query stores through its out-parameter: the reply's
size on success, nothing on failure. -/
def size_store (r : Reply) (old : Int) : Int :=
  if r.status = ippStsNoErr then r.size else old

/-- Source lines 75-154 of `sgx_create_rsa_key_pair`: everything of the
`do { ... } while (0)` body before the validation.  Call sites 0-20. -/
def key_pair_setup (ω : Oracle) (n_byte_size e_byte_size : Int) :
    List (Step KeyPairState) :=
  [ -- error_code = newPRNG(&p_rand); ERROR_BREAK
    fun s =>
      ({ s with error_code := (ω 0).status, p_rand := newBN_ptr (ω 0),
                trace := s.trace ++ [⟨Fn.newPRNG, [], [newBN_ptr (ω 0)]⟩] },
       ERROR_BREAK (ω 0).status),
    -- error_code = newPrimeGen(n_byte_size * 8 / 2, &p_prime); ERROR_BREAK
    fun s =>
      ({ s with error_code := (ω 1).status, p_prime := newBN_ptr (ω 1),
                trace := s.trace ++
                  [⟨Fn.newPrimeGen, [n_byte_size * 8 / 2], [newBN_ptr (ω 1)]⟩] },
       ERROR_BREAK (ω 1).status),
    -- error_code = ippsRSA_GetSizePrivateKeyType2(n/2*8, n/2*8, &pri_size); ERROR_BREAK
    fun s =>
      ({ s with error_code := (ω 2).status, pri_size := size_store (ω 2) s.pri_size,
                trace := s.trace ++ [⟨Fn.ippsRSA_GetSizePrivateKeyType2,
                  [n_byte_size / 2 * 8, n_byte_size / 2 * 8], []⟩] },
       ERROR_BREAK (ω 2).status),
    -- p_pri_key = malloc(pri_size); NULL_BREAK(p_pri_key)
    fun s =>
      ({ s with p_pri_key := (ω 3).ptr,
                trace := s.trace ++ [⟨Fn.malloc, [s.pri_size], [(ω 3).ptr]⟩] },
       NULL_BREAK (ω 3).ptr),
    -- error_code = ippsRSA_InitPrivateKeyType2(n/2*8, n/2*8, p_pri_key, pri_size); ERROR_BREAK
    fun s =>
      ({ s with error_code := (ω 4).status,
                trace := s.trace ++ [⟨Fn.ippsRSA_InitPrivateKeyType2,
                  [n_byte_size / 2 * 8, n_byte_size / 2 * 8, s.pri_size], [s.p_pri_key]⟩] },
       ERROR_BREAK (ω 4).status),
    -- scratch_buffer = malloc(pri_size); NULL_BREAK(scratch_buffer)
    fun s =>
      ({ s with scratch_buffer := (ω 5).ptr,
                trace := s.trace ++ [⟨Fn.malloc, [s.pri_size], [(ω 5).ptr]⟩] },
       NULL_BREAK (ω 5).ptr),
    -- memset(scratch_buffer, 0, pri_size);
    fun s =>
      ({ s with trace := s.trace ++ [⟨Fn.memset, [0, s.pri_size], [s.scratch_buffer]⟩] },
       false),
    -- error_code = newBN(p_e, e_byte_size, &bn_e_s); ERROR_BREAK
    fun s =>
      ({ s with error_code := (ω 6).status, bn_e_s := newBN_ptr (ω 6),
                trace := s.trace ++ [⟨Fn.newBN, [e_byte_size], [newBN_ptr (ω 6)]⟩] },
       ERROR_BREAK (ω 6).status),
    -- error_code = newBN(NULL, n_byte_size, &bn_n); ERROR_BREAK
    fun s =>
      ({ s with error_code := (ω 7).status, bn_n := newBN_ptr (ω 7),
                trace := s.trace ++ [⟨Fn.newBN, [n_byte_size], [newBN_ptr (ω 7)]⟩] },
       ERROR_BREAK (ω 7).status),
    -- error_code = newBN(NULL, e_byte_size, &bn_e); ERROR_BREAK
    fun s =>
      ({ s with error_code := (ω 8).status, bn_e := newBN_ptr (ω 8),
                trace := s.trace ++ [⟨Fn.newBN, [e_byte_size], [newBN_ptr (ω 8)]⟩] },
       ERROR_BREAK (ω 8).status),
    -- error_code = newBN(NULL, n_byte_size, &bn_d); ERROR_BREAK
    fun s =>
      ({ s with error_code := (ω 9).status, bn_d := newBN_ptr (ω 9),
                trace := s.trace ++ [⟨Fn.newBN, [n_byte_size], [newBN_ptr (ω 9)]⟩] },
       ERROR_BREAK (ω 9).status),
    -- error_code = newBN(NULL, n_byte_size / 2, &bn_p); ERROR_BREAK
    fun s =>
      ({ s with error_code := (ω 10).status, bn_p := newBN_ptr (ω 10),
                trace := s.trace ++ [⟨Fn.newBN, [n_byte_size / 2], [newBN_ptr (ω 10)]⟩] },
       ERROR_BREAK (ω 10).status),
    -- error_code = newBN(NULL, n_byte_size / 2, &bn_q); ERROR_BREAK
    fun s =>
      ({ s with error_code := (ω 11).status, bn_q := newBN_ptr (ω 11),
                trace := s.trace ++ [⟨Fn.newBN, [n_byte_size / 2], [newBN_ptr (ω 11)]⟩] },
       ERROR_BREAK (ω 11).status),
    -- error_code = newBN(NULL, n_byte_size / 2, &bn_dmp1); ERROR_BREAK
    fun s =>
      ({ s with error_code := (ω 12).status, bn_dmp1 := newBN_ptr (ω 12),
                trace := s.trace ++ [⟨Fn.newBN, [n_byte_size / 2], [newBN_ptr (ω 12)]⟩] },
       ERROR_BREAK (ω 12).status),
    -- error_code = newBN(NULL, n_byte_size / 2, &bn_dmq1); ERROR_BREAK
    fun s =>
      ({ s with error_code := (ω 13).status, bn_dmq1 := newBN_ptr (ω 13),
                trace := s.trace ++ [⟨Fn.newBN, [n_byte_size / 2], [newBN_ptr (ω 13)]⟩] },
       ERROR_BREAK (ω 13).status),
    -- error_code = newBN(NULL, n_byte_size / 2, &bn_iqmp); ERROR_BREAK
    fun s =>
      ({ s with error_code := (ω 14).status, bn_iqmp := newBN_ptr (ω 14),
                trace := s.trace ++ [⟨Fn.newBN, [n_byte_size / 2], [newBN_ptr (ω 14)]⟩] },
       ERROR_BREAK (ω 14).status),
    -- error_code = ippsRSA_GenerateKeys(bn_e_s, bn_n, bn_e, bn_d, p_pri_key,
    --     scratch_buffer, 1, p_prime, ippsPRNGen, p_rand); ERROR_BREAK
    fun s =>
      ({ s with error_code := (ω 15).status,
                trace := s.trace ++ [⟨Fn.ippsRSA_GenerateKeys, [1],
                  [s.bn_e_s, s.bn_n, s.bn_e, s.bn_d, s.p_pri_key, s.scratch_buffer,
                   s.p_prime, s.p_rand]⟩] },
       ERROR_BREAK (ω 15).status),
    -- error_code = ippsRSA_GetPrivateKeyType2(bn_p, bn_q, bn_dmp1, bn_dmq1, bn_iqmp,
    --     p_pri_key); ERROR_BREAK
    fun s =>
      ({ s with error_code := (ω 16).status,
                trace := s.trace ++ [⟨Fn.ippsRSA_GetPrivateKeyType2, [],
                  [s.bn_p, s.bn_q, s.bn_dmp1, s.bn_dmq1, s.bn_iqmp, s.p_pri_key]⟩] },
       ERROR_BREAK (ω 16).status),
    -- error_code = ippsRSA_GetSizePublicKey(n * 8, e * 8, &pri_size); ERROR_BREAK
    fun s =>
      ({ s with error_code := (ω 17).status, pri_size := size_store (ω 17) s.pri_size,
                trace := s.trace ++ [⟨Fn.ippsRSA_GetSizePublicKey,
                  [n_byte_size * 8, e_byte_size * 8], []⟩] },
       ERROR_BREAK (ω 17).status),
    -- p_pub_key = malloc(pri_size); NULL_BREAK(p_pub_key)
    fun s =>
      ({ s with p_pub_key := (ω 18).ptr,
                trace := s.trace ++ [⟨Fn.malloc, [s.pri_size], [(ω 18).ptr]⟩] },
       NULL_BREAK (ω 18).ptr),
    -- error_code = ippsRSA_InitPublicKey(n * 8, e * 8, p_pub_key, pri_size); ERROR_BREAK
    fun s =>
      ({ s with error_code := (ω 19).status,
                trace := s.trace ++ [⟨Fn.ippsRSA_InitPublicKey,
                  [n_byte_size * 8, e_byte_size * 8, s.pri_size], [s.p_pub_key]⟩] },
       ERROR_BREAK (ω 19).status),
    -- error_code = ippsRSA_SetPublicKey(bn_n, bn_e, p_pub_key); ERROR_BREAK
    fun s =>
      ({ s with error_code := (ω 20).status,
                trace := s.trace ++ [⟨Fn.ippsRSA_SetPublicKey, [],
                  [s.bn_n, s.bn_e, s.p_pub_key]⟩] },
       ERROR_BREAK (ω 20).status) ]

/-- Source lines 156-161: the validation.  The status `ippsRSA_ValidateKeys`
returns is discarded; the loop goes on only when the flag it left in
`validate_keys` is `IPP_IS_VALID`.  Call site 21. -/
def key_pair_validate (ω : Oracle) : Step KeyPairState :=
  -- ippsRSA_ValidateKeys(&validate_keys, p_pub_key, p_pri_key, NULL, scratch_buffer, 10,
  --     p_prime, ippsPRNGen, p_rand);
  -- if (validate_keys != IPP_IS_VALID) break;
  fun s =>
    ({ s with validate_keys := (ω 21).flag.getD s.validate_keys,
              trace := s.trace ++ [⟨Fn.ippsRSA_ValidateKeys, [10],
                [s.p_pub_key, s.p_pri_key, 0, s.scratch_buffer, s.p_prime, s.p_rand]⟩] },
     (ω 21).flag.getD s.validate_keys != IPP_IS_VALID)

/-- The statement pair `ippsGetSize_BN(bn, &size)` / `ippsGet_BN(&sgn, &size,
buf, bn)` with their `ERROR_BREAK`s, for the BigInteger `bn` and the caller
buffer selected by `get` and `set`; call sites `k` and `k + 1`. -/
def key_pair_extract_one (ω : Oracle) (k : Nat) (bn : KeyPairState → Ptr)
    (get : KeyPairState → Option Bytes)
    (set : KeyPairState → Option Bytes → KeyPairState) : List (Step KeyPairState) :=
  [ -- error_code = ippsGetSize_BN(bn, &size); ERROR_BREAK
    fun s =>
      ({ s with error_code := (ω k).status, size := size_store (ω k) s.size,
                trace := s.trace ++ [⟨Fn.ippsGetSize_BN, [], [bn s]⟩] },
       ERROR_BREAK (ω k).status),
    -- error_code = ippsGet_BN(&sgn, &size, (Ipp32u*)buf, bn); ERROR_BREAK
    fun s =>
      let s1 := set s (get_BN_store (ω (k + 1)) (get s))
      ({ s1 with error_code := (ω (k + 1)).status,
                 size := size_store (ω (k + 1)) s.size,
                 trace := s.trace ++ [⟨Fn.ippsGet_BN, [s.size], [bn s]⟩] },
       ERROR_BREAK (ω (k + 1)).status) ]

/-- Source lines 163-196: the eight extractions into the caller's buffers, in
the order `n`, `e`, `d`, `p`, `q`, `dmp1`, `dmq1`, `iqmp`.  Call sites 22-37. -/
def key_pair_extract (ω : Oracle) : List (Step KeyPairState) :=
  key_pair_extract_one ω 22 (fun s => s.bn_n) (fun s => s.p_n) (fun s b => { s with p_n := b })
  ++ key_pair_extract_one ω 24 (fun s => s.bn_e) (fun s => s.p_e)
      (fun s b => { s with p_e := b })
  ++ key_pair_extract_one ω 26 (fun s => s.bn_d) (fun s => s.p_d)
      (fun s b => { s with p_d := b })
  ++ key_pair_extract_one ω 28 (fun s => s.bn_p) (fun s => s.p_p)
      (fun s b => { s with p_p := b })
  ++ key_pair_extract_one ω 30 (fun s => s.bn_q) (fun s => s.p_q)
      (fun s b => { s with p_q := b })
  ++ key_pair_extract_one ω 32 (fun s => s.bn_dmp1) (fun s => s.p_dmp1)
      (fun s b => { s with p_dmp1 := b })
  ++ key_pair_extract_one ω 34 (fun s => s.bn_dmq1) (fun s => s.p_dmq1)
      (fun s b => { s with p_dmq1 := b })
  ++ key_pair_extract_one ω 36 (fun s => s.bn_iqmp) (fun s => s.p_iqmp)
      (fun s b => { s with p_iqmp := b })

/-- The last statement of the body, `ret_code = SGX_SUCCESS;`. -/
def key_pair_finish : Step KeyPairState :=
  fun s => ({ s with ret_code := SGX_SUCCESS }, false)

/-- The whole `do { ... } while (0)` body of `sgx_create_rsa_key_pair`. -/
def key_pair_body (ω : Oracle) (n_byte_size e_byte_size : Int) : List (Step KeyPairState) :=
  key_pair_setup ω n_byte_size e_byte_size ++ [key_pair_validate ω]
    ++ key_pair_extract ω ++ [key_pair_finish]

/-- Source lines 202-216: the releases after the loop, as log entries. -/
def key_pair_cleanup (n_byte_size e_byte_size : Int) (s : KeyPairState) : List Event :=
  [ ⟨Fn.secure_free_BN, [e_byte_size], [s.bn_e_s]⟩,
    ⟨Fn.secure_free_BN, [e_byte_size], [s.bn_e]⟩,
    ⟨Fn.secure_free_BN, [n_byte_size], [s.bn_d]⟩,
    ⟨Fn.secure_free_BN, [n_byte_size], [s.bn_n]⟩,
    ⟨Fn.secure_free_BN, [n_byte_size / 2], [s.bn_p]⟩,
    ⟨Fn.secure_free_BN, [n_byte_size / 2], [s.bn_q]⟩,
    ⟨Fn.secure_free_BN, [n_byte_size / 2], [s.bn_dmp1]⟩,
    ⟨Fn.secure_free_BN, [n_byte_size / 2], [s.bn_dmq1]⟩,
    ⟨Fn.secure_free_BN, [n_byte_size / 2], [s.bn_iqmp]⟩ ]
  ++ SAFE_FREE_MM s.p_rand
  ++ SAFE_FREE_MM s.p_prime
  ++ [ ⟨Fn.secure_free_rsa_pri2_key, [n_byte_size / 2], [s.p_pri_key]⟩,
       ⟨Fn.secure_free_rsa_pub_key, [n_byte_size, e_byte_size], [s.p_pub_key]⟩ ]
  ++ SAFE_FREE_MM s.scratch_buffer

/-- The function `sgx_create_rsa_key_pair` (source lines 51-219). -/
def sgx_create_rsa_key_pair (ω : Oracle) (n_byte_size e_byte_size : Int)
    (p_n p_d p_e p_p p_q p_dmp1 p_dmq1 p_iqmp : Option Bytes) : KeyPairState :=
  let s0 : KeyPairState :=
    { p_pri_key := 0, p_pub_key := 0, error_code := ippStsNoErr,
      ret_code := SGX_ERROR_UNEXPECTED, p_rand := 0, p_prime := 0, scratch_buffer := 0,
      pri_size := 0, bn_n := 0, bn_e := 0, bn_d := 0, bn_e_s := 0, bn_p := 0, bn_q := 0,
      bn_dmp1 := 0, bn_dmq1 := 0, bn_iqmp := 0, validate_keys := IPP_IS_INVALID, size := 0,
      p_n := p_n, p_d := p_d, p_e := p_e, p_p := p_p, p_q := p_q, p_dmp1 := p_dmp1,
      p_dmq1 := p_dmq1, p_iqmp := p_iqmp, trace := [] }
  if n_byte_size ≤ 0 ∨ e_byte_size ≤ 0 ∨ p_n = none ∨ p_d = none ∨ p_e = none ∨
      p_p = none ∨ p_q = none ∨ p_dmp1 = none ∨ p_dmq1 = none ∨ p_iqmp = none then
    { s0 with ret_code := SGX_ERROR_INVALID_PARAMETER }
  else
    let s := (runBody (key_pair_body ω n_byte_size e_byte_size) s0).1
    { s with trace := s.trace ++ key_pair_cleanup n_byte_size e_byte_size s }

/-! ## `sgx_create_rsa_priv2_key` -/

/-- The locals of `sgx_create_rsa_priv2_key`, the caller's handle location
`*new_pri_key2` (`none` when `new_pri_key2` is `NULL`) and the log. -/
structure Priv2State where
  p_rsa2 : Ptr
  p_p : Ptr
  p_q : Ptr
  p_dmp1 : Ptr
  p_dmq1 : Ptr
  p_iqmp : Ptr
  rsa2_size : Int
  ret_code : sgx_status_t
  error_code : IppStatus
  new_pri_key2 : Option Ptr
  trace : List Event
  deriving DecidableEq, Repr

/-- Source lines 238-254 of `sgx_create_rsa_priv2_key`: the five BigIntegers
and the size query.  Call sites 0-5. -/
def priv2_components (ω : Oracle) (prime_size : Int) : List (Step Priv2State) :=
  [ -- error_code = newBN(g_rsa_key_p, prime_size / 2, &p_p); ERROR_BREAK
    fun s =>
      ({ s with error_code := (ω 0).status, p_p := newBN_ptr (ω 0),
                trace := s.trace ++ [⟨Fn.newBN, [prime_size / 2], [newBN_ptr (ω 0)]⟩] },
       ERROR_BREAK (ω 0).status),
    -- error_code = newBN(g_rsa_key_q, prime_size / 2, &p_q); ERROR_BREAK
    fun s =>
      ({ s with error_code := (ω 1).status, p_q := newBN_ptr (ω 1),
                trace := s.trace ++ [⟨Fn.newBN, [prime_size / 2], [newBN_ptr (ω 1)]⟩] },
       ERROR_BREAK (ω 1).status),
    -- error_code = newBN(g_rsa_key_dmp1, prime_size / 2, &p_dmp1); ERROR_BREAK
    fun s =>
      ({ s with error_code := (ω 2).status, p_dmp1 := newBN_ptr (ω 2),
                trace := s.trace ++ [⟨Fn.newBN, [prime_size / 2], [newBN_ptr (ω 2)]⟩] },
       ERROR_BREAK (ω 2).status),
    -- error_code = newBN(g_rsa_key_dmq1, prime_size / 2, &p_dmq1); ERROR_BREAK
    fun s =>
      ({ s with error_code := (ω 3).status, p_dmq1 := newBN_ptr (ω 3),
                trace := s.trace ++ [⟨Fn.newBN, [prime_size / 2], [newBN_ptr (ω 3)]⟩] },
       ERROR_BREAK (ω 3).status),
    -- error_code = newBN(g_rsa_key_iqmp, prime_size / 2, &p_iqmp); ERROR_BREAK
    fun s =>
      ({ s with error_code := (ω 4).status, p_iqmp := newBN_ptr (ω 4),
                trace := s.trace ++ [⟨Fn.newBN, [prime_size / 2], [newBN_ptr (ω 4)]⟩] },
       ERROR_BREAK (ω 4).status),
    -- error_code = ippsRSA_GetSizePrivateKeyType2(prime_size / 2 * 8, prime_size / 2 * 8,
    --     &rsa2_size); ERROR_BREAK
    fun s =>
      ({ s with error_code := (ω 5).status, rsa2_size := size_store (ω 5) s.rsa2_size,
                trace := s.trace ++ [⟨Fn.ippsRSA_GetSizePrivateKeyType2,
                  [prime_size / 2 * 8, prime_size / 2 * 8], []⟩] },
       ERROR_BREAK (ω 5).status) ]

/-- Source lines 255-256: `p_rsa2 = malloc(rsa2_size); NULL_BREAK(p_rsa2);`.
Call site 6. -/
def priv2_alloc (ω : Oracle) : Step Priv2State :=
  fun s =>
    ({ s with p_rsa2 := (ω 6).ptr,
              trace := s.trace ++ [⟨Fn.malloc, [s.rsa2_size], [(ω 6).ptr]⟩] },
     NULL_BREAK (ω 6).ptr)

/-- Source lines 257-263: the initialisation of the key object and the
assignment of its components.  Call sites 7-8. -/
def priv2_setup (ω : Oracle) (prime_size : Int) : List (Step Priv2State) :=
  [ -- error_code = ippsRSA_InitPrivateKeyType2(prime_size / 2 * 8, prime_size / 2 * 8,
    --     p_rsa2, rsa2_size); ERROR_BREAK
    fun s =>
      ({ s with error_code := (ω 7).status,
                trace := s.trace ++ [⟨Fn.ippsRSA_InitPrivateKeyType2,
                  [prime_size / 2 * 8, prime_size / 2 * 8, s.rsa2_size], [s.p_rsa2]⟩] },
       ERROR_BREAK (ω 7).status),
    -- error_code = ippsRSA_SetPrivateKeyType2(p_p, p_q, p_dmp1, p_dmq1, p_iqmp, p_rsa2);
    -- ERROR_BREAK
    fun s =>
      ({ s with error_code := (ω 8).status,
                trace := s.trace ++ [⟨Fn.ippsRSA_SetPrivateKeyType2, [],
                  [s.p_p, s.p_q, s.p_dmp1, s.p_dmq1, s.p_iqmp, s.p_rsa2]⟩] },
       ERROR_BREAK (ω 8).status) ]

/-- Source lines 238-263: the body up to and including
`ippsRSA_SetPrivateKeyType2`. -/
def priv2_build (ω : Oracle) (prime_size : Int) : List (Step Priv2State) :=
  priv2_components ω prime_size ++ priv2_alloc ω :: priv2_setup ω prime_size

/-- Source lines 264-266: `*new_pri_key2 = (void*)p_rsa2; ret_code = SGX_SUCCESS;`. -/
def priv2_publish : Step Priv2State :=
  fun s => ({ s with new_pri_key2 := s.new_pri_key2.map (fun _ => s.p_rsa2),
                     ret_code := SGX_SUCCESS }, false)

/-- The function `sgx_create_rsa_priv2_key` (source lines 221-279).  The
arguments `exp_size` and `g_rsa_key_e` are cast to `void` and never read;
the five component buffers are read by `newBN` only, so only whether each is
`NULL` matters here; `new_pri_key2` is `none` for a `NULL` handle pointer and
otherwise the address the handle location holds before the call. -/
def sgx_create_rsa_priv2_key (ω : Oracle) (prime_size : Int) (_exp_size : Int)
    (_g_rsa_key_e : Option Bytes)
    (g_rsa_key_p g_rsa_key_q g_rsa_key_dmp1 g_rsa_key_dmq1 g_rsa_key_iqmp : Option Bytes)
    (new_pri_key2 : Option Ptr) : Priv2State :=
  let s0 : Priv2State :=
    { p_rsa2 := 0, p_p := 0, p_q := 0, p_dmp1 := 0, p_dmq1 := 0, p_iqmp := 0,
      rsa2_size := 0, ret_code := SGX_ERROR_UNEXPECTED, error_code := ippStsNoErr,
      new_pri_key2 := new_pri_key2, trace := [] }
  if prime_size ≤ 0 ∨ g_rsa_key_p = none ∨ g_rsa_key_q = none ∨ g_rsa_key_dmp1 = none ∨
      g_rsa_key_dmq1 = none ∨ g_rsa_key_iqmp = none ∨ new_pri_key2 = none then
    { s0 with ret_code := SGX_ERROR_INVALID_PARAMETER }
  else
    let s := (runBody (priv2_build ω prime_size ++ [priv2_publish]) s0).1
    let s := { s with trace := s.trace ++
      [ ⟨Fn.secure_free_BN, [prime_size / 2], [s.p_p]⟩,
        ⟨Fn.secure_free_BN, [prime_size / 2], [s.p_q]⟩,
        ⟨Fn.secure_free_BN, [prime_size / 2], [s.p_dmp1]⟩,
        ⟨Fn.secure_free_BN, [prime_size / 2], [s.p_dmq1]⟩,
        ⟨Fn.secure_free_BN, [prime_size / 2], [s.p_iqmp]⟩ ] }
    if s.ret_code ≠ SGX_SUCCESS then
      { s with trace := s.trace ++ [⟨Fn.secure_free_rsa_pri2_key, [prime_size], [s.p_rsa2]⟩] }
    else s

/-! ## `sgx_create_rsa_pub1_key` -/

/-- The locals of `sgx_create_rsa_pub1_key`, the caller's handle location
`*new_pub_key1` and the log. -/
structure Pub1State where
  p_pub_key : Ptr
  p_n : Ptr
  p_e : Ptr
  rsa_size : Int
  ret_code : sgx_status_t
  error_code : IppStatus
  new_pub_key1 : Option Ptr
  trace : List Event
  deriving DecidableEq, Repr

/-- Source lines 294-304 of `sgx_create_rsa_pub1_key`: the two BigIntegers
and the size query.  Call sites 0-2. -/
def pub1_components (ω : Oracle) (prime_size exp_size : Int) : List (Step Pub1State) :=
  [ -- error_code = newBN(le_n, prime_size, &p_n); ERROR_BREAK
    fun s =>
      ({ s with error_code := (ω 0).status, p_n := newBN_ptr (ω 0),
                trace := s.trace ++ [⟨Fn.newBN, [prime_size], [newBN_ptr (ω 0)]⟩] },
       ERROR_BREAK (ω 0).status),
    -- error_code = newBN(le_e, exp_size, &p_e); ERROR_BREAK
    fun s =>
      ({ s with error_code := (ω 1).status, p_e := newBN_ptr (ω 1),
                trace := s.trace ++ [⟨Fn.newBN, [exp_size], [newBN_ptr (ω 1)]⟩] },
       ERROR_BREAK (ω 1).status),
    -- error_code = ippsRSA_GetSizePublicKey(prime_size * 8, exp_size * 8, &rsa_size);
    -- ERROR_BREAK
    fun s =>
      ({ s with error_code := (ω 2).status, rsa_size := size_store (ω 2) s.rsa_size,
                trace := s.trace ++ [⟨Fn.ippsRSA_GetSizePublicKey,
                  [prime_size * 8, exp_size * 8], []⟩] },
       ERROR_BREAK (ω 2).status) ]

/-- Source lines 305-306: `p_pub_key = malloc(rsa_size); NULL_BREAK(p_pub_key);`.
Call site 3. -/
def pub1_alloc (ω : Oracle) : Step Pub1State :=
  fun s =>
    ({ s with p_pub_key := (ω 3).ptr,
              trace := s.trace ++ [⟨Fn.malloc, [s.rsa_size], [(ω 3).ptr]⟩] },
     NULL_BREAK (ω 3).ptr)

/-- Source lines 307-313: the initialisation of the key object and the
assignment of its components.  Call sites 4-5. -/
def pub1_setup (ω : Oracle) (prime_size exp_size : Int) : List (Step Pub1State) :=
  [ -- error_code = ippsRSA_InitPublicKey(prime_size * 8, exp_size * 8, p_pub_key, rsa_size);
    -- ERROR_BREAK
    fun s =>
      ({ s with error_code := (ω 4).status,
                trace := s.trace ++ [⟨Fn.ippsRSA_InitPublicKey,
                  [prime_size * 8, exp_size * 8, s.rsa_size], [s.p_pub_key]⟩] },
       ERROR_BREAK (ω 4).status),
    -- error_code = ippsRSA_SetPublicKey(p_n, p_e, p_pub_key); ERROR_BREAK
    fun s =>
      ({ s with error_code := (ω 5).status,
                trace := s.trace ++ [⟨Fn.ippsRSA_SetPublicKey, [],
                  [s.p_n, s.p_e, s.p_pub_key]⟩] },
       ERROR_BREAK (ω 5).status) ]

/-- Source lines 294-313: the body up to and including `ippsRSA_SetPublicKey`. -/
def pub1_build (ω : Oracle) (prime_size exp_size : Int) : List (Step Pub1State) :=
  pub1_components ω prime_size exp_size ++ pub1_alloc ω :: pub1_setup ω prime_size exp_size

/-- Source lines 315-316: `*new_pub_key1 = (void*)p_pub_key; ret_code = SGX_SUCCESS;`. -/
def pub1_publish : Step Pub1State :=
  fun s => ({ s with new_pub_key1 := s.new_pub_key1.map (fun _ => s.p_pub_key),
                     ret_code := SGX_SUCCESS }, false)

/-- The function `sgx_create_rsa_pub1_key` (source lines 281-327). -/
def sgx_create_rsa_pub1_key (ω : Oracle) (prime_size exp_size : Int)
    (le_n le_e : Option Bytes) (new_pub_key1 : Option Ptr) : Pub1State :=
  let s0 : Pub1State :=
    { p_pub_key := 0, p_n := 0, p_e := 0, rsa_size := 0,
      ret_code := SGX_ERROR_UNEXPECTED, error_code := ippStsNoErr,
      new_pub_key1 := new_pub_key1, trace := [] }
  if new_pub_key1 = none ∨ prime_size ≤ 0 ∨ exp_size ≤ 0 ∨ le_n = none ∨ le_e = none then
    { s0 with ret_code := SGX_ERROR_INVALID_PARAMETER }
  else
    let s := (runBody (pub1_build ω prime_size exp_size ++ [pub1_publish]) s0).1
    let s := { s with trace := s.trace ++
      [ ⟨Fn.secure_free_BN, [prime_size], [s.p_n]⟩,
        ⟨Fn.secure_free_BN, [exp_size], [s.p_e]⟩ ] }
    if s.ret_code ≠ SGX_SUCCESS then
      { s with trace := s.trace ++
          [⟨Fn.secure_free_rsa_pub_key, [prime_size, exp_size], [s.p_pub_key]⟩] }
    else s

/-! ## `sgx_create_rsa_priv1_key` -/

/-- The locals of `sgx_create_rsa_priv1_key`, the caller's handle location
`*new_pri_key1` and the log. -/
structure Priv1State where
  p_rsa1 : Ptr
  p_n : Ptr
  p_d : Ptr
  rsa1_size : Int
  ret_code : sgx_status_t
  error_code : IppStatus
  new_pri_key1 : Option Ptr
  trace : List Event
  deriving DecidableEq, Repr

/-- Source lines 427-437 of `sgx_create_rsa_priv1_key`: the two BigIntegers
and the size query.  Call sites 0-2. -/
def priv1_components (ω : Oracle) (n_byte_size d_byte_size : Int) :
    List (Step Priv1State) :=
  [ -- error_code = newBN(le_n, n_byte_size, &p_n); ERROR_BREAK
    fun s =>
      ({ s with error_code := (ω 0).status, p_n := newBN_ptr (ω 0),
                trace := s.trace ++ [⟨Fn.newBN, [n_byte_size], [newBN_ptr (ω 0)]⟩] },
       ERROR_BREAK (ω 0).status),
    -- error_code = newBN(le_d, d_byte_size, &p_d); ERROR_BREAK
    fun s =>
      ({ s with error_code := (ω 1).status, p_d := newBN_ptr (ω 1),
                trace := s.trace ++ [⟨Fn.newBN, [d_byte_size], [newBN_ptr (ω 1)]⟩] },
       ERROR_BREAK (ω 1).status),
    -- error_code = ippsRSA_GetSizePrivateKeyType1(n_byte_size * 8, d_byte_size * 8,
    --     &rsa1_size); ERROR_BREAK
    fun s =>
      ({ s with error_code := (ω 2).status, rsa1_size := size_store (ω 2) s.rsa1_size,
                trace := s.trace ++ [⟨Fn.ippsRSA_GetSizePrivateKeyType1,
                  [n_byte_size * 8, d_byte_size * 8], []⟩] },
       ERROR_BREAK (ω 2).status) ]

/-- Source lines 438-439: `p_rsa1 = malloc(rsa1_size); NULL_BREAK(p_rsa1);`.
Call site 3. -/
def priv1_alloc (ω : Oracle) : Step Priv1State :=
  fun s =>
    ({ s with p_rsa1 := (ω 3).ptr,
              trace := s.trace ++ [⟨Fn.malloc, [s.rsa1_size], [(ω 3).ptr]⟩] },
     NULL_BREAK (ω 3).ptr)

/-- Source lines 440-446: the initialisation of the key object and the
assignment of its components.  Call sites 4-5. -/
def priv1_setup (ω : Oracle) (n_byte_size d_byte_size : Int) : List (Step Priv1State) :=
  [ -- error_code = ippsRSA_InitPrivateKeyType1(n_byte_size * 8, d_byte_size * 8, p_rsa1,
    --     rsa1_size); ERROR_BREAK
    fun s =>
      ({ s with error_code := (ω 4).status,
                trace := s.trace ++ [⟨Fn.ippsRSA_InitPrivateKeyType1,
                  [n_byte_size * 8, d_byte_size * 8, s.rsa1_size], [s.p_rsa1]⟩] },
       ERROR_BREAK (ω 4).status),
    -- error_code = ippsRSA_SetPrivateKeyType1(p_n, p_d, p_rsa1); ERROR_BREAK
    fun s =>
      ({ s with error_code := (ω 5).status,
                trace := s.trace ++ [⟨Fn.ippsRSA_SetPrivateKeyType1, [],
                  [s.p_n, s.p_d, s.p_rsa1]⟩] },
       ERROR_BREAK (ω 5).status) ]

/-- Source lines 427-446: the body up to and including
`ippsRSA_SetPrivateKeyType1`. -/
def priv1_build (ω : Oracle) (n_byte_size d_byte_size : Int) : List (Step Priv1State) :=
  priv1_components ω n_byte_size d_byte_size
    ++ priv1_alloc ω :: priv1_setup ω n_byte_size d_byte_size

/-- Source lines 448-449: `*new_pri_key1 = p_rsa1; ret_code = SGX_SUCCESS;`. -/
def priv1_publish : Step Priv1State :=
  fun s => ({ s with new_pri_key1 := s.new_pri_key1.map (fun _ => s.p_rsa1),
                     ret_code := SGX_SUCCESS }, false)

/-- The function `sgx_create_rsa_priv1_key` (source lines 411-460).  The
exponent buffer `le_e` is checked against `NULL` and never read. -/
def sgx_create_rsa_priv1_key (ω : Oracle) (n_byte_size e_byte_size d_byte_size : Int)
    (le_n le_e le_d : Option Bytes) (new_pri_key1 : Option Ptr) : Priv1State :=
  let s0 : Priv1State :=
    { p_rsa1 := 0, p_n := 0, p_d := 0, rsa1_size := 0,
      ret_code := SGX_ERROR_UNEXPECTED, error_code := ippStsNoErr,
      new_pri_key1 := new_pri_key1, trace := [] }
  if n_byte_size ≤ 0 ∨ e_byte_size ≤ 0 ∨ d_byte_size ≤ 0 ∨ new_pri_key1 = none ∨
      le_n = none ∨ le_e = none ∨ le_d = none then
    { s0 with ret_code := SGX_ERROR_INVALID_PARAMETER }
  else
    let s := (runBody (priv1_build ω n_byte_size d_byte_size ++ [priv1_publish]) s0).1
    let s := { s with trace := s.trace ++
      [ ⟨Fn.secure_free_BN, [n_byte_size], [s.p_n]⟩,
        ⟨Fn.secure_free_BN, [d_byte_size], [s.p_d]⟩ ] }
    if s.ret_code ≠ SGX_SUCCESS then
      { s with trace := s.trace ++
          [⟨Fn.secure_free_rsa_pri1_key, [n_byte_size, d_byte_size], [s.p_rsa1]⟩] }
    else s

/-! ## `sgx_rsa_pub_encrypt_sha256` and `sgx_rsa_priv_decrypt_sha256` -/

/-- The locals of the two OAEP wrappers, the caller's destination buffer
`pout_data`, the caller's length location `*pout_len` (`none` when
`pout_len` is `NULL`) and the log.  `seeds` is used by the encryption only. -/
structure OaepState where
  p_scratch_buffer : Ptr
  seeds : Bytes
  scratch_buff_size : Int
  ret_code : sgx_status_t
  pout_data : Option Bytes
  pout_len : Option Nat
  trace : List Event
  deriving DecidableEq, Repr

/-- The bytes a successful engine call stores into a buffer; a failed call
stores nothing. -/
def buf_store (r : Reply) (buf : Bytes) : Bytes :=
  if r.status = ippStsNoErr then writeAt buf r.bytes else buf

/-- The body of the `do { ... } while (0)` block of
`sgx_rsa_pub_encrypt_sha256` (source lines 344-368).  Call sites: 0 the size
query, 1 `malloc`, 2 `sgx_read_rand`, 3 `ippsRSAEncrypt_OAEP`. -/
def encrypt_body (ω : Oracle) (rsa_key : Ptr) (pin_len : Nat) : List (Step OaepState) :=
  [ -- if (ippsRSA_GetBufferSizePublicKey(&scratch_buff_size, rsa_key) != ippStsNoErr) break;
    fun s =>
      ({ s with scratch_buff_size := size_store (ω 0) s.scratch_buff_size,
                trace := s.trace ++ [⟨Fn.ippsRSA_GetBufferSizePublicKey, [], [rsa_key]⟩] },
       (ω 0).status != ippStsNoErr),
    -- p_scratch_buffer = malloc(8 * scratch_buff_size); NULL_BREAK(p_scratch_buffer)
    fun s =>
      ({ s with p_scratch_buffer := (ω 1).ptr,
                trace := s.trace ++ [⟨Fn.malloc, [8 * s.scratch_buff_size], [(ω 1).ptr]⟩] },
       NULL_BREAK (ω 1).ptr),
    -- if (sgx_read_rand(seeds, RSA_SEED_SIZE_SHA256) != SGX_SUCCESS) break;
    fun s =>
      ({ s with seeds := buf_store (ω 2) s.seeds,
                trace := s.trace ++ [⟨Fn.sgx_read_rand, [RSA_SEED_SIZE_SHA256], []⟩] },
       (ω 2).status != 0),
    -- if (ippsRSAEncrypt_OAEP(pin_data, (int)pin_len, NULL, 0, seeds, pout_data, rsa_key,
    --     IPP_ALG_HASH_SHA256, p_scratch_buffer) != ippStsNoErr) break;
    fun s =>
      ({ s with pout_data := s.pout_data.map (buf_store (ω 3)),
                trace := s.trace ++ [⟨Fn.ippsRSAEncrypt_OAEP, [pin_len, 0],
                  [rsa_key, s.p_scratch_buffer]⟩] },
       (ω 3).status != ippStsNoErr),
    -- ret_code = SGX_SUCCESS;
    fun s => ({ s with ret_code := SGX_SUCCESS }, false) ]

/-- The function `sgx_rsa_pub_encrypt_sha256` (source lines 329-374).
`rsa_key` is the key handle (`0` for `NULL`), `pin_data` matters only
through being `NULL` or not, `pout_len` is cast to `void` and never used. -/
def sgx_rsa_pub_encrypt_sha256 (ω : Oracle) (rsa_key : Ptr) (pout_data : Option Bytes)
    (pout_len : Option Nat) (pin_data : Option Bytes) (pin_len : Nat) : OaepState :=
  let s0 : OaepState :=
    { p_scratch_buffer := 0, seeds := List.replicate RSA_SEED_SIZE_SHA256 0,
      scratch_buff_size := 0, ret_code := SGX_ERROR_UNEXPECTED,
      pout_data := pout_data, pout_len := pout_len, trace := [] }
  if rsa_key = 0 ∨ pin_data = none ∨ pin_len < 1 ∨ pin_len ≥ INT_MAX then
    { s0 with ret_code := SGX_ERROR_INVALID_PARAMETER }
  else if pout_data = none then
    { s0 with ret_code := SGX_SUCCESS }
  else
    let s := (runBody (encrypt_body ω rsa_key pin_len) s0).1
    -- memset_s(seeds, RSA_SEED_SIZE_SHA256, 0, RSA_SEED_SIZE_SHA256);
    -- SAFE_FREE_MM(p_scratch_buffer);
    { s with seeds := zeroFill s.seeds RSA_SEED_SIZE_SHA256,
             trace := s.trace
               ++ [⟨Fn.memset_s, [RSA_SEED_SIZE_SHA256, 0, RSA_SEED_SIZE_SHA256], []⟩]
               ++ SAFE_FREE_MM s.p_scratch_buffer }

/-- The value of the `size_t` at `pout_len` after the engine stored the `int`
`v` through `(int*)pout_len`: the low four bytes are replaced. -/
def store_int_in_size_t (old : Nat) (v : Int) : Nat :=
  old / 2 ^ 32 * 2 ^ 32 + (v % 2 ^ 32).toNat

/-- The body of the `do { ... } while (0)` block of
`sgx_rsa_priv_decrypt_sha256` (source lines 388-405).  Call sites: 0 the size
query, 1 `malloc`, 2 `ippsRSADecrypt_OAEP`. -/
def decrypt_body (ω : Oracle) (rsa_key : Ptr) : List (Step OaepState) :=
  [ -- if (ippsRSA_GetBufferSizePrivateKey(&scratch_buff_size, rsa_key) != ippStsNoErr) break;
    fun s =>
      ({ s with scratch_buff_size := size_store (ω 0) s.scratch_buff_size,
                trace := s.trace ++ [⟨Fn.ippsRSA_GetBufferSizePrivateKey, [], [rsa_key]⟩] },
       (ω 0).status != ippStsNoErr),
    -- p_scratch_buffer = malloc(scratch_buff_size); NULL_BREAK(p_scratch_buffer)
    fun s =>
      ({ s with p_scratch_buffer := (ω 1).ptr,
                trace := s.trace ++ [⟨Fn.malloc, [s.scratch_buff_size], [(ω 1).ptr]⟩] },
       NULL_BREAK (ω 1).ptr),
    -- if (ippsRSADecrypt_OAEP(pin_data, NULL, 0, pout_data, (int*)pout_len, rsa_key,
    --     IPP_ALG_HASH_SHA256, p_scratch_buffer) != ippStsNoErr) break;
    fun s =>
      ({ s with pout_data := s.pout_data.map (buf_store (ω 2)),
                pout_len := if (ω 2).status = ippStsNoErr
                  then s.pout_len.map (fun old => store_int_in_size_t old (ω 2).size)
                  else s.pout_len,
                trace := s.trace ++ [⟨Fn.ippsRSADecrypt_OAEP, [0],
                  [rsa_key, s.p_scratch_buffer]⟩] },
       (ω 2).status != ippStsNoErr),
    -- ret_code = SGX_SUCCESS;
    fun s => ({ s with ret_code := SGX_SUCCESS }, false) ]

/-- The function `sgx_rsa_priv_decrypt_sha256` (source lines 376-409).
`pin_len` is cast to `void` and never used. -/
def sgx_rsa_priv_decrypt_sha256 (ω : Oracle) (rsa_key : Ptr) (pout_data : Option Bytes)
    (pout_len : Option Nat) (pin_data : Option Bytes) (_pin_len : Nat) : OaepState :=
  let s0 : OaepState :=
    { p_scratch_buffer := 0, seeds := [],
      scratch_buff_size := 0, ret_code := SGX_ERROR_UNEXPECTED,
      pout_data := pout_data, pout_len := pout_len, trace := [] }
  if rsa_key = 0 ∨ pout_len = none ∨ pin_data = none then
    { s0 with ret_code := SGX_ERROR_INVALID_PARAMETER }
  else if pout_data = none then
    { s0 with ret_code := SGX_SUCCESS }
  else
    let s := (runBody (decrypt_body ω rsa_key) s0).1
    -- SAFE_FREE_MM(p_scratch_buffer);
    { s with trace := s.trace ++ SAFE_FREE_MM s.p_scratch_buffer }

/-! ## `sgx_free_rsa_key` -/

/-- The values of the argument `key_type` that `sgx_free_rsa_key` tells apart:
the two enumerators it names, and anything else. -/
inductive sgx_rsa_key_type_t where
  | SGX_RSA_PRIVATE_KEY
  | SGX_RSA_PUBLIC_KEY
  | other
  deriving DecidableEq, Repr

/-- The function `sgx_free_rsa_key` (source lines 463-472): the status it
returns and the log of its calls.  A private key is handed to
`secure_free_rsa_pri2_key` with `mod_size`. -/
def sgx_free_rsa_key (p_rsa_key : Ptr) (key_type : sgx_rsa_key_type_t)
    (mod_size exp_size : Int) : sgx_status_t × List Event :=
  (SGX_SUCCESS,
   if key_type = sgx_rsa_key_type_t.SGX_RSA_PRIVATE_KEY then
     [⟨Fn.secure_free_rsa_pri2_key, [mod_size], [p_rsa_key]⟩]
   else if key_type = sgx_rsa_key_type_t.SGX_RSA_PUBLIC_KEY then
     [⟨Fn.secure_free_rsa_pub_key, [mod_size, exp_size], [p_rsa_key]⟩]
   else [])

/-! ## Queries on the log -/

/-- The number of calls of `fn` in a log. -/
def calls (fn : Fn) (trace : List Event) : Nat :=
  trace.countP (fun ev => ev.fn == fn)

/-! ## Sample engines -/

/-- An engine in which the call at site `k` fails (status `1`, or `NULL` for
an allocation) and every other call succeeds. -/
def ω_fail_at (k : Nat) : Oracle := fun j =>
  if j = k then ⟨1, 0, 0, none, []⟩
  else ⟨ippStsNoErr, j + 100, 64, some IPP_IS_VALID, [1, 2, 3, 4]⟩

/-- An engine for the encryption in which every call succeeds: the size query
answers `64`, `malloc` hands out the block at `4096`, the random source
stores 32 seed bytes and the transform stores four ciphertext bytes. -/
def ω_encrypt : Oracle := fun j =>
  if j = 2 then ⟨0, 0, 0, none, (List.range 32).map (fun i => i + 1)⟩
  else ⟨ippStsNoErr, 4096, 64, none, [222, 173, 190, 239]⟩

/-- An engine for the decryption in which every call succeeds: the size query
answers `64`, `malloc` hands out the block at `4096` and the transform stores
three plaintext bytes and the length `3`. -/
def ω_decrypt : Oracle := fun j =>
  if j = 2 then ⟨ippStsNoErr, 0, 3, none, [1, 2, 3]⟩
  else ⟨ippStsNoErr, 4096, 64, none, []⟩

/-- An engine that generates and validates a pair, hands out the eight bytes
of the modulus (call site 23) and fails at the next call, the size query for
the public exponent (call site 24). -/
def ω_extract_fails : Oracle := fun j =>
  if j = 24 then ⟨1, 0, 0, none, []⟩
  else if j = 23 then ⟨ippStsNoErr, 0, 2, none, [21, 205, 91, 7, 0, 0, 0, 129]⟩
  else ⟨ippStsNoErr, j + 100, 64, some IPP_IS_VALID, [1, 2, 3, 4]⟩

/-- An engine in which the validation (call site 21) fails with the status `5`
while `IPP_IS_VALID` stands in the flag; every other call succeeds, and the
extraction at call site `j` stores the bytes `j, 0, 0, 1`. -/
def ω_validation_fails : Oracle := fun j =>
  if j = 21 then ⟨5, 0, 0, some IPP_IS_VALID, []⟩
  else ⟨ippStsNoErr, j + 100, 64, none, [j, 0, 0, 1]⟩

/-- An engine in which every call succeeds except the validation (call site
21), which returns the status `-1` and leaves `IPP_IS_VALID` in the flag. -/
def ω_validate_error : Oracle := fun j =>
  if j = 21 then ⟨-1, 0, 0, some IPP_IS_VALID, []⟩
  else ⟨ippStsNoErr, j + 100, 64, some IPP_IS_VALID, [1, 2, 3, 4]⟩

/-- An engine in which every call succeeds and the validation reports the
pair invalid. -/
def ω_invalid : Oracle := fun j =>
  ⟨ippStsNoErr, j + 100, 64, some IPP_IS_INVALID, [1, 2, 3, 4]⟩

/-- An engine in which every call succeeds (call site `k` hands back the
address `k + 100`). -/
def ω_ok : Oracle := fun k => ⟨ippStsNoErr, k + 100, 64, some IPP_IS_VALID, [1, 2, 3, 4]⟩

/-! ## Running a loop body: general facts -/

theorem runBody_append {σ : Type} (xs ys : List (Step σ)) (s : σ) :
    runBody (xs ++ ys) s =
      if (runBody xs s).2 then runBody xs s else runBody ys (runBody xs s).1 := by
  induction xs generalizing s with
  | nil => simp [runBody]
  | cons f rest ih =>
    by_cases h : (f s).2 = true
    · simp [runBody, h]
    · simp [runBody, h, ih]

/-- A property every step keeps is kept by the whole body. -/
theorem runBody_inv {σ : Type} (P : σ → Prop) (xs : List (Step σ))
    (hstep : ∀ f ∈ xs, ∀ s, P s → P (f s).1) (s : σ) (hs : P s) :
    P (runBody xs s).1 := by
  induction xs generalizing s with
  | nil => simpa [runBody] using hs
  | cons f rest ih =>
    have hf : P (f s).1 := hstep f (by simp) s hs
    have hrest : ∀ g ∈ rest, ∀ t, P t → P (g t).1 :=
      fun g hg => hstep g (by simp [hg])
    by_cases h : (f s).2 = true
    · simpa [runBody, h] using hf
    · simpa [runBody, h] using ih hrest (f s).1 hf

/-- A quantity of the state that no step changes is the same after the body. -/
theorem runBody_frame {σ α : Type} (c : σ → α) (xs : List (Step σ))
    (hstep : ∀ f ∈ xs, ∀ s, c (f s).1 = c s) (s : σ) :
    c (runBody xs s).1 = c s :=
  runBody_inv (fun t => c t = c s) xs (fun f hf t ht => (hstep f hf t).trans ht) s rfl

/-- Each step `f` of the body raises the counter `c` by at most its weight:
then the body raises it by at most the sum of the weights. -/
theorem runBody_measure {σ : Type} (c : σ → Nat) (xs : List (Step σ)) (ws : List Nat)
    (h : List.Forall₂ (fun f w => ∀ s, c (f s).1 ≤ c s + w) xs ws) (s : σ) :
    c (runBody xs s).1 ≤ c s + ws.sum := by
  induction h generalizing s with
  | nil => simp [runBody]
  | @cons f w fs ws hf _ ih =>
    by_cases hb : (f s).2 = true
    · simp only [runBody, hb, if_true, List.sum_cons]
      have := hf s
      omega
    · simp only [runBody, hb, List.sum_cons]
      have h1 := hf s
      have h2 := ih (f s).1
      simp only [Bool.false_eq_true, if_false]
      omega

/-- A property that holds once established, as long as no `break` is taken,
holds after a body that ran to its end. -/
theorem runBody_keep {σ : Type} (P : σ → Prop) (xs : List (Step σ))
    (hkeep : ∀ f ∈ xs, ∀ s, P s → (f s).2 = false → P (f s).1) (s : σ) (hs : P s)
    (hc : (runBody xs s).2 = false) : P (runBody xs s).1 := by
  induction xs generalizing s with
  | nil => simpa [runBody] using hs
  | cons f rest ih =>
    by_cases h : (f s).2 = true
    · simp [runBody, h] at hc
    · have hf : (f s).2 = false := by simpa using h
      simp only [runBody, hf, Bool.false_eq_true, if_false] at hc ⊢
      exact ih (fun g hg => hkeep g (by simp [hg])) (f s).1
        (hkeep f (by simp) s hs hf) hc

/-- What a step `g` of the body establishes whenever it does not `break`, and
the later steps keep, holds after a body that ran to its end. -/
theorem runBody_completed {σ : Type} (P : σ → Prop) (xs : List (Step σ)) (g : Step σ)
    (hg : g ∈ xs) (hest : ∀ s, (g s).2 = false → P (g s).1)
    (hkeep : ∀ f ∈ xs, ∀ s, P s → (f s).2 = false → P (f s).1) (s : σ)
    (hc : (runBody xs s).2 = false) : P (runBody xs s).1 := by
  induction xs generalizing s with
  | nil => simp at hg
  | cons f rest ih =>
    by_cases h : (f s).2 = true
    · simp [runBody, h] at hc
    · have hf : (f s).2 = false := by simpa using h
      simp only [runBody, hf, Bool.false_eq_true, if_false] at hc ⊢
      have hrest : ∀ k ∈ rest, ∀ t, P t → (k t).2 = false → P (k t).1 :=
        fun k hk => hkeep k (by simp [hk])
      rcases List.mem_cons.mp hg with rfl | hmem
      · exact runBody_keep P rest hrest (g s).1 (hest s hf) hc
      · exact ih hmem hrest (f s).1 hc

/-- A body made of a first part that keeps `P`, one step that turns `P` into
`Q`, and a last part that keeps `Q`, started where `P` holds, ends where `P`
or `Q` holds. -/
theorem runBody_two_phase {σ : Type} (P Q : σ → Prop) (xs : List (Step σ)) (g : Step σ)
    (ys : List (Step σ)) (hx : ∀ f ∈ xs, ∀ s, P s → P (f s).1)
    (hg : ∀ s, P s → Q (g s).1) (hy : ∀ f ∈ ys, ∀ s, Q s → Q (f s).1)
    (s : σ) (hs : P s) :
    P (runBody (xs ++ g :: ys) s).1 ∨ Q (runBody (xs ++ g :: ys) s).1 := by
  have hP : P (runBody xs s).1 := runBody_inv P xs hx s hs
  rw [runBody_append]
  by_cases hb : (runBody xs s).2 = true
  · simp only [hb, if_true]
    exact Or.inl hP
  · simp only [hb, Bool.false_eq_true, if_false]
    right
    have hQ : Q (g (runBody xs s).1).1 := hg _ hP
    by_cases hgb : (g (runBody xs s).1).2 = true
    · simpa [runBody, hgb] using hQ
    · simpa [runBody, hgb] using runBody_inv Q ys hy _ hQ

/-- When the `break` decision of every step is fixed in advance (`bs` lists
them), the body takes a `break` exactly when one of them is `true`. -/
theorem runBody_broke_const {σ : Type} (xs : List (Step σ)) (bs : List Bool)
    (h : List.Forall₂ (fun f b => ∀ s, (f s).2 = b) xs bs) (s : σ) :
    (runBody xs s).2 = bs.any id := by
  induction h generalizing s with
  | nil => simp [runBody]
  | @cons f b fs bs hf _ ih =>
    cases hb : b with
    | true => simp [runBody, hf s, hb]
    | false => simp [runBody, hf s, hb, ih]

/-! ## Byte strings -/

theorem beVal_append_single (xs : Bytes) (b : Nat) :
    beVal (xs ++ [b]) = beVal xs * 256 + b := by
  simp [beVal, List.foldl_append]

/-- Decoding the `n`-byte big-endian string of `v` gives `v` back, up to the
width. -/
theorem beVal_beBytes (n v : Nat) : beVal (beBytes n v) = v % 256 ^ n := by
  induction n generalizing v with
  | zero => simp [beBytes, beVal, Nat.mod_one]
  | succ n ih =>
    rw [beBytes, beVal_append_single, ih, pow_succ', Nat.mod_mul]
    ring

theorem beBytes_length (n v : Nat) : (beBytes n v).length = n := by
  induction n generalizing v with
  | zero => rfl
  | succ n ih => simp [beBytes, ih]

theorem leVal_lt (bs : Bytes) (h : ∀ b ∈ bs, b < 256) : leVal bs < 256 ^ bs.length := by
  induction bs with
  | nil => simp [leVal]
  | cons b bs ih =>
    have hb : b < 256 := h b (by simp)
    have := ih (fun x hx => h x (by simp [hx]))
    simp only [leVal, List.length_cons, pow_succ]
    omega

theorem leVal_take_lt (bs : Bytes) (n : Nat) (h : ∀ b ∈ bs, b < 256) :
    leVal (bs.take n) < 256 ^ n := by
  have h1 : leVal (bs.take n) < 256 ^ (bs.take n).length :=
    leVal_lt _ (fun b hb => h b (List.mem_of_mem_take hb))
  have h2 : (256 : Nat) ^ (bs.take n).length ≤ 256 ^ n :=
    Nat.pow_le_pow_right (by decide) (by simp)
  omega

/-! ## The scalar derivation -/

/-- C1: for every entropy buffer (value `D`, any positive length) and every order-minus-one
buffer of byte values whose value `M` is at least 1, with `orderLen = 32` and all seven
engine calls succeeding, `sgx_calculate_ecdsa_priv_key` returns `SGX_SUCCESS`, the 32 bytes
it stores at `out_key` are the big-endian string of `(D mod M) + 1`, they decode to that
integer, and the integer lies in `[1, M]`. -/
theorem ecdsa_priv_key_is_entropy_mod_order_plus_one
    (ω : Oracle) (hash_drg m out : Bytes) (hash_drg_len out_key_len : Int)
    (hlen : 0 < hash_drg_len) (hout : 0 < out_key_len)
    (hbytes : ∀ b ∈ m, b < 256) (hM : 1 ≤ leVal (m.take 32))
    (hok : ∀ k, k < 7 → (ω k).status = ippStsNoErr) :
    (sgx_calculate_ecdsa_priv_key ω (some hash_drg) hash_drg_len (some m) 32
        (some out) out_key_len).ret_code = SGX_SUCCESS ∧
    (sgx_calculate_ecdsa_priv_key ω (some hash_drg) hash_drg_len (some m) 32
        (some out) out_key_len).out_key
      = some (beBytes 32 (leVal (hash_drg.take hash_drg_len.toNat) % leVal (m.take 32) + 1)
              ++ out.drop 32) ∧
    beVal (((sgx_calculate_ecdsa_priv_key ω (some hash_drg) hash_drg_len (some m) 32
        (some out) out_key_len).out_key.getD []).take 32)
      = leVal (hash_drg.take hash_drg_len.toNat) % leVal (m.take 32) + 1 ∧
    1 ≤ leVal (hash_drg.take hash_drg_len.toNat) % leVal (m.take 32) + 1 ∧
    leVal (hash_drg.take hash_drg_len.toNat) % leVal (m.take 32) + 1 ≤ leVal (m.take 32) := by
  have h0 := hok 0 (by decide)
  have h1 := hok 1 (by decide)
  have h2 := hok 2 (by decide)
  have h3 := hok 3 (by decide)
  have h4 := hok 4 (by decide)
  have h5 := hok 5 (by decide)
  have h6 := hok 6 (by decide)
  have hl : ¬ hash_drg_len ≤ 0 := by omega
  have ho : ¬ out_key_len ≤ 0 := by omega
  have hMlt : leVal (m.take 32) < 256 ^ 32 := leVal_take_lt m 32 hbytes
  have hmod : leVal (hash_drg.take hash_drg_len.toNat) % leVal (m.take 32)
      < leVal (m.take 32) := Nat.mod_lt _ (by omega)
  have hres : (sgx_calculate_ecdsa_priv_key ω (some hash_drg) hash_drg_len (some m) 32
        (some out) out_key_len).out_key
      = some (beBytes 32 (leVal (hash_drg.take hash_drg_len.toNat) % leVal (m.take 32) + 1)
              ++ out.drop 32) := by
    simp [sgx_calculate_ecdsa_priv_key, ecdsa_body, runBody, ERROR_BREAK, h0, h1, h2, h3, h4,
      h5, h6, hl, ho, sizeof_sgx_ec256_private_t, newBN_val, sizeof_Ipp32u, leVal, writeAt,
      beBytes_length, ippsMod_BN_val, ippsAdd_BN_val, ippsGetOctString_BN_store]
  refine ⟨?_, hres, ?_, by omega, by omega⟩
  · simp [sgx_calculate_ecdsa_priv_key, ecdsa_body, runBody, ERROR_BREAK, h0, h1, h2, h3, h4,
      h5, h6, hl, ho, sizeof_sgx_ec256_private_t]
  · rw [hres]
    have hlen32 : (beBytes 32
        (leVal (hash_drg.take hash_drg_len.toNat) % leVal (m.take 32) + 1)).length = 32 :=
      beBytes_length _ _
    rw [Option.getD_some, List.take_left' hlen32, beVal_beBytes]
    exact Nat.mod_eq_of_lt (by omega)

/-- C1 at a concrete input: entropy `7`, order minus one `5`, every call succeeding, gives
`SGX_SUCCESS` and the scalar `7 mod 5 + 1 = 3`. -/
theorem ecdsa_priv_key_is_entropy_mod_order_plus_one_witness :
    ((0 : Int) < 4 ∧ (∀ b ∈ (5 :: List.replicate 31 0), b < 256) ∧
      1 ≤ leVal ((5 :: List.replicate 31 0).take 32)) ∧
    (sgx_calculate_ecdsa_priv_key ω_ok (some [7, 0, 0, 0]) 4
        (some (5 :: List.replicate 31 0)) 32 (some (List.replicate 32 9)) 32).ret_code
      = SGX_SUCCESS ∧
    beVal (((sgx_calculate_ecdsa_priv_key ω_ok (some [7, 0, 0, 0]) 4
        (some (5 :: List.replicate 31 0)) 32
        (some (List.replicate 32 9)) 32).out_key.getD []).take 32) = 3 :=
  have h := ecdsa_priv_key_is_entropy_mod_order_plus_one ω_ok [7, 0, 0, 0]
    (5 :: List.replicate 31 0) (List.replicate 32 9) 4 32 (by decide) (by decide)
    (by decide) (by decide) (fun _ _ => rfl)
  ⟨⟨by decide, by decide, by decide⟩, h.1, h.2.2.1⟩

/-! ## The capacity probe of the encryption -/

/-- C5: with a non-null key, a non-null plaintext of length `1 ≤ L < INT_MAX` and a `NULL`
destination, `sgx_rsa_pub_encrypt_sha256` returns `SGX_SUCCESS` and does nothing else: the
log of external calls is empty (no engine call, no random draw, no allocation), the
length location holds what it held, and no local was changed. -/
theorem encrypt_null_destination_is_noop (ω : Oracle) (rsa_key : Ptr)
    (pout_len : Option Nat) (pin_data : Bytes) (pin_len : Nat)
    (hkey : rsa_key ≠ 0) (hlo : 1 ≤ pin_len) (hhi : pin_len < INT_MAX) :
    sgx_rsa_pub_encrypt_sha256 ω rsa_key none pout_len (some pin_data) pin_len =
      { p_scratch_buffer := 0, seeds := List.replicate RSA_SEED_SIZE_SHA256 0,
        scratch_buff_size := 0, ret_code := SGX_SUCCESS,
        pout_data := none, pout_len := pout_len, trace := [] } := by
  have h1 : ¬ pin_len < 1 := by omega
  have h2 : ¬ pin_len ≥ INT_MAX := by omega
  simp [sgx_rsa_pub_encrypt_sha256, hkey, h1, h2]

/-- C5 at a concrete input: key handle `5`, a three-byte plaintext, a `NULL` destination. -/
theorem encrypt_null_destination_is_noop_witness :
    ((5 : Ptr) ≠ 0 ∧ 1 ≤ 3 ∧ 3 < INT_MAX) ∧
    (sgx_rsa_pub_encrypt_sha256 ω_ok 5 none (some 77) (some [1, 2, 3]) 3).ret_code
      = SGX_SUCCESS ∧
    (sgx_rsa_pub_encrypt_sha256 ω_ok 5 none (some 77) (some [1, 2, 3]) 3).trace = [] ∧
    (sgx_rsa_pub_encrypt_sha256 ω_ok 5 none (some 77) (some [1, 2, 3]) 3).pout_len
      = some 77 :=
  have h := encrypt_null_destination_is_noop ω_ok 5 (some 77) [1, 2, 3] 3
    (by decide) (by decide) (by decide)
  ⟨⟨by decide, by decide, by decide⟩, by rw [h], by rw [h], by rw [h]⟩

/-! ## Failure of the scalar derivation -/

/-- C6 fails as stated: with a zero entropy length the call is rejected with
`SGX_ERROR_INVALID_PARAMETER` and the four bytes at the non-null destination stay
`9, 9, 9, 9`. -/
theorem ecdsa_invalid_parameter_leaves_destination :
    ¬ ((sgx_calculate_ecdsa_priv_key ω_ok (some [7, 0, 0, 0]) 0
          (some (5 :: List.replicate 31 0)) 32 (some [9, 9, 9, 9]) 4).ret_code ≠ SGX_SUCCESS →
        ∀ b ∈ ((sgx_calculate_ecdsa_priv_key ω_ok (some [7, 0, 0, 0]) 0
          (some (5 :: List.replicate 31 0)) 32 (some [9, 9, 9, 9]) 4).out_key.getD []).take 4,
          b = 0) := by
  decide

theorem ecdsa_body_keeps_destination (ω : Oracle) (hash_drg : Option Bytes)
    (hash_drg_len : Int) (m : Option Bytes) (mlen : Int) (s : EcdsaState)
    (hs : s.out_key.isSome = true) :
    (runBody (ecdsa_body ω hash_drg hash_drg_len m mlen) s).1.out_key.isSome = true := by
  refine runBody_inv (fun t => t.out_key.isSome = true) _ ?_ s hs
  intro f hf t ht
  simp only [ecdsa_body, List.mem_cons, List.mem_singleton, List.not_mem_nil, or_false] at hf
  rcases hf with rfl | rfl | rfl | rfl | rfl | rfl | rfl | rfl | rfl <;>
    first
      | exact ht
      | (simp only [ippsGetOctString_BN_store]; split <;> simp [ht])

/-- C6, amended: a call with a non-null destination that returns `SGX_ERROR_UNEXPECTED`
(an engine failure, or an `orderLen` other than the scalar width) leaves zero in every one
of the `out_key_len` bytes of the destination; a call that returns
`SGX_ERROR_INVALID_PARAMETER` leaves the destination as it was. -/
theorem ecdsa_failure_destination (ω : Oracle) (hash_drg : Option Bytes)
    (hash_drg_len : Int) (m : Option Bytes) (mlen : Int) (out : Bytes) (out_key_len : Int) :
    ((sgx_calculate_ecdsa_priv_key ω hash_drg hash_drg_len m mlen
        (some out) out_key_len).ret_code = SGX_ERROR_UNEXPECTED →
      ∃ mem, (sgx_calculate_ecdsa_priv_key ω hash_drg hash_drg_len m mlen
          (some out) out_key_len).out_key = some mem ∧
        mem.take out_key_len.toNat = List.replicate out_key_len.toNat 0) ∧
    ((sgx_calculate_ecdsa_priv_key ω hash_drg hash_drg_len m mlen
        (some out) out_key_len).ret_code = SGX_ERROR_INVALID_PARAMETER →
      (sgx_calculate_ecdsa_priv_key ω hash_drg hash_drg_len m mlen
          (some out) out_key_len).out_key = some out) := by
  unfold sgx_calculate_ecdsa_priv_key
  simp only []
  split
  · simp
  · have hsome := ecdsa_body_keeps_destination ω hash_drg hash_drg_len m mlen
      { ret_code := SGX_ERROR_UNEXPECTED, ipp_status := ippStsNoErr,
        bn_d := 0, bn_m := 0, bn_o := 0, bn_one := 0,
        v_d := 0, v_m := 0, v_o := 0, v_one := 0,
        out_key := some out, trace := [] } rfl
    obtain ⟨mem, hmem⟩ := Option.isSome_iff_exists.mp hsome
    have hret := runBody_inv
      (fun t : EcdsaState => t.ret_code = SGX_ERROR_UNEXPECTED ∨ t.ret_code = SGX_SUCCESS)
      (ecdsa_body ω hash_drg hash_drg_len m mlen)
      (by
        intro f hf t ht
        simp only [ecdsa_body, List.mem_cons, List.mem_singleton, List.not_mem_nil,
          or_false] at hf
        rcases hf with rfl | rfl | rfl | rfl | rfl | rfl | rfl | rfl | rfl <;> simp [ht])
      { ret_code := SGX_ERROR_UNEXPECTED, ipp_status := ippStsNoErr,
        bn_d := 0, bn_m := 0, bn_o := 0, bn_one := 0,
        v_d := 0, v_m := 0, v_o := 0, v_one := 0,
        out_key := some out, trace := [] } (Or.inl rfl)
    split
    · refine ⟨fun _ => ⟨zeroFill mem out_key_len, by simp [hmem], ?_⟩, ?_⟩
      · simp [zeroFill]
      · intro h
        rcases hret with h' | h' <;> simp_all
    · refine ⟨fun h => ?_, fun h => ?_⟩ <;> simp_all

/-- C6, amended, at a concrete input: the fourth engine call fails, the call returns
`SGX_ERROR_UNEXPECTED` and the four destination bytes are zero. -/
theorem ecdsa_failure_destination_witness :
    (sgx_calculate_ecdsa_priv_key (fun k => ⟨if k = 3 then 1 else 0, k + 100, 0, none, []⟩)
        (some [7, 0, 0, 0]) 4 (some (5 :: List.replicate 31 0)) 32
        (some [9, 9, 9, 9]) 4).ret_code = SGX_ERROR_UNEXPECTED ∧
    ∃ mem, (sgx_calculate_ecdsa_priv_key
        (fun k => ⟨if k = 3 then 1 else 0, k + 100, 0, none, []⟩)
        (some [7, 0, 0, 0]) 4 (some (5 :: List.replicate 31 0)) 32
        (some [9, 9, 9, 9]) 4).out_key = some mem ∧
      mem.take (4 : Int).toNat = List.replicate (4 : Int).toNat 0 :=
  ⟨by decide,
   (ecdsa_failure_destination (fun k => ⟨if k = 3 then 1 else 0, k + 100, 0, none, []⟩)
      (some [7, 0, 0, 0]) 4 (some (5 :: List.replicate 31 0)) 32 [9, 9, 9, 9] 4).1
      (by decide)⟩

/-! ## Argument validation of the importers -/

/-- C7 fails as stated: `sgx_create_rsa_priv2_key` called with `exp_size = 0` and a `NULL`
exponent buffer, every other argument valid and every engine call succeeding, does not
return `SGX_ERROR_INVALID_PARAMETER` (it returns `SGX_SUCCESS`). -/
theorem priv2_ignores_exponent_arguments :
    ¬ (((0 : Int) ≤ 0 ∨ (none : Option Bytes) = none) →
        (sgx_create_rsa_priv2_key ω_ok 8 0 none (some [3, 0, 0, 0]) (some [5, 0, 0, 0])
          (some [1, 0, 0, 0]) (some [1, 0, 0, 0]) (some [2, 0, 0, 0]) (some 0)).ret_code
          = SGX_ERROR_INVALID_PARAMETER) := by
  decide

/-- C7, amended: each importer returns `SGX_ERROR_INVALID_PARAMETER` when an argument it
checks is `NULL` or not positive.  `sgx_create_rsa_pub1_key` and `sgx_create_rsa_priv1_key`
check every argument; `sgx_create_rsa_priv2_key` checks `prime_size`, the five component
buffers and the handle, and its result does not depend on `exp_size` or `g_rsa_key_e`. -/
theorem importers_reject_checked_arguments :
    (∀ (ω : Oracle) (prime_size exp_size : Int) (le_n le_e : Option Bytes)
        (new_pub_key1 : Option Ptr),
        (new_pub_key1 = none ∨ prime_size ≤ 0 ∨ exp_size ≤ 0 ∨ le_n = none ∨ le_e = none) →
        (sgx_create_rsa_pub1_key ω prime_size exp_size le_n le_e new_pub_key1).ret_code
          = SGX_ERROR_INVALID_PARAMETER) ∧
    (∀ (ω : Oracle) (n_byte_size e_byte_size d_byte_size : Int)
        (le_n le_e le_d : Option Bytes) (new_pri_key1 : Option Ptr),
        (n_byte_size ≤ 0 ∨ e_byte_size ≤ 0 ∨ d_byte_size ≤ 0 ∨ new_pri_key1 = none ∨
          le_n = none ∨ le_e = none ∨ le_d = none) →
        (sgx_create_rsa_priv1_key ω n_byte_size e_byte_size d_byte_size le_n le_e le_d
          new_pri_key1).ret_code = SGX_ERROR_INVALID_PARAMETER) ∧
    (∀ (ω : Oracle) (prime_size exp_size : Int) (e p q dmp1 dmq1 iqmp : Option Bytes)
        (new_pri_key2 : Option Ptr),
        (prime_size ≤ 0 ∨ p = none ∨ q = none ∨ dmp1 = none ∨ dmq1 = none ∨ iqmp = none ∨
          new_pri_key2 = none) →
        (sgx_create_rsa_priv2_key ω prime_size exp_size e p q dmp1 dmq1 iqmp
          new_pri_key2).ret_code = SGX_ERROR_INVALID_PARAMETER) ∧
    (∀ (ω : Oracle) (prime_size exp_size exp_size' : Int)
        (e e' p q dmp1 dmq1 iqmp : Option Bytes) (new_pri_key2 : Option Ptr),
        sgx_create_rsa_priv2_key ω prime_size exp_size e p q dmp1 dmq1 iqmp new_pri_key2
          = sgx_create_rsa_priv2_key ω prime_size exp_size' e' p q dmp1 dmq1 iqmp
              new_pri_key2) := by
  refine ⟨?_, ?_, ?_, ?_⟩
  · intro ω prime_size exp_size le_n le_e h hbad
    simp [sgx_create_rsa_pub1_key, hbad]
  · intro ω n e d le_n le_e le_d h hbad
    simp [sgx_create_rsa_priv1_key, hbad]
  · intro ω prime_size exp_size e p q dmp1 dmq1 iqmp h hbad
    simp [sgx_create_rsa_priv2_key, hbad]
  · intros
    rfl

/-- C7, amended, at concrete inputs: a `NULL` modulus for the public importer, a zero
`d_byte_size` for the form-1 importer, a `NULL` handle for the form-2 importer. -/
theorem importers_reject_checked_arguments_witness :
    (sgx_create_rsa_pub1_key ω_ok 8 4 none (some [1, 0, 1, 0]) (some 0)).ret_code
      = SGX_ERROR_INVALID_PARAMETER ∧
    (sgx_create_rsa_priv1_key ω_ok 8 4 0 (some [1]) (some [1]) (some [1]) (some 0)).ret_code
      = SGX_ERROR_INVALID_PARAMETER ∧
    (sgx_create_rsa_priv2_key ω_ok 8 4 (some [1]) (some [3]) (some [5]) (some [1])
      (some [1]) (some [2]) none).ret_code = SGX_ERROR_INVALID_PARAMETER :=
  ⟨importers_reject_checked_arguments.1 ω_ok 8 4 none (some [1, 0, 1, 0]) (some 0)
      (Or.inr (Or.inr (Or.inr (Or.inl rfl)))),
   importers_reject_checked_arguments.2.1 ω_ok 8 4 0 (some [1]) (some [1]) (some [1]) (some 0)
      (Or.inr (Or.inr (Or.inl (by decide)))),
   importers_reject_checked_arguments.2.2.1 ω_ok 8 4 (some [1]) (some [3]) (some [5])
      (some [1]) (some [1]) (some [2]) none
      (Or.inr (Or.inr (Or.inr (Or.inr (Or.inr (Or.inr rfl))))))⟩

/-! ## The importers: handle and key object -/

/-- What the loop body of `sgx_create_rsa_priv2_key` before the handle assignment does, started
with an empty log: it keeps `ret_code` and the handle location, releases
nothing, the only block it allocates is the one `p_rsa2` points to, and when it
runs to its end `p_rsa2` is that block and not `NULL`. -/
theorem priv2_build_run (ω : Oracle) (prime_size : Int) (s : Priv2State)
    (h0 : s.trace = []) :
    (runBody (priv2_build ω prime_size) s).1.ret_code = s.ret_code ∧
    (runBody (priv2_build ω prime_size) s).1.new_pri_key2 = s.new_pri_key2 ∧
    (∀ ev ∈ (runBody (priv2_build ω prime_size) s).1.trace,
      ev.fn ≠ Fn.free ∧ ev.fn ≠ Fn.secure_free_rsa_pri2_key) ∧
    (∀ ev ∈ (runBody (priv2_build ω prime_size) s).1.trace,
      ev.fn = Fn.malloc → ev.ptrs = [(runBody (priv2_build ω prime_size) s).1.p_rsa2]) ∧
    ((runBody (priv2_build ω prime_size) s).2 = false →
      (runBody (priv2_build ω prime_size) s).1.p_rsa2 ≠ 0 ∧
      ∃ sz, (⟨Fn.malloc, [sz], [(runBody (priv2_build ω prime_size) s).1.p_rsa2]⟩ : Event)
        ∈ (runBody (priv2_build ω prime_size) s).1.trace) := by
  refine ⟨?_, ?_, ?_, ?_, ?_⟩
  · refine runBody_frame (fun t : Priv2State => t.ret_code) _ ?_ s
    intro f hf t
    simp only [priv2_build, priv2_components, priv2_alloc, priv2_setup, List.mem_append,
      List.mem_cons, List.mem_singleton, List.not_mem_nil, or_false] at hf
    rcases hf with (rfl | rfl | rfl | rfl | rfl | rfl) | rfl | rfl | rfl <;> rfl
  · refine runBody_frame (fun t : Priv2State => t.new_pri_key2) _ ?_ s
    intro f hf t
    simp only [priv2_build, priv2_components, priv2_alloc, priv2_setup, List.mem_append,
      List.mem_cons, List.mem_singleton, List.not_mem_nil, or_false] at hf
    rcases hf with (rfl | rfl | rfl | rfl | rfl | rfl) | rfl | rfl | rfl <;> rfl
  · refine runBody_inv (fun t : Priv2State => ∀ ev ∈ t.trace,
      ev.fn ≠ Fn.free ∧ ev.fn ≠ Fn.secure_free_rsa_pri2_key) _ ?_ s (by simp [h0])
    intro f hf t ht
    simp only [priv2_build, priv2_components, priv2_alloc, priv2_setup, List.mem_append,
      List.mem_cons, List.mem_singleton, List.not_mem_nil, or_false] at hf
    rcases hf with (rfl | rfl | rfl | rfl | rfl | rfl) | rfl | rfl | rfl <;>
      · intro ev hev
        simp only [priv2_alloc, List.mem_append, List.mem_singleton] at hev
        rcases hev with hev | rfl
        · exact ht ev hev
        · simp
  · have := runBody_two_phase
      (fun t : Priv2State => ∀ ev ∈ t.trace, ev.fn ≠ Fn.malloc)
      (fun t : Priv2State => ∀ ev ∈ t.trace, ev.fn = Fn.malloc → ev.ptrs = [t.p_rsa2])
      (priv2_components ω prime_size) (priv2_alloc ω) (priv2_setup ω prime_size)
      (by
        intro f hf t ht
        simp only [priv2_components, List.mem_cons, List.mem_singleton, List.not_mem_nil,
          or_false] at hf
        rcases hf with rfl | rfl | rfl | rfl | rfl | rfl <;>
          · intro ev hev
            simp only [List.mem_append, List.mem_singleton] at hev
            rcases hev with hev | rfl
            · exact ht ev hev
            · simp)
      (by
        intro t ht ev hev
        simp only [priv2_alloc, List.mem_append, List.mem_singleton] at hev
        rcases hev with hev | rfl
        · intro h; exact absurd h (ht ev hev)
        · simp [priv2_alloc])
      (by
        intro f hf t ht
        simp only [priv2_setup, List.mem_cons, List.mem_singleton, List.not_mem_nil,
          or_false] at hf
        rcases hf with rfl | rfl <;>
          · intro ev hev
            simp only [List.mem_append, List.mem_singleton] at hev
            rcases hev with hev | rfl
            · exact ht ev hev
            · simp)
      s (by simp [h0])
    rcases this with h | h
    · intro ev hev hm
      exact absurd hm (h ev hev)
    · exact h
  · intro hc
    refine runBody_completed
      (fun t : Priv2State => t.p_rsa2 ≠ 0 ∧
        ∃ sz, (⟨Fn.malloc, [sz], [t.p_rsa2]⟩ : Event) ∈ t.trace)
      (priv2_build ω prime_size) (priv2_alloc ω) (by simp [priv2_build]) ?_ ?_ s hc
    · intro t ht
      simp only [priv2_alloc, NULL_BREAK, beq_eq_false_iff_ne, ne_eq] at ht ⊢
      exact ⟨ht, t.rsa2_size, by simp⟩
    · intro f hf t ht hb
      simp only [priv2_build, priv2_components, priv2_alloc, priv2_setup, List.mem_append,
        List.mem_cons, List.mem_singleton, List.not_mem_nil, or_false] at hf
      obtain ⟨hne, sz, hsz⟩ := ht
      rcases hf with (rfl | rfl | rfl | rfl | rfl | rfl) | rfl | rfl | rfl
      all_goals first
        | exact ⟨hne, sz, by simp [hsz]⟩
        | (simp only [priv2_alloc, NULL_BREAK, beq_eq_false_iff_ne, ne_eq] at hb ⊢
           exact ⟨hb, t.rsa2_size, by simp⟩)

/-- The outcomes of `sgx_create_rsa_priv2_key`.  When it does not return `SGX_SUCCESS` the
handle location is as before the call and every block `malloc` handed out was
passed to `secure_free_rsa_pri2_key`; when it returns `SGX_ERROR_UNEXPECTED` that
function was called on the key pointer; when it returns `SGX_SUCCESS` the handle
location holds the allocated key object, which was not released. -/
theorem priv2_outcome (ω : Oracle) (prime_size exp_size : Int)
    (e p q dmp1 dmq1 iqmp : Option Bytes) (h : Option Ptr) (r : Priv2State)
    (hr : r = sgx_create_rsa_priv2_key ω prime_size exp_size e p q dmp1 dmq1 iqmp h) :
    (r.ret_code ≠ SGX_SUCCESS →
      r.new_pri_key2 = h ∧
      ∀ a sz, a ≠ 0 → (⟨Fn.malloc, [sz], [a]⟩ : Event) ∈ r.trace →
        (⟨Fn.secure_free_rsa_pri2_key, [prime_size], [a]⟩ : Event) ∈ r.trace) ∧
    (r.ret_code = SGX_ERROR_UNEXPECTED →
      (⟨Fn.secure_free_rsa_pri2_key, [prime_size], [r.p_rsa2]⟩ : Event) ∈ r.trace) ∧
    (r.ret_code = SGX_SUCCESS →
      r.new_pri_key2 = some r.p_rsa2 ∧ r.p_rsa2 ≠ 0 ∧
      (∃ sz, (⟨Fn.malloc, [sz], [r.p_rsa2]⟩ : Event) ∈ r.trace) ∧
      ∀ ev ∈ r.trace, ev.fn ≠ Fn.free ∧ ev.fn ≠ Fn.secure_free_rsa_pri2_key) := by
  subst hr
  unfold sgx_create_rsa_priv2_key
  by_cases hbad : (prime_size ≤ 0 ∨ p = none ∨ q = none ∨ dmp1 = none ∨
      dmq1 = none ∨ iqmp = none ∨ h = none)
  · simp [hbad]
  · obtain ⟨h', rfl⟩ : ∃ h', h = some h' := by
      cases h with
      | none => simp at hbad
      | some v => exact ⟨v, rfl⟩
    have hrun := priv2_build_run ω prime_size
      { p_rsa2 := 0, p_p := 0, p_q := 0, p_dmp1 := 0, p_dmq1 := 0, p_iqmp := 0,
        rsa2_size := 0, ret_code := SGX_ERROR_UNEXPECTED, error_code := ippStsNoErr,
        new_pri_key2 := some h', trace := [] } rfl
    simp only [hbad, if_false, runBody_append]
    generalize runBody (priv2_build ω prime_size)
      { p_rsa2 := 0, p_p := 0, p_q := 0, p_dmp1 := 0, p_dmq1 := 0, p_iqmp := 0,
        rsa2_size := 0, ret_code := SGX_ERROR_UNEXPECTED, error_code := ippStsNoErr,
        new_pri_key2 := some h', trace := [] } = R at hrun ⊢
    obtain ⟨t, b⟩ := R
    obtain ⟨h1, h2, h3, h4, h5⟩ := hrun
    simp only at h1 h2 h3 h4 h5
    cases b
    · obtain ⟨hne, sz, hsz⟩ := h5 rfl
      simp only [Bool.false_eq_true, if_false, runBody, priv2_publish, h2, Option.map_some',
        ne_eq, not_true_eq_false, if_false, false_implies, true_and, true_implies,
        reduceCtorEq]
      refine ⟨hne, ⟨sz, by simp [hsz]⟩, ?_⟩
      intro ev hev
      simp only [List.mem_append, List.mem_cons, List.mem_singleton, List.not_mem_nil,
        or_false] at hev
      rcases hev with hev | rfl | rfl | rfl | rfl | rfl
      · exact h3 ev hev
      all_goals simp
    · simp only [if_true, h1, h2, ne_eq, reduceCtorEq, not_false_eq_true, if_true,
        true_implies, false_implies, and_true, true_and]
      refine ⟨?_, by simp⟩
      intro a sz ha hmem
      simp only [List.mem_append, List.mem_cons, List.mem_singleton, List.not_mem_nil,
        or_false, Event.mk.injEq, reduceCtorEq, false_and, or_self] at hmem
      have := h4 _ hmem rfl
      simp only [List.cons.injEq, and_true] at this
      subst this
      simp

/-- What the loop body of `sgx_create_rsa_pub1_key` before the handle assignment does, started
with an empty log: it keeps `ret_code` and the handle location, releases
nothing, the only block it allocates is the one `p_pub_key` points to, and when it
runs to its end `p_pub_key` is that block and not `NULL`. -/
theorem pub1_build_run (ω : Oracle) (prime_size exp_size : Int) (s : Pub1State)
    (h0 : s.trace = []) :
    (runBody (pub1_build ω prime_size exp_size) s).1.ret_code = s.ret_code ∧
    (runBody (pub1_build ω prime_size exp_size) s).1.new_pub_key1 = s.new_pub_key1 ∧
    (∀ ev ∈ (runBody (pub1_build ω prime_size exp_size) s).1.trace,
      ev.fn ≠ Fn.free ∧ ev.fn ≠ Fn.secure_free_rsa_pub_key) ∧
    (∀ ev ∈ (runBody (pub1_build ω prime_size exp_size) s).1.trace,
      ev.fn = Fn.malloc → ev.ptrs = [(runBody (pub1_build ω prime_size exp_size) s).1.p_pub_key]) ∧
    ((runBody (pub1_build ω prime_size exp_size) s).2 = false →
      (runBody (pub1_build ω prime_size exp_size) s).1.p_pub_key ≠ 0 ∧
      ∃ sz, (⟨Fn.malloc, [sz], [(runBody (pub1_build ω prime_size exp_size) s).1.p_pub_key]⟩ : Event)
        ∈ (runBody (pub1_build ω prime_size exp_size) s).1.trace) := by
  refine ⟨?_, ?_, ?_, ?_, ?_⟩
  · refine runBody_frame (fun t : Pub1State => t.ret_code) _ ?_ s
    intro f hf t
    simp only [pub1_build, pub1_components, pub1_alloc, pub1_setup, List.mem_append,
      List.mem_cons, List.mem_singleton, List.not_mem_nil, or_false] at hf
    rcases hf with (rfl | rfl | rfl) | rfl | rfl | rfl <;> rfl
  · refine runBody_frame (fun t : Pub1State => t.new_pub_key1) _ ?_ s
    intro f hf t
    simp only [pub1_build, pub1_components, pub1_alloc, pub1_setup, List.mem_append,
      List.mem_cons, List.mem_singleton, List.not_mem_nil, or_false] at hf
    rcases hf with (rfl | rfl | rfl) | rfl | rfl | rfl <;> rfl
  · refine runBody_inv (fun t : Pub1State => ∀ ev ∈ t.trace,
      ev.fn ≠ Fn.free ∧ ev.fn ≠ Fn.secure_free_rsa_pub_key) _ ?_ s (by simp [h0])
    intro f hf t ht
    simp only [pub1_build, pub1_components, pub1_alloc, pub1_setup, List.mem_append,
      List.mem_cons, List.mem_singleton, List.not_mem_nil, or_false] at hf
    rcases hf with (rfl | rfl | rfl) | rfl | rfl | rfl <;>
      · intro ev hev
        simp only [pub1_alloc, List.mem_append, List.mem_singleton] at hev
        rcases hev with hev | rfl
        · exact ht ev hev
        · simp
  · have := runBody_two_phase
      (fun t : Pub1State => ∀ ev ∈ t.trace, ev.fn ≠ Fn.malloc)
      (fun t : Pub1State => ∀ ev ∈ t.trace, ev.fn = Fn.malloc → ev.ptrs = [t.p_pub_key])
      (pub1_components ω prime_size exp_size) (pub1_alloc ω) (pub1_setup ω prime_size exp_size)
      (by
        intro f hf t ht
        simp only [pub1_components, List.mem_cons, List.mem_singleton, List.not_mem_nil,
          or_false] at hf
        rcases hf with rfl | rfl | rfl <;>
          · intro ev hev
            simp only [List.mem_append, List.mem_singleton] at hev
            rcases hev with hev | rfl
            · exact ht ev hev
            · simp)
      (by
        intro t ht ev hev
        simp only [pub1_alloc, List.mem_append, List.mem_singleton] at hev
        rcases hev with hev | rfl
        · intro h; exact absurd h (ht ev hev)
        · simp [pub1_alloc])
      (by
        intro f hf t ht
        simp only [pub1_setup, List.mem_cons, List.mem_singleton, List.not_mem_nil,
          or_false] at hf
        rcases hf with rfl | rfl <;>
          · intro ev hev
            simp only [List.mem_append, List.mem_singleton] at hev
            rcases hev with hev | rfl
            · exact ht ev hev
            · simp)
      s (by simp [h0])
    rcases this with h | h
    · intro ev hev hm
      exact absurd hm (h ev hev)
    · exact h
  · intro hc
    refine runBody_completed
      (fun t : Pub1State => t.p_pub_key ≠ 0 ∧
        ∃ sz, (⟨Fn.malloc, [sz], [t.p_pub_key]⟩ : Event) ∈ t.trace)
      (pub1_build ω prime_size exp_size) (pub1_alloc ω) (by simp [pub1_build]) ?_ ?_ s hc
    · intro t ht
      simp only [pub1_alloc, NULL_BREAK, beq_eq_false_iff_ne, ne_eq] at ht ⊢
      exact ⟨ht, t.rsa_size, by simp⟩
    · intro f hf t ht hb
      simp only [pub1_build, pub1_components, pub1_alloc, pub1_setup, List.mem_append,
        List.mem_cons, List.mem_singleton, List.not_mem_nil, or_false] at hf
      obtain ⟨hne, sz, hsz⟩ := ht
      rcases hf with (rfl | rfl | rfl) | rfl | rfl | rfl
      all_goals first
        | exact ⟨hne, sz, by simp [hsz]⟩
        | (simp only [pub1_alloc, NULL_BREAK, beq_eq_false_iff_ne, ne_eq] at hb ⊢
           exact ⟨hb, t.rsa_size, by simp⟩)

/-- The outcomes of `sgx_create_rsa_pub1_key`.  When it does not return `SGX_SUCCESS` the
handle location is as before the call and every block `malloc` handed out was
passed to `secure_free_rsa_pub_key`; when it returns `SGX_ERROR_UNEXPECTED` that
function was called on the key pointer; when it returns `SGX_SUCCESS` the handle
location holds the allocated key object, which was not released. -/
theorem pub1_outcome (ω : Oracle) (prime_size exp_size : Int)
    (le_n le_e : Option Bytes) (h : Option Ptr) (r : Pub1State)
    (hr : r = sgx_create_rsa_pub1_key ω prime_size exp_size le_n le_e h) :
    (r.ret_code ≠ SGX_SUCCESS →
      r.new_pub_key1 = h ∧
      ∀ a sz, a ≠ 0 → (⟨Fn.malloc, [sz], [a]⟩ : Event) ∈ r.trace →
        (⟨Fn.secure_free_rsa_pub_key, [prime_size, exp_size], [a]⟩ : Event) ∈ r.trace) ∧
    (r.ret_code = SGX_ERROR_UNEXPECTED →
      (⟨Fn.secure_free_rsa_pub_key, [prime_size, exp_size], [r.p_pub_key]⟩ : Event) ∈ r.trace) ∧
    (r.ret_code = SGX_SUCCESS →
      r.new_pub_key1 = some r.p_pub_key ∧ r.p_pub_key ≠ 0 ∧
      (∃ sz, (⟨Fn.malloc, [sz], [r.p_pub_key]⟩ : Event) ∈ r.trace) ∧
      ∀ ev ∈ r.trace, ev.fn ≠ Fn.free ∧ ev.fn ≠ Fn.secure_free_rsa_pub_key) := by
  subst hr
  unfold sgx_create_rsa_pub1_key
  by_cases hbad : (h = none ∨ prime_size ≤ 0 ∨ exp_size ≤ 0 ∨ le_n = none ∨ le_e = none)
  · simp [hbad]
  · obtain ⟨h', rfl⟩ : ∃ h', h = some h' := by
      cases h with
      | none => simp at hbad
      | some v => exact ⟨v, rfl⟩
    have hrun := pub1_build_run ω prime_size exp_size
      { p_pub_key := 0, p_n := 0, p_e := 0, rsa_size := 0,
        ret_code := SGX_ERROR_UNEXPECTED, error_code := ippStsNoErr,
        new_pub_key1 := some h', trace := [] } rfl
    simp only [hbad, if_false, runBody_append]
    generalize runBody (pub1_build ω prime_size exp_size)
      { p_pub_key := 0, p_n := 0, p_e := 0, rsa_size := 0,
        ret_code := SGX_ERROR_UNEXPECTED, error_code := ippStsNoErr,
        new_pub_key1 := some h', trace := [] } = R at hrun ⊢
    obtain ⟨t, b⟩ := R
    obtain ⟨h1, h2, h3, h4, h5⟩ := hrun
    simp only at h1 h2 h3 h4 h5
    cases b
    · obtain ⟨hne, sz, hsz⟩ := h5 rfl
      simp only [Bool.false_eq_true, if_false, runBody, pub1_publish, h2, Option.map_some',
        ne_eq, not_true_eq_false, if_false, false_implies, true_and, true_implies,
        reduceCtorEq]
      refine ⟨hne, ⟨sz, by simp [hsz]⟩, ?_⟩
      intro ev hev
      simp only [List.mem_append, List.mem_cons, List.mem_singleton, List.not_mem_nil,
        or_false] at hev
      rcases hev with hev | rfl | rfl
      · exact h3 ev hev
      all_goals simp
    · simp only [if_true, h1, h2, ne_eq, reduceCtorEq, not_false_eq_true, if_true,
        true_implies, false_implies, and_true, true_and]
      refine ⟨?_, by simp⟩
      intro a sz ha hmem
      simp only [List.mem_append, List.mem_cons, List.mem_singleton, List.not_mem_nil,
        or_false, Event.mk.injEq, reduceCtorEq, false_and, or_self] at hmem
      have := h4 _ hmem rfl
      simp only [List.cons.injEq, and_true] at this
      subst this
      simp

/-- What the loop body of `sgx_create_rsa_priv1_key` before the handle assignment does, started
with an empty log: it keeps `ret_code` and the handle location, releases
nothing, the only block it allocates is the one `p_rsa1` points to, and when it
runs to its end `p_rsa1` is that block and not `NULL`. -/
theorem priv1_build_run (ω : Oracle) (n_byte_size d_byte_size : Int) (s : Priv1State)
    (h0 : s.trace = []) :
    (runBody (priv1_build ω n_byte_size d_byte_size) s).1.ret_code = s.ret_code ∧
    (runBody (priv1_build ω n_byte_size d_byte_size) s).1.new_pri_key1 = s.new_pri_key1 ∧
    (∀ ev ∈ (runBody (priv1_build ω n_byte_size d_byte_size) s).1.trace,
      ev.fn ≠ Fn.free ∧ ev.fn ≠ Fn.secure_free_rsa_pri1_key) ∧
    (∀ ev ∈ (runBody (priv1_build ω n_byte_size d_byte_size) s).1.trace,
      ev.fn = Fn.malloc → ev.ptrs = [(runBody (priv1_build ω n_byte_size d_byte_size) s).1.p_rsa1]) ∧
    ((runBody (priv1_build ω n_byte_size d_byte_size) s).2 = false →
      (runBody (priv1_build ω n_byte_size d_byte_size) s).1.p_rsa1 ≠ 0 ∧
      ∃ sz, (⟨Fn.malloc, [sz], [(runBody (priv1_build ω n_byte_size d_byte_size) s).1.p_rsa1]⟩ : Event)
        ∈ (runBody (priv1_build ω n_byte_size d_byte_size) s).1.trace) := by
  refine ⟨?_, ?_, ?_, ?_, ?_⟩
  · refine runBody_frame (fun t : Priv1State => t.ret_code) _ ?_ s
    intro f hf t
    simp only [priv1_build, priv1_components, priv1_alloc, priv1_setup, List.mem_append,
      List.mem_cons, List.mem_singleton, List.not_mem_nil, or_false] at hf
    rcases hf with (rfl | rfl | rfl) | rfl | rfl | rfl <;> rfl
  · refine runBody_frame (fun t : Priv1State => t.new_pri_key1) _ ?_ s
    intro f hf t
    simp only [priv1_build, priv1_components, priv1_alloc, priv1_setup, List.mem_append,
      List.mem_cons, List.mem_singleton, List.not_mem_nil, or_false] at hf
    rcases hf with (rfl | rfl | rfl) | rfl | rfl | rfl <;> rfl
  · refine runBody_inv (fun t : Priv1State => ∀ ev ∈ t.trace,
      ev.fn ≠ Fn.free ∧ ev.fn ≠ Fn.secure_free_rsa_pri1_key) _ ?_ s (by simp [h0])
    intro f hf t ht
    simp only [priv1_build, priv1_components, priv1_alloc, priv1_setup, List.mem_append,
      List.mem_cons, List.mem_singleton, List.not_mem_nil, or_false] at hf
    rcases hf with (rfl | rfl | rfl) | rfl | rfl | rfl <;>
      · intro ev hev
        simp only [priv1_alloc, List.mem_append, List.mem_singleton] at hev
        rcases hev with hev | rfl
        · exact ht ev hev
        · simp
  · have := runBody_two_phase
      (fun t : Priv1State => ∀ ev ∈ t.trace, ev.fn ≠ Fn.malloc)
      (fun t : Priv1State => ∀ ev ∈ t.trace, ev.fn = Fn.malloc → ev.ptrs = [t.p_rsa1])
      (priv1_components ω n_byte_size d_byte_size) (priv1_alloc ω) (priv1_setup ω n_byte_size d_byte_size)
      (by
        intro f hf t ht
        simp only [priv1_components, List.mem_cons, List.mem_singleton, List.not_mem_nil,
          or_false] at hf
        rcases hf with rfl | rfl | rfl <;>
          · intro ev hev
            simp only [List.mem_append, List.mem_singleton] at hev
            rcases hev with hev | rfl
            · exact ht ev hev
            · simp)
      (by
        intro t ht ev hev
        simp only [priv1_alloc, List.mem_append, List.mem_singleton] at hev
        rcases hev with hev | rfl
        · intro h; exact absurd h (ht ev hev)
        · simp [priv1_alloc])
      (by
        intro f hf t ht
        simp only [priv1_setup, List.mem_cons, List.mem_singleton, List.not_mem_nil,
          or_false] at hf
        rcases hf with rfl | rfl <;>
          · intro ev hev
            simp only [List.mem_append, List.mem_singleton] at hev
            rcases hev with hev | rfl
            · exact ht ev hev
            · simp)
      s (by simp [h0])
    rcases this with h | h
    · intro ev hev hm
      exact absurd hm (h ev hev)
    · exact h
  · intro hc
    refine runBody_completed
      (fun t : Priv1State => t.p_rsa1 ≠ 0 ∧
        ∃ sz, (⟨Fn.malloc, [sz], [t.p_rsa1]⟩ : Event) ∈ t.trace)
      (priv1_build ω n_byte_size d_byte_size) (priv1_alloc ω) (by simp [priv1_build]) ?_ ?_ s hc
    · intro t ht
      simp only [priv1_alloc, NULL_BREAK, beq_eq_false_iff_ne, ne_eq] at ht ⊢
      exact ⟨ht, t.rsa1_size, by simp⟩
    · intro f hf t ht hb
      simp only [priv1_build, priv1_components, priv1_alloc, priv1_setup, List.mem_append,
        List.mem_cons, List.mem_singleton, List.not_mem_nil, or_false] at hf
      obtain ⟨hne, sz, hsz⟩ := ht
      rcases hf with (rfl | rfl | rfl) | rfl | rfl | rfl
      all_goals first
        | exact ⟨hne, sz, by simp [hsz]⟩
        | (simp only [priv1_alloc, NULL_BREAK, beq_eq_false_iff_ne, ne_eq] at hb ⊢
           exact ⟨hb, t.rsa1_size, by simp⟩)

/-- The outcomes of `sgx_create_rsa_priv1_key`.  When it does not return `SGX_SUCCESS` the
handle location is as before the call and every block `malloc` handed out was
passed to `secure_free_rsa_pri1_key`; when it returns `SGX_ERROR_UNEXPECTED` that
function was called on the key pointer; when it returns `SGX_SUCCESS` the handle
location holds the allocated key object, which was not released. -/
theorem priv1_outcome (ω : Oracle) (n_byte_size e_byte_size d_byte_size : Int)
    (le_n le_e le_d : Option Bytes) (h : Option Ptr) (r : Priv1State)
    (hr : r = sgx_create_rsa_priv1_key ω n_byte_size e_byte_size d_byte_size le_n le_e le_d h) :
    (r.ret_code ≠ SGX_SUCCESS →
      r.new_pri_key1 = h ∧
      ∀ a sz, a ≠ 0 → (⟨Fn.malloc, [sz], [a]⟩ : Event) ∈ r.trace →
        (⟨Fn.secure_free_rsa_pri1_key, [n_byte_size, d_byte_size], [a]⟩ : Event) ∈ r.trace) ∧
    (r.ret_code = SGX_ERROR_UNEXPECTED →
      (⟨Fn.secure_free_rsa_pri1_key, [n_byte_size, d_byte_size], [r.p_rsa1]⟩ : Event) ∈ r.trace) ∧
    (r.ret_code = SGX_SUCCESS →
      r.new_pri_key1 = some r.p_rsa1 ∧ r.p_rsa1 ≠ 0 ∧
      (∃ sz, (⟨Fn.malloc, [sz], [r.p_rsa1]⟩ : Event) ∈ r.trace) ∧
      ∀ ev ∈ r.trace, ev.fn ≠ Fn.free ∧ ev.fn ≠ Fn.secure_free_rsa_pri1_key) := by
  subst hr
  unfold sgx_create_rsa_priv1_key
  by_cases hbad : (n_byte_size ≤ 0 ∨ e_byte_size ≤ 0 ∨ d_byte_size ≤ 0 ∨ h = none ∨
      le_n = none ∨ le_e = none ∨ le_d = none)
  · simp [hbad]
  · obtain ⟨h', rfl⟩ : ∃ h', h = some h' := by
      cases h with
      | none => simp at hbad
      | some v => exact ⟨v, rfl⟩
    have hrun := priv1_build_run ω n_byte_size d_byte_size
      { p_rsa1 := 0, p_n := 0, p_d := 0, rsa1_size := 0,
        ret_code := SGX_ERROR_UNEXPECTED, error_code := ippStsNoErr,
        new_pri_key1 := some h', trace := [] } rfl
    simp only [hbad, if_false, runBody_append]
    generalize runBody (priv1_build ω n_byte_size d_byte_size)
      { p_rsa1 := 0, p_n := 0, p_d := 0, rsa1_size := 0,
        ret_code := SGX_ERROR_UNEXPECTED, error_code := ippStsNoErr,
        new_pri_key1 := some h', trace := [] } = R at hrun ⊢
    obtain ⟨t, b⟩ := R
    obtain ⟨h1, h2, h3, h4, h5⟩ := hrun
    simp only at h1 h2 h3 h4 h5
    cases b
    · obtain ⟨hne, sz, hsz⟩ := h5 rfl
      simp only [Bool.false_eq_true, if_false, runBody, priv1_publish, h2, Option.map_some',
        ne_eq, not_true_eq_false, if_false, false_implies, true_and, true_implies,
        reduceCtorEq]
      refine ⟨hne, ⟨sz, by simp [hsz]⟩, ?_⟩
      intro ev hev
      simp only [List.mem_append, List.mem_cons, List.mem_singleton, List.not_mem_nil,
        or_false] at hev
      rcases hev with hev | rfl | rfl
      · exact h3 ev hev
      all_goals simp
    · simp only [if_true, h1, h2, ne_eq, reduceCtorEq, not_false_eq_true, if_true,
        true_implies, false_implies, and_true, true_and]
      refine ⟨?_, by simp⟩
      intro a sz ha hmem
      simp only [List.mem_append, List.mem_cons, List.mem_singleton, List.not_mem_nil,
        or_false, Event.mk.injEq, reduceCtorEq, false_and, or_self] at hmem
      have := h4 _ hmem rfl
      simp only [List.cons.injEq, and_true] at this
      subst this
      simp

/-- A successful `sgx_create_rsa_priv2_key`, in full: every engine call of the body
reported success and `malloc` handed out a block; the log is the one below,
call for call, so the object in `p_rsa2` is the block that was sized by the
engine, initialised for the requested sizes and given the components built
from the caller's buffers; and nothing but the BigIntegers was released. -/
theorem priv2_success_log (ω : Oracle) (prime_size exp_size : Int)
    (e p q dmp1 dmq1 iqmp : Option Bytes) (h : Option Ptr) (r : Priv2State)
    (hr : r = sgx_create_rsa_priv2_key ω prime_size exp_size e p q dmp1 dmq1 iqmp h)
    (hs : r.ret_code = SGX_SUCCESS) :
    ((ω 0).status = ippStsNoErr ∧
      (ω 1).status = ippStsNoErr ∧
      (ω 2).status = ippStsNoErr ∧
      (ω 3).status = ippStsNoErr ∧
      (ω 4).status = ippStsNoErr ∧
      (ω 5).status = ippStsNoErr ∧
      (ω 6).ptr ≠ 0 ∧
      (ω 7).status = ippStsNoErr ∧
      (ω 8).status = ippStsNoErr) ∧
    r.p_rsa2 = (ω 6).ptr ∧
    r.trace =
      [ ⟨Fn.newBN, [prime_size / 2], [(ω 0).ptr]⟩,
        ⟨Fn.newBN, [prime_size / 2], [(ω 1).ptr]⟩,
        ⟨Fn.newBN, [prime_size / 2], [(ω 2).ptr]⟩,
        ⟨Fn.newBN, [prime_size / 2], [(ω 3).ptr]⟩,
        ⟨Fn.newBN, [prime_size / 2], [(ω 4).ptr]⟩,
        ⟨Fn.ippsRSA_GetSizePrivateKeyType2, [prime_size / 2 * 8, prime_size / 2 * 8], []⟩,
        ⟨Fn.malloc, [(ω 5).size], [(ω 6).ptr]⟩,
        ⟨Fn.ippsRSA_InitPrivateKeyType2,
          [prime_size / 2 * 8, prime_size / 2 * 8, (ω 5).size], [(ω 6).ptr]⟩,
        ⟨Fn.ippsRSA_SetPrivateKeyType2, [],
          [(ω 0).ptr, (ω 1).ptr, (ω 2).ptr, (ω 3).ptr, (ω 4).ptr, (ω 6).ptr]⟩,
        ⟨Fn.secure_free_BN, [prime_size / 2], [(ω 0).ptr]⟩,
        ⟨Fn.secure_free_BN, [prime_size / 2], [(ω 1).ptr]⟩,
        ⟨Fn.secure_free_BN, [prime_size / 2], [(ω 2).ptr]⟩,
        ⟨Fn.secure_free_BN, [prime_size / 2], [(ω 3).ptr]⟩,
        ⟨Fn.secure_free_BN, [prime_size / 2], [(ω 4).ptr]⟩ ] := by
  subst hr
  have hc : ¬ (prime_size ≤ 0 ∨ p = none ∨ q = none ∨ dmp1 = none ∨
      dmq1 = none ∨ iqmp = none ∨ h = none) := by
    intro hbad
    simp [sgx_create_rsa_priv2_key, hbad] at hs
  have hbroke := runBody_broke_const (priv2_build ω prime_size)
    [ERROR_BREAK (ω 0).status, ERROR_BREAK (ω 1).status, ERROR_BREAK (ω 2).status, ERROR_BREAK (ω 3).status, ERROR_BREAK (ω 4).status, ERROR_BREAK (ω 5).status, NULL_BREAK (ω 6).ptr, ERROR_BREAK (ω 7).status, ERROR_BREAK (ω 8).status]
    (by simp [priv2_build, priv2_components, priv2_alloc, priv2_setup])
    { p_rsa2 := 0, p_p := 0, p_q := 0, p_dmp1 := 0, p_dmq1 := 0, p_iqmp := 0,
      rsa2_size := 0, ret_code := SGX_ERROR_UNEXPECTED, error_code := ippStsNoErr,
      new_pri_key2 := h, trace := [] }
  have hret := (priv2_build_run ω prime_size
    { p_rsa2 := 0, p_p := 0, p_q := 0, p_dmp1 := 0, p_dmq1 := 0, p_iqmp := 0,
      rsa2_size := 0, ret_code := SGX_ERROR_UNEXPECTED, error_code := ippStsNoErr,
      new_pri_key2 := h, trace := [] } rfl).1
  have hflags : (ERROR_BREAK (ω 0).status = false ∧
      ERROR_BREAK (ω 1).status = false ∧
      ERROR_BREAK (ω 2).status = false ∧
      ERROR_BREAK (ω 3).status = false ∧
      ERROR_BREAK (ω 4).status = false ∧
      ERROR_BREAK (ω 5).status = false ∧
      NULL_BREAK (ω 6).ptr = false ∧
      ERROR_BREAK (ω 7).status = false ∧
      ERROR_BREAK (ω 8).status = false) := by
    by_contra hne
    have hb : (runBody (priv2_build ω prime_size)
      { p_rsa2 := 0, p_p := 0, p_q := 0, p_dmp1 := 0, p_dmq1 := 0, p_iqmp := 0,
        rsa2_size := 0, ret_code := SGX_ERROR_UNEXPECTED, error_code := ippStsNoErr,
        new_pri_key2 := h, trace := [] }).2 = true := by
      rw [hbroke]
      simp only [List.any_cons, List.any_nil, id, Bool.or_false, Bool.or_eq_true]
      by_contra hall
      apply hne
      simp only [not_or, Bool.not_eq_true] at hall
      exact hall
    unfold sgx_create_rsa_priv2_key at hs
    simp only [hc, if_false, runBody_append, hb, if_true, hret] at hs
    split at hs <;> simp at hs
  obtain ⟨f0, f1, f2, f3, f4, f5, f6, f7, f8⟩ := hflags
  have e0 : (ω 0).status = ippStsNoErr := by simpa [ERROR_BREAK] using f0
  have e1 : (ω 1).status = ippStsNoErr := by simpa [ERROR_BREAK] using f1
  have e2 : (ω 2).status = ippStsNoErr := by simpa [ERROR_BREAK] using f2
  have e3 : (ω 3).status = ippStsNoErr := by simpa [ERROR_BREAK] using f3
  have e4 : (ω 4).status = ippStsNoErr := by simpa [ERROR_BREAK] using f4
  have e5 : (ω 5).status = ippStsNoErr := by simpa [ERROR_BREAK] using f5
  have e6 : (ω 6).ptr ≠ 0 := by simpa [NULL_BREAK] using f6
  have e7 : (ω 7).status = ippStsNoErr := by simpa [ERROR_BREAK] using f7
  have e8 : (ω 8).status = ippStsNoErr := by simpa [ERROR_BREAK] using f8
  refine ⟨⟨e0, e1, e2, e3, e4, e5, e6, e7, e8⟩, ?_, ?_⟩ <;>
    simp [sgx_create_rsa_priv2_key, hc, runBody, priv2_build, priv2_components, priv2_alloc,
      priv2_setup, priv2_publish, ERROR_BREAK, NULL_BREAK, e0, e1, e2, e3, e4, e5, e6, e7, e8, newBN_ptr,
      size_store]

/-- A successful `sgx_create_rsa_pub1_key`, in full: every engine call of the body
reported success and `malloc` handed out a block; the log is the one below,
call for call, so the object in `p_pub_key` is the block that was sized by the
engine, initialised for the requested sizes and given the components built
from the caller's buffers; and nothing but the BigIntegers was released. -/
theorem pub1_success_log (ω : Oracle) (prime_size exp_size : Int)
    (le_n le_e : Option Bytes) (h : Option Ptr) (r : Pub1State)
    (hr : r = sgx_create_rsa_pub1_key ω prime_size exp_size le_n le_e h)
    (hs : r.ret_code = SGX_SUCCESS) :
    ((ω 0).status = ippStsNoErr ∧
      (ω 1).status = ippStsNoErr ∧
      (ω 2).status = ippStsNoErr ∧
      (ω 3).ptr ≠ 0 ∧
      (ω 4).status = ippStsNoErr ∧
      (ω 5).status = ippStsNoErr) ∧
    r.p_pub_key = (ω 3).ptr ∧
    r.trace =
      [ ⟨Fn.newBN, [prime_size], [(ω 0).ptr]⟩,
        ⟨Fn.newBN, [exp_size], [(ω 1).ptr]⟩,
        ⟨Fn.ippsRSA_GetSizePublicKey, [prime_size * 8, exp_size * 8], []⟩,
        ⟨Fn.malloc, [(ω 2).size], [(ω 3).ptr]⟩,
        ⟨Fn.ippsRSA_InitPublicKey, [prime_size * 8, exp_size * 8, (ω 2).size], [(ω 3).ptr]⟩,
        ⟨Fn.ippsRSA_SetPublicKey, [], [(ω 0).ptr, (ω 1).ptr, (ω 3).ptr]⟩,
        ⟨Fn.secure_free_BN, [prime_size], [(ω 0).ptr]⟩,
        ⟨Fn.secure_free_BN, [exp_size], [(ω 1).ptr]⟩ ] := by
  subst hr
  have hc : ¬ (h = none ∨ prime_size ≤ 0 ∨ exp_size ≤ 0 ∨ le_n = none ∨ le_e = none) := by
    intro hbad
    simp [sgx_create_rsa_pub1_key, hbad] at hs
  have hbroke := runBody_broke_const (pub1_build ω prime_size exp_size)
    [ERROR_BREAK (ω 0).status, ERROR_BREAK (ω 1).status, ERROR_BREAK (ω 2).status, NULL_BREAK (ω 3).ptr, ERROR_BREAK (ω 4).status, ERROR_BREAK (ω 5).status]
    (by simp [pub1_build, pub1_components, pub1_alloc, pub1_setup])
    { p_pub_key := 0, p_n := 0, p_e := 0, rsa_size := 0,
      ret_code := SGX_ERROR_UNEXPECTED, error_code := ippStsNoErr,
      new_pub_key1 := h, trace := [] }
  have hret := (pub1_build_run ω prime_size exp_size
    { p_pub_key := 0, p_n := 0, p_e := 0, rsa_size := 0,
      ret_code := SGX_ERROR_UNEXPECTED, error_code := ippStsNoErr,
      new_pub_key1 := h, trace := [] } rfl).1
  have hflags : (ERROR_BREAK (ω 0).status = false ∧
      ERROR_BREAK (ω 1).status = false ∧
      ERROR_BREAK (ω 2).status = false ∧
      NULL_BREAK (ω 3).ptr = false ∧
      ERROR_BREAK (ω 4).status = false ∧
      ERROR_BREAK (ω 5).status = false) := by
    by_contra hne
    have hb : (runBody (pub1_build ω prime_size exp_size)
      { p_pub_key := 0, p_n := 0, p_e := 0, rsa_size := 0,
        ret_code := SGX_ERROR_UNEXPECTED, error_code := ippStsNoErr,
        new_pub_key1 := h, trace := [] }).2 = true := by
      rw [hbroke]
      simp only [List.any_cons, List.any_nil, id, Bool.or_false, Bool.or_eq_true]
      by_contra hall
      apply hne
      simp only [not_or, Bool.not_eq_true] at hall
      exact hall
    unfold sgx_create_rsa_pub1_key at hs
    simp only [hc, if_false, runBody_append, hb, if_true, hret] at hs
    split at hs <;> simp at hs
  obtain ⟨f0, f1, f2, f3, f4, f5⟩ := hflags
  have e0 : (ω 0).status = ippStsNoErr := by simpa [ERROR_BREAK] using f0
  have e1 : (ω 1).status = ippStsNoErr := by simpa [ERROR_BREAK] using f1
  have e2 : (ω 2).status = ippStsNoErr := by simpa [ERROR_BREAK] using f2
  have e3 : (ω 3).ptr ≠ 0 := by simpa [NULL_BREAK] using f3
  have e4 : (ω 4).status = ippStsNoErr := by simpa [ERROR_BREAK] using f4
  have e5 : (ω 5).status = ippStsNoErr := by simpa [ERROR_BREAK] using f5
  refine ⟨⟨e0, e1, e2, e3, e4, e5⟩, ?_, ?_⟩ <;>
    simp [sgx_create_rsa_pub1_key, hc, runBody, pub1_build, pub1_components, pub1_alloc,
      pub1_setup, pub1_publish, ERROR_BREAK, NULL_BREAK, e0, e1, e2, e3, e4, e5, newBN_ptr,
      size_store]

/-- A successful `sgx_create_rsa_priv1_key`, in full: every engine call of the body
reported success and `malloc` handed out a block; the log is the one below,
call for call, so the object in `p_rsa1` is the block that was sized by the
engine, initialised for the requested sizes and given the components built
from the caller's buffers; and nothing but the BigIntegers was released. -/
theorem priv1_success_log (ω : Oracle) (n_byte_size e_byte_size d_byte_size : Int)
    (le_n le_e le_d : Option Bytes) (h : Option Ptr) (r : Priv1State)
    (hr : r = sgx_create_rsa_priv1_key ω n_byte_size e_byte_size d_byte_size le_n le_e le_d h)
    (hs : r.ret_code = SGX_SUCCESS) :
    ((ω 0).status = ippStsNoErr ∧
      (ω 1).status = ippStsNoErr ∧
      (ω 2).status = ippStsNoErr ∧
      (ω 3).ptr ≠ 0 ∧
      (ω 4).status = ippStsNoErr ∧
      (ω 5).status = ippStsNoErr) ∧
    r.p_rsa1 = (ω 3).ptr ∧
    r.trace =
      [ ⟨Fn.newBN, [n_byte_size], [(ω 0).ptr]⟩,
        ⟨Fn.newBN, [d_byte_size], [(ω 1).ptr]⟩,
        ⟨Fn.ippsRSA_GetSizePrivateKeyType1, [n_byte_size * 8, d_byte_size * 8], []⟩,
        ⟨Fn.malloc, [(ω 2).size], [(ω 3).ptr]⟩,
        ⟨Fn.ippsRSA_InitPrivateKeyType1,
          [n_byte_size * 8, d_byte_size * 8, (ω 2).size], [(ω 3).ptr]⟩,
        ⟨Fn.ippsRSA_SetPrivateKeyType1, [], [(ω 0).ptr, (ω 1).ptr, (ω 3).ptr]⟩,
        ⟨Fn.secure_free_BN, [n_byte_size], [(ω 0).ptr]⟩,
        ⟨Fn.secure_free_BN, [d_byte_size], [(ω 1).ptr]⟩ ] := by
  subst hr
  have hc : ¬ (n_byte_size ≤ 0 ∨ e_byte_size ≤ 0 ∨ d_byte_size ≤ 0 ∨ h = none ∨
      le_n = none ∨ le_e = none ∨ le_d = none) := by
    intro hbad
    simp [sgx_create_rsa_priv1_key, hbad] at hs
  have hbroke := runBody_broke_const (priv1_build ω n_byte_size d_byte_size)
    [ERROR_BREAK (ω 0).status, ERROR_BREAK (ω 1).status, ERROR_BREAK (ω 2).status, NULL_BREAK (ω 3).ptr, ERROR_BREAK (ω 4).status, ERROR_BREAK (ω 5).status]
    (by simp [priv1_build, priv1_components, priv1_alloc, priv1_setup])
    { p_rsa1 := 0, p_n := 0, p_d := 0, rsa1_size := 0,
      ret_code := SGX_ERROR_UNEXPECTED, error_code := ippStsNoErr,
      new_pri_key1 := h, trace := [] }
  have hret := (priv1_build_run ω n_byte_size d_byte_size
    { p_rsa1 := 0, p_n := 0, p_d := 0, rsa1_size := 0,
      ret_code := SGX_ERROR_UNEXPECTED, error_code := ippStsNoErr,
      new_pri_key1 := h, trace := [] } rfl).1
  have hflags : (ERROR_BREAK (ω 0).status = false ∧
      ERROR_BREAK (ω 1).status = false ∧
      ERROR_BREAK (ω 2).status = false ∧
      NULL_BREAK (ω 3).ptr = false ∧
      ERROR_BREAK (ω 4).status = false ∧
      ERROR_BREAK (ω 5).status = false) := by
    by_contra hne
    have hb : (runBody (priv1_build ω n_byte_size d_byte_size)
      { p_rsa1 := 0, p_n := 0, p_d := 0, rsa1_size := 0,
        ret_code := SGX_ERROR_UNEXPECTED, error_code := ippStsNoErr,
        new_pri_key1 := h, trace := [] }).2 = true := by
      rw [hbroke]
      simp only [List.any_cons, List.any_nil, id, Bool.or_false, Bool.or_eq_true]
      by_contra hall
      apply hne
      simp only [not_or, Bool.not_eq_true] at hall
      exact hall
    unfold sgx_create_rsa_priv1_key at hs
    simp only [hc, if_false, runBody_append, hb, if_true, hret] at hs
    split at hs <;> simp at hs
  obtain ⟨f0, f1, f2, f3, f4, f5⟩ := hflags
  have e0 : (ω 0).status = ippStsNoErr := by simpa [ERROR_BREAK] using f0
  have e1 : (ω 1).status = ippStsNoErr := by simpa [ERROR_BREAK] using f1
  have e2 : (ω 2).status = ippStsNoErr := by simpa [ERROR_BREAK] using f2
  have e3 : (ω 3).ptr ≠ 0 := by simpa [NULL_BREAK] using f3
  have e4 : (ω 4).status = ippStsNoErr := by simpa [ERROR_BREAK] using f4
  have e5 : (ω 5).status = ippStsNoErr := by simpa [ERROR_BREAK] using f5
  refine ⟨⟨e0, e1, e2, e3, e4, e5⟩, ?_, ?_⟩ <;>
    simp [sgx_create_rsa_priv1_key, hc, runBody, priv1_build, priv1_components, priv1_alloc,
      priv1_setup, priv1_publish, ERROR_BREAK, NULL_BREAK, e0, e1, e2, e3, e4, e5, newBN_ptr,
      size_store]

/-- C4: for each of the three importers, every input and every engine: a result other than
`SGX_SUCCESS` leaves the caller's handle location holding what it held before the call, and
every key object that was allocated has been passed to the importer's secure-free (after an
`SGX_ERROR_UNEXPECTED` the secure-free was called on the key pointer, be it the partial
object or `NULL`; after a rejected argument nothing was built); with `SGX_SUCCESS` the
handle location holds the newly built key object, which is not `NULL` and was neither
freed nor secure-freed: every engine call reported success and the log is exactly the
construction of that object (the BigIntegers of the caller's components, the size query,
the `malloc` of the queried size, the initialisation of that block for the requested sizes,
the assignment of the BigIntegers to it) followed by the release of the BigIntegers. -/
theorem importers_handle_and_key_object :
    (∀ (ω : Oracle) (prime_size exp_size : Int) (e p q dmp1 dmq1 iqmp : Option Bytes)
        (h : Option Ptr) (r : Priv2State),
      r = sgx_create_rsa_priv2_key ω prime_size exp_size e p q dmp1 dmq1 iqmp h →
      (r.ret_code ≠ SGX_SUCCESS →
        r.new_pri_key2 = h ∧
        ∀ a sz, a ≠ 0 → (⟨Fn.malloc, [sz], [a]⟩ : Event) ∈ r.trace →
          (⟨Fn.secure_free_rsa_pri2_key, [prime_size], [a]⟩ : Event) ∈ r.trace) ∧
      (r.ret_code = SGX_ERROR_UNEXPECTED →
        (⟨Fn.secure_free_rsa_pri2_key, [prime_size], [r.p_rsa2]⟩ : Event) ∈ r.trace) ∧
      (r.ret_code = SGX_SUCCESS →
        r.new_pri_key2 = some r.p_rsa2 ∧ r.p_rsa2 ≠ 0 ∧
        (∃ sz, (⟨Fn.malloc, [sz], [r.p_rsa2]⟩ : Event) ∈ r.trace) ∧
        ∀ ev ∈ r.trace, ev.fn ≠ Fn.free ∧ ev.fn ≠ Fn.secure_free_rsa_pri2_key) ∧
      (r.ret_code = SGX_SUCCESS →
        ((ω 0).status = ippStsNoErr ∧
          (ω 1).status = ippStsNoErr ∧
          (ω 2).status = ippStsNoErr ∧
          (ω 3).status = ippStsNoErr ∧
          (ω 4).status = ippStsNoErr ∧
          (ω 5).status = ippStsNoErr ∧
          (ω 6).ptr ≠ 0 ∧
          (ω 7).status = ippStsNoErr ∧
          (ω 8).status = ippStsNoErr) ∧
        r.p_rsa2 = (ω 6).ptr ∧
        r.trace =
          [ ⟨Fn.newBN, [prime_size / 2], [(ω 0).ptr]⟩,
            ⟨Fn.newBN, [prime_size / 2], [(ω 1).ptr]⟩,
            ⟨Fn.newBN, [prime_size / 2], [(ω 2).ptr]⟩,
            ⟨Fn.newBN, [prime_size / 2], [(ω 3).ptr]⟩,
            ⟨Fn.newBN, [prime_size / 2], [(ω 4).ptr]⟩,
            ⟨Fn.ippsRSA_GetSizePrivateKeyType2, [prime_size / 2 * 8, prime_size / 2 * 8], []⟩,
            ⟨Fn.malloc, [(ω 5).size], [(ω 6).ptr]⟩,
            ⟨Fn.ippsRSA_InitPrivateKeyType2,
              [prime_size / 2 * 8, prime_size / 2 * 8, (ω 5).size], [(ω 6).ptr]⟩,
            ⟨Fn.ippsRSA_SetPrivateKeyType2, [],
              [(ω 0).ptr, (ω 1).ptr, (ω 2).ptr, (ω 3).ptr, (ω 4).ptr, (ω 6).ptr]⟩,
            ⟨Fn.secure_free_BN, [prime_size / 2], [(ω 0).ptr]⟩,
            ⟨Fn.secure_free_BN, [prime_size / 2], [(ω 1).ptr]⟩,
            ⟨Fn.secure_free_BN, [prime_size / 2], [(ω 2).ptr]⟩,
            ⟨Fn.secure_free_BN, [prime_size / 2], [(ω 3).ptr]⟩,
            ⟨Fn.secure_free_BN, [prime_size / 2], [(ω 4).ptr]⟩ ])) ∧
    (∀ (ω : Oracle) (prime_size exp_size : Int) (le_n le_e : Option Bytes)
        (h : Option Ptr) (r : Pub1State),
      r = sgx_create_rsa_pub1_key ω prime_size exp_size le_n le_e h →
      (r.ret_code ≠ SGX_SUCCESS →
        r.new_pub_key1 = h ∧
        ∀ a sz, a ≠ 0 → (⟨Fn.malloc, [sz], [a]⟩ : Event) ∈ r.trace →
          (⟨Fn.secure_free_rsa_pub_key, [prime_size, exp_size], [a]⟩ : Event) ∈ r.trace) ∧
      (r.ret_code = SGX_ERROR_UNEXPECTED →
        (⟨Fn.secure_free_rsa_pub_key, [prime_size, exp_size], [r.p_pub_key]⟩ : Event) ∈ r.trace) ∧
      (r.ret_code = SGX_SUCCESS →
        r.new_pub_key1 = some r.p_pub_key ∧ r.p_pub_key ≠ 0 ∧
        (∃ sz, (⟨Fn.malloc, [sz], [r.p_pub_key]⟩ : Event) ∈ r.trace) ∧
        ∀ ev ∈ r.trace, ev.fn ≠ Fn.free ∧ ev.fn ≠ Fn.secure_free_rsa_pub_key) ∧
      (r.ret_code = SGX_SUCCESS →
        ((ω 0).status = ippStsNoErr ∧
          (ω 1).status = ippStsNoErr ∧
          (ω 2).status = ippStsNoErr ∧
          (ω 3).ptr ≠ 0 ∧
          (ω 4).status = ippStsNoErr ∧
          (ω 5).status = ippStsNoErr) ∧
        r.p_pub_key = (ω 3).ptr ∧
        r.trace =
          [ ⟨Fn.newBN, [prime_size], [(ω 0).ptr]⟩,
            ⟨Fn.newBN, [exp_size], [(ω 1).ptr]⟩,
            ⟨Fn.ippsRSA_GetSizePublicKey, [prime_size * 8, exp_size * 8], []⟩,
            ⟨Fn.malloc, [(ω 2).size], [(ω 3).ptr]⟩,
            ⟨Fn.ippsRSA_InitPublicKey, [prime_size * 8, exp_size * 8, (ω 2).size], [(ω 3).ptr]⟩,
            ⟨Fn.ippsRSA_SetPublicKey, [], [(ω 0).ptr, (ω 1).ptr, (ω 3).ptr]⟩,
            ⟨Fn.secure_free_BN, [prime_size], [(ω 0).ptr]⟩,
            ⟨Fn.secure_free_BN, [exp_size], [(ω 1).ptr]⟩ ])) ∧
    (∀ (ω : Oracle) (n_byte_size e_byte_size d_byte_size : Int)
        (le_n le_e le_d : Option Bytes) (h : Option Ptr) (r : Priv1State),
      r = sgx_create_rsa_priv1_key ω n_byte_size e_byte_size d_byte_size le_n le_e le_d h →
      (r.ret_code ≠ SGX_SUCCESS →
        r.new_pri_key1 = h ∧
        ∀ a sz, a ≠ 0 → (⟨Fn.malloc, [sz], [a]⟩ : Event) ∈ r.trace →
          (⟨Fn.secure_free_rsa_pri1_key, [n_byte_size, d_byte_size], [a]⟩ : Event)
            ∈ r.trace) ∧
      (r.ret_code = SGX_ERROR_UNEXPECTED →
        (⟨Fn.secure_free_rsa_pri1_key, [n_byte_size, d_byte_size], [r.p_rsa1]⟩ : Event) ∈ r.trace) ∧
      (r.ret_code = SGX_SUCCESS →
        r.new_pri_key1 = some r.p_rsa1 ∧ r.p_rsa1 ≠ 0 ∧
        (∃ sz, (⟨Fn.malloc, [sz], [r.p_rsa1]⟩ : Event) ∈ r.trace) ∧
        ∀ ev ∈ r.trace, ev.fn ≠ Fn.free ∧ ev.fn ≠ Fn.secure_free_rsa_pri1_key) ∧
      (r.ret_code = SGX_SUCCESS →
        ((ω 0).status = ippStsNoErr ∧
          (ω 1).status = ippStsNoErr ∧
          (ω 2).status = ippStsNoErr ∧
          (ω 3).ptr ≠ 0 ∧
          (ω 4).status = ippStsNoErr ∧
          (ω 5).status = ippStsNoErr) ∧
        r.p_rsa1 = (ω 3).ptr ∧
        r.trace =
          [ ⟨Fn.newBN, [n_byte_size], [(ω 0).ptr]⟩,
            ⟨Fn.newBN, [d_byte_size], [(ω 1).ptr]⟩,
            ⟨Fn.ippsRSA_GetSizePrivateKeyType1, [n_byte_size * 8, d_byte_size * 8], []⟩,
            ⟨Fn.malloc, [(ω 2).size], [(ω 3).ptr]⟩,
            ⟨Fn.ippsRSA_InitPrivateKeyType1,
              [n_byte_size * 8, d_byte_size * 8, (ω 2).size], [(ω 3).ptr]⟩,
            ⟨Fn.ippsRSA_SetPrivateKeyType1, [], [(ω 0).ptr, (ω 1).ptr, (ω 3).ptr]⟩,
            ⟨Fn.secure_free_BN, [n_byte_size], [(ω 0).ptr]⟩,
            ⟨Fn.secure_free_BN, [d_byte_size], [(ω 1).ptr]⟩ ])) :=
  ⟨fun ω prime_size exp_size e p q dmp1 dmq1 iqmp h r hr =>
      ⟨(priv2_outcome ω prime_size exp_size e p q dmp1 dmq1 iqmp h r hr).1,
       (priv2_outcome ω prime_size exp_size e p q dmp1 dmq1 iqmp h r hr).2.1,
       (priv2_outcome ω prime_size exp_size e p q dmp1 dmq1 iqmp h r hr).2.2,
       priv2_success_log ω prime_size exp_size e p q dmp1 dmq1 iqmp h r hr⟩,
   fun ω prime_size exp_size le_n le_e h r hr =>
      ⟨(pub1_outcome ω prime_size exp_size le_n le_e h r hr).1,
       (pub1_outcome ω prime_size exp_size le_n le_e h r hr).2.1,
       (pub1_outcome ω prime_size exp_size le_n le_e h r hr).2.2,
       pub1_success_log ω prime_size exp_size le_n le_e h r hr⟩,
   fun ω n_byte_size e_byte_size d_byte_size le_n le_e le_d h r hr =>
      ⟨(priv1_outcome ω n_byte_size e_byte_size d_byte_size le_n le_e le_d h r hr).1,
       (priv1_outcome ω n_byte_size e_byte_size d_byte_size le_n le_e le_d h r hr).2.1,
       (priv1_outcome ω n_byte_size e_byte_size d_byte_size le_n le_e le_d h r hr).2.2,
       priv1_success_log ω n_byte_size e_byte_size d_byte_size le_n le_e le_d h r hr⟩⟩

/-- C4 at concrete inputs: the form-2 importer whose last engine call fails leaves the
handle location at `7` and passes the allocated key object (address `106`) to
`secure_free_rsa_pri2_key`; the public importer with a successful engine stores the
key object it built (address `103`) in the handle location, and its log is the
construction of that object. -/
theorem importers_handle_and_key_object_witness :
    ((sgx_create_rsa_priv2_key (ω_fail_at 8) 8 4 (some [1, 0, 1, 0]) (some [3, 0, 0, 0])
        (some [5, 0, 0, 0]) (some [1, 0, 0, 0]) (some [1, 0, 0, 0]) (some [2, 0, 0, 0])
        (some 7)).new_pri_key2 = some 7 ∧
      (⟨Fn.secure_free_rsa_pri2_key, [8], [106]⟩ : Event) ∈
        (sgx_create_rsa_priv2_key (ω_fail_at 8) 8 4 (some [1, 0, 1, 0]) (some [3, 0, 0, 0])
          (some [5, 0, 0, 0]) (some [1, 0, 0, 0]) (some [1, 0, 0, 0]) (some [2, 0, 0, 0])
          (some 7)).trace) ∧
    (sgx_create_rsa_pub1_key ω_ok 8 4 (some [1, 0, 0, 0, 0, 0, 0, 1]) (some [1, 0, 1, 0])
        (some 7)).new_pub_key1 = some 103 ∧
    (sgx_create_rsa_pub1_key ω_ok 8 4 (some [1, 0, 0, 0, 0, 0, 0, 1]) (some [1, 0, 1, 0])
        (some 7)).trace =
      [ ⟨Fn.newBN, [8], [100]⟩, ⟨Fn.newBN, [4], [101]⟩,
        ⟨Fn.ippsRSA_GetSizePublicKey, [64, 32], []⟩,
        ⟨Fn.malloc, [64], [103]⟩,
        ⟨Fn.ippsRSA_InitPublicKey, [64, 32, 64], [103]⟩,
        ⟨Fn.ippsRSA_SetPublicKey, [], [100, 101, 103]⟩,
        ⟨Fn.secure_free_BN, [8], [100]⟩, ⟨Fn.secure_free_BN, [4], [101]⟩ ] :=
  have h2 := (importers_handle_and_key_object.1 (ω_fail_at 8) 8 4 (some [1, 0, 1, 0])
    (some [3, 0, 0, 0]) (some [5, 0, 0, 0]) (some [1, 0, 0, 0]) (some [1, 0, 0, 0])
    (some [2, 0, 0, 0]) (some 7) _ rfl).1 (by decide)
  have h1 := (importers_handle_and_key_object.2.1 ω_ok 8 4 (some [1, 0, 0, 0, 0, 0, 0, 1])
    (some [1, 0, 1, 0]) (some 7) _ rfl).2.2.1 (by decide)
  have h3 := (importers_handle_and_key_object.2.1 ω_ok 8 4 (some [1, 0, 0, 0, 0, 0, 0, 1])
    (some [1, 0, 1, 0]) (some 7) _ rfl).2.2.2 (by decide)
  ⟨⟨h2.1, h2.2 106 64 (by decide) (by decide)⟩, h1.1, h3.2.2⟩

/-! ## Key generation: the validation gate -/

/-- No step before the validation touches `ret_code`, `validate_keys` or a
caller buffer. -/
theorem key_pair_setup_frame (ω : Oracle) (n_byte_size e_byte_size : Int) :
    ∀ f ∈ key_pair_setup ω n_byte_size e_byte_size, ∀ t : KeyPairState,
      (f t).1.ret_code = t.ret_code ∧ (f t).1.validate_keys = t.validate_keys ∧
      (f t).1.p_n = t.p_n ∧ (f t).1.p_d = t.p_d ∧ (f t).1.p_e = t.p_e ∧
      (f t).1.p_p = t.p_p ∧ (f t).1.p_q = t.p_q ∧ (f t).1.p_dmp1 = t.p_dmp1 ∧
      (f t).1.p_dmq1 = t.p_dmq1 ∧ (f t).1.p_iqmp = t.p_iqmp := by
  simp [key_pair_setup]

/-- No extraction step touches `ret_code` or `validate_keys`. -/
theorem key_pair_extract_frame (ω : Oracle) :
    ∀ f ∈ key_pair_extract ω, ∀ t : KeyPairState,
      (f t).1.ret_code = t.ret_code ∧ (f t).1.validate_keys = t.validate_keys := by
  simp [key_pair_extract, key_pair_extract_one]

theorem key_pair_until_extract_ret_code (ω : Oracle) (n_byte_size e_byte_size : Int)
    (s : KeyPairState) :
    (runBody (key_pair_setup ω n_byte_size e_byte_size ++ [key_pair_validate ω]
      ++ key_pair_extract ω) s).1.ret_code = s.ret_code := by
  refine runBody_frame (fun t : KeyPairState => t.ret_code) _ ?_ s
  intro f hf t
  rw [List.mem_append, List.mem_append, List.mem_singleton] at hf
  rcases hf with (hf | rfl) | hf
  · exact (key_pair_setup_frame ω n_byte_size e_byte_size f hf t).1
  · rfl
  · exact (key_pair_extract_frame ω f hf t).1

theorem key_pair_completed_valid (ω : Oracle) (n_byte_size e_byte_size : Int)
    (s : KeyPairState) (hs : s.validate_keys = IPP_IS_INVALID)
    (hc : (runBody (key_pair_setup ω n_byte_size e_byte_size ++ [key_pair_validate ω]
      ++ key_pair_extract ω) s).2 = false) :
    (runBody (key_pair_setup ω n_byte_size e_byte_size ++ [key_pair_validate ω]
      ++ key_pair_extract ω) s).1.validate_keys = IPP_IS_VALID ∧
    (ω 21).flag = some IPP_IS_VALID := by
  have hvalid := runBody_completed
    (fun t : KeyPairState => t.validate_keys = IPP_IS_VALID)
    (key_pair_setup ω n_byte_size e_byte_size ++ [key_pair_validate ω]
      ++ key_pair_extract ω) (key_pair_validate ω) (by simp)
    (by
      intro t ht
      simpa [key_pair_validate] using ht)
    (by
      intro f hf t ht hb
      rw [List.mem_append, List.mem_append, List.mem_singleton] at hf
      rcases hf with (hf | rfl) | hf
      · exact ((key_pair_setup_frame ω n_byte_size e_byte_size f hf t).2.1).trans ht
      · simpa [key_pair_validate] using hb
      · exact ((key_pair_extract_frame ω f hf t).2).trans ht)
    s hc
  have hflag := runBody_keep
    (fun t : KeyPairState =>
      t.validate_keys = IPP_IS_INVALID ∨ (ω 21).flag = some IPP_IS_VALID)
    (key_pair_setup ω n_byte_size e_byte_size ++ [key_pair_validate ω]
      ++ key_pair_extract ω)
    (by
      intro f hf t ht hb
      rw [List.mem_append, List.mem_append, List.mem_singleton] at hf
      rcases hf with (hf | rfl) | hf
      · rw [(key_pair_setup_frame ω n_byte_size e_byte_size f hf t).2.1]
        exact ht
      · rcases ht with ht | ht
        · cases hfl : (ω 21).flag with
          | none => simp [key_pair_validate, hfl, ht, IPP_IS_VALID, IPP_IS_INVALID] at hb
          | some v =>
            right
            simpa [key_pair_validate, hfl] using hb
        · exact Or.inr ht
      · rw [(key_pair_extract_frame ω f hf t).2]
        exact ht)
    s (Or.inl hs) hc
  refine ⟨hvalid, ?_⟩
  rcases hflag with h | h
  · simp only at h hvalid
    rw [hvalid] at h
    exact absurd h (by decide)
  · exact h


theorem runBody_measure_append {σ : Type} (c : σ → Nat) (xs ys : List (Step σ)) (a b : Nat)
    (hx : ∀ s, c (runBody xs s).1 ≤ c s + a) (hy : ∀ s, c (runBody ys s).1 ≤ c s + b)
    (s : σ) : c (runBody (xs ++ ys) s).1 ≤ c s + (a + b) := by
  rw [runBody_append]
  have h1 := hx s
  have h2 := hy (runBody xs s).1
  by_cases hb : (runBody xs s).2 = true
  · simp only [hb, if_true]; omega
  · simp only [hb, Bool.false_eq_true, if_false]; omega

theorem key_pair_setup_calls (ω : Oracle) (n_byte_size e_byte_size : Int) (s : KeyPairState) :
    calls Fn.ippsRSA_GenerateKeys (runBody (key_pair_setup ω n_byte_size e_byte_size) s).1.trace
      ≤ calls Fn.ippsRSA_GenerateKeys s.trace + 1 ∧
    calls Fn.ippsRSA_ValidateKeys (runBody (key_pair_setup ω n_byte_size e_byte_size) s).1.trace
      ≤ calls Fn.ippsRSA_ValidateKeys s.trace + 0 := by
  constructor
  · refine runBody_measure (fun t : KeyPairState => calls Fn.ippsRSA_GenerateKeys t.trace)
      _ [0, 0, 0, 0, 0, 0, 0, 0, 0, 0, 0, 0, 0, 0, 0, 0, 1, 0, 0, 0, 0, 0] ?_ s
    simp [key_pair_setup, calls]
  · refine runBody_measure (fun t : KeyPairState => calls Fn.ippsRSA_ValidateKeys t.trace)
      _ [0, 0, 0, 0, 0, 0, 0, 0, 0, 0, 0, 0, 0, 0, 0, 0, 0, 0, 0, 0, 0, 0] ?_ s
    simp [key_pair_setup, calls]

theorem key_pair_extract_calls (ω : Oracle) (fn : Fn)
    (hfn : fn ≠ Fn.ippsGetSize_BN ∧ fn ≠ Fn.ippsGet_BN) (s : KeyPairState) :
    calls fn (runBody (key_pair_extract ω) s).1.trace ≤ calls fn s.trace + 0 := by
  have h1 : (Fn.ippsGetSize_BN == fn) = false := by
    simpa using fun h => hfn.1 h.symm
  have h2 : (Fn.ippsGet_BN == fn) = false := by
    simpa using fun h => hfn.2 h.symm
  have := runBody_frame (fun t : KeyPairState => calls fn t.trace) (key_pair_extract ω)
    (by simp [key_pair_extract, key_pair_extract_one, calls, h1, h2]) s
  simp only at this
  omega

theorem key_pair_until_extract_calls (ω : Oracle) (n_byte_size e_byte_size : Int)
    (s : KeyPairState) (h0 : s.trace = []) :
    calls Fn.ippsRSA_GenerateKeys
      (runBody (key_pair_setup ω n_byte_size e_byte_size ++ [key_pair_validate ω]
        ++ key_pair_extract ω) s).1.trace ≤ 1 ∧
    calls Fn.ippsRSA_ValidateKeys
      (runBody (key_pair_setup ω n_byte_size e_byte_size ++ [key_pair_validate ω]
        ++ key_pair_extract ω) s).1.trace ≤ 1 := by
  have hvalG : ∀ t : KeyPairState,
      calls Fn.ippsRSA_GenerateKeys (runBody [key_pair_validate ω] t).1.trace
        ≤ calls Fn.ippsRSA_GenerateKeys t.trace + 0 := by
    intro t
    by_cases hb : ((ω 21).flag.getD t.validate_keys != IPP_IS_VALID) = true <;>
      simp [runBody, key_pair_validate, calls, hb]
  have hvalV : ∀ t : KeyPairState,
      calls Fn.ippsRSA_ValidateKeys (runBody [key_pair_validate ω] t).1.trace
        ≤ calls Fn.ippsRSA_ValidateKeys t.trace + 1 := by
    intro t
    by_cases hb : ((ω 21).flag.getD t.validate_keys != IPP_IS_VALID) = true <;>
      simp [runBody, key_pair_validate, calls, hb]
  constructor
  · have := runBody_measure_append
      (fun t : KeyPairState => calls Fn.ippsRSA_GenerateKeys t.trace)
      (key_pair_setup ω n_byte_size e_byte_size ++ [key_pair_validate ω])
      (key_pair_extract ω) (1 + 0) 0
      (runBody_measure_append
        (fun t : KeyPairState => calls Fn.ippsRSA_GenerateKeys t.trace)
        (key_pair_setup ω n_byte_size e_byte_size) [key_pair_validate ω] 1 0
        (fun t => (key_pair_setup_calls ω n_byte_size e_byte_size t).1) hvalG)
      (key_pair_extract_calls ω _ (by decide)) s
    simp only [h0, calls, List.countP_nil] at this ⊢
    omega
  · have := runBody_measure_append
      (fun t : KeyPairState => calls Fn.ippsRSA_ValidateKeys t.trace)
      (key_pair_setup ω n_byte_size e_byte_size ++ [key_pair_validate ω])
      (key_pair_extract ω) (0 + 1) 0
      (runBody_measure_append
        (fun t : KeyPairState => calls Fn.ippsRSA_ValidateKeys t.trace)
        (key_pair_setup ω n_byte_size e_byte_size) [key_pair_validate ω] 0 1
        (fun t => (key_pair_setup_calls ω n_byte_size e_byte_size t).2) hvalV)
      (key_pair_extract_calls ω _ (by decide)) s
    simp only [h0, calls, List.countP_nil] at this ⊢
    omega

theorem key_pair_cleanup_calls (n_byte_size e_byte_size : Int) (s : KeyPairState) :
    calls Fn.ippsRSA_GenerateKeys (key_pair_cleanup n_byte_size e_byte_size s) = 0 ∧
    calls Fn.ippsRSA_ValidateKeys (key_pair_cleanup n_byte_size e_byte_size s) = 0 := by
  constructor <;>
    · simp only [key_pair_cleanup, SAFE_FREE_MM, calls]
      split_ifs <;> simp

/-- The flag gate of key generation: whatever the arguments and the engine, when
`sgx_create_rsa_key_pair` returns `SGX_SUCCESS` the validity flag that
`ippsRSA_ValidateKeys` left is `IPP_IS_VALID` (the engine stored that value at call site
21); a flag left at anything else makes the call fail; and the log holds at most one
generation and at most one validation, so nothing is retried.  The status the validation
returns plays no part. -/
theorem key_pair_success_only_if_validated (ω : Oracle) (n_byte_size e_byte_size : Int)
    (p_n p_d p_e p_p p_q p_dmp1 p_dmq1 p_iqmp : Option Bytes) (r : KeyPairState)
    (hr : r = sgx_create_rsa_key_pair ω n_byte_size e_byte_size p_n p_d p_e p_p p_q
      p_dmp1 p_dmq1 p_iqmp) :
    (r.ret_code = SGX_SUCCESS →
      r.validate_keys = IPP_IS_VALID ∧ (ω 21).flag = some IPP_IS_VALID) ∧
    ((ω 21).flag ≠ some IPP_IS_VALID → r.ret_code ≠ SGX_SUCCESS) ∧
    calls Fn.ippsRSA_GenerateKeys r.trace ≤ 1 ∧
    calls Fn.ippsRSA_ValidateKeys r.trace ≤ 1 := by
  have key : (r.ret_code = SGX_SUCCESS →
      r.validate_keys = IPP_IS_VALID ∧ (ω 21).flag = some IPP_IS_VALID) ∧
      calls Fn.ippsRSA_GenerateKeys r.trace ≤ 1 ∧
      calls Fn.ippsRSA_ValidateKeys r.trace ≤ 1 := by
    subst hr
    unfold sgx_create_rsa_key_pair
    by_cases hbad : (n_byte_size ≤ 0 ∨ e_byte_size ≤ 0 ∨ p_n = none ∨ p_d = none ∨
        p_e = none ∨ p_p = none ∨ p_q = none ∨ p_dmp1 = none ∨ p_dmq1 = none ∨
        p_iqmp = none)
    · simp [hbad, calls]
    · have hret := key_pair_until_extract_ret_code ω n_byte_size e_byte_size
        { p_pri_key := 0, p_pub_key := 0, error_code := ippStsNoErr,
          ret_code := SGX_ERROR_UNEXPECTED, p_rand := 0, p_prime := 0, scratch_buffer := 0,
          pri_size := 0, bn_n := 0, bn_e := 0, bn_d := 0, bn_e_s := 0, bn_p := 0, bn_q := 0,
          bn_dmp1 := 0, bn_dmq1 := 0, bn_iqmp := 0, validate_keys := IPP_IS_INVALID,
          size := 0, p_n := p_n, p_d := p_d, p_e := p_e, p_p := p_p, p_q := p_q,
          p_dmp1 := p_dmp1, p_dmq1 := p_dmq1, p_iqmp := p_iqmp, trace := [] }
      have hval := key_pair_completed_valid ω n_byte_size e_byte_size
        { p_pri_key := 0, p_pub_key := 0, error_code := ippStsNoErr,
          ret_code := SGX_ERROR_UNEXPECTED, p_rand := 0, p_prime := 0, scratch_buffer := 0,
          pri_size := 0, bn_n := 0, bn_e := 0, bn_d := 0, bn_e_s := 0, bn_p := 0, bn_q := 0,
          bn_dmp1 := 0, bn_dmq1 := 0, bn_iqmp := 0, validate_keys := IPP_IS_INVALID,
          size := 0, p_n := p_n, p_d := p_d, p_e := p_e, p_p := p_p, p_q := p_q,
          p_dmp1 := p_dmp1, p_dmq1 := p_dmq1, p_iqmp := p_iqmp, trace := [] } rfl
      have hcalls := key_pair_until_extract_calls ω n_byte_size e_byte_size
        { p_pri_key := 0, p_pub_key := 0, error_code := ippStsNoErr,
          ret_code := SGX_ERROR_UNEXPECTED, p_rand := 0, p_prime := 0, scratch_buffer := 0,
          pri_size := 0, bn_n := 0, bn_e := 0, bn_d := 0, bn_e_s := 0, bn_p := 0, bn_q := 0,
          bn_dmp1 := 0, bn_dmq1 := 0, bn_iqmp := 0, validate_keys := IPP_IS_INVALID,
          size := 0, p_n := p_n, p_d := p_d, p_e := p_e, p_p := p_p, p_q := p_q,
          p_dmp1 := p_dmp1, p_dmq1 := p_dmq1, p_iqmp := p_iqmp, trace := [] } rfl
      simp only [hbad, if_false, key_pair_body, runBody_append _ [key_pair_finish]]
      generalize runBody (key_pair_setup ω n_byte_size e_byte_size ++ [key_pair_validate ω]
          ++ key_pair_extract ω)
        { p_pri_key := 0, p_pub_key := 0, error_code := ippStsNoErr,
          ret_code := SGX_ERROR_UNEXPECTED, p_rand := 0, p_prime := 0, scratch_buffer := 0,
          pri_size := 0, bn_n := 0, bn_e := 0, bn_d := 0, bn_e_s := 0, bn_p := 0, bn_q := 0,
          bn_dmp1 := 0, bn_dmq1 := 0, bn_iqmp := 0, validate_keys := IPP_IS_INVALID,
          size := 0, p_n := p_n, p_d := p_d, p_e := p_e, p_p := p_p, p_q := p_q,
          p_dmp1 := p_dmp1, p_dmq1 := p_dmq1, p_iqmp := p_iqmp, trace := [] } = X
        at hret hval hcalls ⊢
      obtain ⟨t, b⟩ := X
      simp only at hret hval hcalls
      cases b
      · have hc1 := (key_pair_cleanup_calls n_byte_size e_byte_size
          { t with ret_code := SGX_SUCCESS }).1
        have hc2 := (key_pair_cleanup_calls n_byte_size e_byte_size
          { t with ret_code := SGX_SUCCESS }).2
        simp only [calls] at hc1 hc2 hcalls
        simp only [Bool.false_eq_true, if_false, runBody, key_pair_finish, calls,
          List.countP_append, hc1, hc2, true_implies, add_zero]
        exact ⟨hval rfl, hcalls.1, hcalls.2⟩
      · have hc1 := (key_pair_cleanup_calls n_byte_size e_byte_size t).1
        have hc2 := (key_pair_cleanup_calls n_byte_size e_byte_size t).2
        simp only [calls] at hc1 hc2 hcalls
        simp only [if_true, hret, calls, List.countP_append, hc1, hc2, reduceCtorEq,
          false_implies, add_zero, true_and]
        exact hcalls
  refine ⟨key.1, ?_, key.2.1, key.2.2⟩
  intro hflag hsucc
  exact hflag (key.1 hsucc).2

/-- The flag gate at concrete inputs: an engine that builds everything and then reports
the pair invalid makes the call fail after one generation; an engine in which every call
succeeds and the pair is reported valid gives `SGX_SUCCESS` with the flag at
`IPP_IS_VALID`. -/
theorem key_pair_success_only_if_validated_witness :
    ((ω_invalid 21).flag ≠ some IPP_IS_VALID ∧
      (sgx_create_rsa_key_pair ω_invalid 8 4 (some [0, 0, 0, 0, 0, 0, 0, 0])
        (some [0, 0, 0, 0, 0, 0, 0, 0]) (some [1, 0, 1, 0]) (some [0, 0, 0, 0])
        (some [0, 0, 0, 0]) (some [0, 0, 0, 0]) (some [0, 0, 0, 0])
        (some [0, 0, 0, 0])).ret_code ≠ SGX_SUCCESS ∧
      calls Fn.ippsRSA_GenerateKeys
        (sgx_create_rsa_key_pair ω_invalid 8 4 (some [0, 0, 0, 0, 0, 0, 0, 0])
          (some [0, 0, 0, 0, 0, 0, 0, 0]) (some [1, 0, 1, 0]) (some [0, 0, 0, 0])
          (some [0, 0, 0, 0]) (some [0, 0, 0, 0]) (some [0, 0, 0, 0])
          (some [0, 0, 0, 0])).trace ≤ 1) ∧
    ((sgx_create_rsa_key_pair ω_ok 8 4 (some [0, 0, 0, 0, 0, 0, 0, 0])
        (some [0, 0, 0, 0, 0, 0, 0, 0]) (some [1, 0, 1, 0]) (some [0, 0, 0, 0])
        (some [0, 0, 0, 0]) (some [0, 0, 0, 0]) (some [0, 0, 0, 0])
        (some [0, 0, 0, 0])).ret_code = SGX_SUCCESS ∧
      (sgx_create_rsa_key_pair ω_ok 8 4 (some [0, 0, 0, 0, 0, 0, 0, 0])
        (some [0, 0, 0, 0, 0, 0, 0, 0]) (some [1, 0, 1, 0]) (some [0, 0, 0, 0])
        (some [0, 0, 0, 0]) (some [0, 0, 0, 0]) (some [0, 0, 0, 0])
        (some [0, 0, 0, 0])).validate_keys = IPP_IS_VALID) :=
  have h := key_pair_success_only_if_validated ω_invalid 8 4
    (some [0, 0, 0, 0, 0, 0, 0, 0]) (some [0, 0, 0, 0, 0, 0, 0, 0]) (some [1, 0, 1, 0])
    (some [0, 0, 0, 0]) (some [0, 0, 0, 0]) (some [0, 0, 0, 0]) (some [0, 0, 0, 0])
    (some [0, 0, 0, 0]) _ rfl
  have h' := key_pair_success_only_if_validated ω_ok 8 4
    (some [0, 0, 0, 0, 0, 0, 0, 0]) (some [0, 0, 0, 0, 0, 0, 0, 0]) (some [1, 0, 1, 0])
    (some [0, 0, 0, 0]) (some [0, 0, 0, 0]) (some [0, 0, 0, 0]) (some [0, 0, 0, 0])
    (some [0, 0, 0, 0]) _ rfl
  ⟨⟨by decide, h.2.1 (by decide), h.2.2.1⟩, by decide, (h'.1 (by decide)).1⟩

/-! ## Status codes -/

/-- The loop body of `sgx_create_rsa_key_pair` leaves `ret_code` at
`SGX_ERROR_UNEXPECTED` or sets it to `SGX_SUCCESS`. -/
theorem key_pair_body_status (ω : Oracle) (n_byte_size e_byte_size : Int) (s : KeyPairState)
    (hs : s.ret_code = SGX_ERROR_UNEXPECTED ∨ s.ret_code = SGX_SUCCESS) :
    (runBody (key_pair_body ω n_byte_size e_byte_size) s).1.ret_code = SGX_ERROR_UNEXPECTED ∨
    (runBody (key_pair_body ω n_byte_size e_byte_size) s).1.ret_code = SGX_SUCCESS :=
  runBody_inv
    (fun t : KeyPairState => t.ret_code = SGX_ERROR_UNEXPECTED ∨ t.ret_code = SGX_SUCCESS)
    _ (by simp [key_pair_body, key_pair_setup, key_pair_validate, key_pair_extract,
            key_pair_extract_one, key_pair_finish]) s hs

theorem priv2_body_status (ω : Oracle) (prime_size : Int) (s : Priv2State)
    (hs : s.ret_code = SGX_ERROR_UNEXPECTED ∨ s.ret_code = SGX_SUCCESS) :
    (runBody (priv2_build ω prime_size ++ [priv2_publish]) s).1.ret_code
      = SGX_ERROR_UNEXPECTED ∨
    (runBody (priv2_build ω prime_size ++ [priv2_publish]) s).1.ret_code = SGX_SUCCESS :=
  runBody_inv
    (fun t : Priv2State => t.ret_code = SGX_ERROR_UNEXPECTED ∨ t.ret_code = SGX_SUCCESS)
    _ (by simp [priv2_build, priv2_components, priv2_alloc, priv2_setup, priv2_publish]) s hs

theorem pub1_body_status (ω : Oracle) (prime_size exp_size : Int) (s : Pub1State)
    (hs : s.ret_code = SGX_ERROR_UNEXPECTED ∨ s.ret_code = SGX_SUCCESS) :
    (runBody (pub1_build ω prime_size exp_size ++ [pub1_publish]) s).1.ret_code
      = SGX_ERROR_UNEXPECTED ∨
    (runBody (pub1_build ω prime_size exp_size ++ [pub1_publish]) s).1.ret_code
      = SGX_SUCCESS :=
  runBody_inv
    (fun t : Pub1State => t.ret_code = SGX_ERROR_UNEXPECTED ∨ t.ret_code = SGX_SUCCESS)
    _ (by simp [pub1_build, pub1_components, pub1_alloc, pub1_setup, pub1_publish]) s hs

theorem priv1_body_status (ω : Oracle) (n_byte_size d_byte_size : Int) (s : Priv1State)
    (hs : s.ret_code = SGX_ERROR_UNEXPECTED ∨ s.ret_code = SGX_SUCCESS) :
    (runBody (priv1_build ω n_byte_size d_byte_size ++ [priv1_publish]) s).1.ret_code
      = SGX_ERROR_UNEXPECTED ∨
    (runBody (priv1_build ω n_byte_size d_byte_size ++ [priv1_publish]) s).1.ret_code
      = SGX_SUCCESS :=
  runBody_inv
    (fun t : Priv1State => t.ret_code = SGX_ERROR_UNEXPECTED ∨ t.ret_code = SGX_SUCCESS)
    _ (by simp [priv1_build, priv1_components, priv1_alloc, priv1_setup, priv1_publish]) s hs

theorem encrypt_body_status (ω : Oracle) (rsa_key : Ptr) (pin_len : Nat) (s : OaepState)
    (hs : s.ret_code = SGX_ERROR_UNEXPECTED ∨ s.ret_code = SGX_SUCCESS) :
    (runBody (encrypt_body ω rsa_key pin_len) s).1.ret_code = SGX_ERROR_UNEXPECTED ∨
    (runBody (encrypt_body ω rsa_key pin_len) s).1.ret_code = SGX_SUCCESS :=
  runBody_inv
    (fun t : OaepState => t.ret_code = SGX_ERROR_UNEXPECTED ∨ t.ret_code = SGX_SUCCESS)
    _ (by simp [encrypt_body]) s hs

theorem decrypt_body_status (ω : Oracle) (rsa_key : Ptr) (s : OaepState)
    (hs : s.ret_code = SGX_ERROR_UNEXPECTED ∨ s.ret_code = SGX_SUCCESS) :
    (runBody (decrypt_body ω rsa_key) s).1.ret_code = SGX_ERROR_UNEXPECTED ∨
    (runBody (decrypt_body ω rsa_key) s).1.ret_code = SGX_SUCCESS :=
  runBody_inv
    (fun t : OaepState => t.ret_code = SGX_ERROR_UNEXPECTED ∨ t.ret_code = SGX_SUCCESS)
    _ (by simp [decrypt_body]) s hs

theorem ecdsa_body_status (ω : Oracle) (hash_drg : Option Bytes)
    (hash_drg_len : Int) (m : Option Bytes) (mlen : Int) (s : EcdsaState)
    (hs : s.ret_code = SGX_ERROR_UNEXPECTED ∨ s.ret_code = SGX_SUCCESS) :
    (runBody (ecdsa_body ω hash_drg hash_drg_len m mlen) s).1.ret_code
      = SGX_ERROR_UNEXPECTED ∨
    (runBody (ecdsa_body ω hash_drg hash_drg_len m mlen) s).1.ret_code = SGX_SUCCESS :=
  runBody_inv
    (fun t : EcdsaState => t.ret_code = SGX_ERROR_UNEXPECTED ∨ t.ret_code = SGX_SUCCESS)
    _ (by simp [ecdsa_body]) s hs

/-- C8: for each of the seven entry points and every engine, the result is
`SGX_ERROR_INVALID_PARAMETER` exactly when the argument check at the top of the function
fails (a checked pointer is `NULL` or a checked size is not positive; for the encryption a
plaintext length below 1 or not below `INT_MAX`); a failed check leaves the log of external
calls empty (nothing was allocated and the engine was not called); and when the check
passes the result is `SGX_SUCCESS` or `SGX_ERROR_UNEXPECTED`. -/
theorem invalid_parameter_iff_argument_check_fails :
    (∀ (ω : Oracle) (n_byte_size e_byte_size : Int)
        (p_n p_d p_e p_p p_q p_dmp1 p_dmq1 p_iqmp : Option Bytes) (r : KeyPairState),
      r = sgx_create_rsa_key_pair ω n_byte_size e_byte_size p_n p_d p_e p_p p_q
          p_dmp1 p_dmq1 p_iqmp →
      (r.ret_code = SGX_ERROR_INVALID_PARAMETER ↔
        (n_byte_size ≤ 0 ∨ e_byte_size ≤ 0 ∨ p_n = none ∨ p_d = none ∨ p_e = none ∨
          p_p = none ∨ p_q = none ∨ p_dmp1 = none ∨ p_dmq1 = none ∨ p_iqmp = none)) ∧
      ((n_byte_size ≤ 0 ∨ e_byte_size ≤ 0 ∨ p_n = none ∨ p_d = none ∨ p_e = none ∨
          p_p = none ∨ p_q = none ∨ p_dmp1 = none ∨ p_dmq1 = none ∨ p_iqmp = none) → r.trace = []) ∧
      (¬ (n_byte_size ≤ 0 ∨ e_byte_size ≤ 0 ∨ p_n = none ∨ p_d = none ∨ p_e = none ∨
          p_p = none ∨ p_q = none ∨ p_dmp1 = none ∨ p_dmq1 = none ∨ p_iqmp = none) →
        r.ret_code = SGX_SUCCESS ∨ r.ret_code = SGX_ERROR_UNEXPECTED)) ∧
    (∀ (ω : Oracle) (prime_size exp_size : Int)
        (e p q dmp1 dmq1 iqmp : Option Bytes) (h : Option Ptr) (r : Priv2State),
      r = sgx_create_rsa_priv2_key ω prime_size exp_size e p q dmp1 dmq1 iqmp h →
      (r.ret_code = SGX_ERROR_INVALID_PARAMETER ↔
        (prime_size ≤ 0 ∨ p = none ∨ q = none ∨ dmp1 = none ∨ dmq1 = none ∨
          iqmp = none ∨ h = none)) ∧
      ((prime_size ≤ 0 ∨ p = none ∨ q = none ∨ dmp1 = none ∨ dmq1 = none ∨
          iqmp = none ∨ h = none) → r.trace = []) ∧
      (¬ (prime_size ≤ 0 ∨ p = none ∨ q = none ∨ dmp1 = none ∨ dmq1 = none ∨
          iqmp = none ∨ h = none) →
        r.ret_code = SGX_SUCCESS ∨ r.ret_code = SGX_ERROR_UNEXPECTED)) ∧
    (∀ (ω : Oracle) (prime_size exp_size : Int) (le_n le_e : Option Bytes)
        (h : Option Ptr) (r : Pub1State),
      r = sgx_create_rsa_pub1_key ω prime_size exp_size le_n le_e h →
      (r.ret_code = SGX_ERROR_INVALID_PARAMETER ↔
        (h = none ∨ prime_size ≤ 0 ∨ exp_size ≤ 0 ∨ le_n = none ∨ le_e = none)) ∧
      ((h = none ∨ prime_size ≤ 0 ∨ exp_size ≤ 0 ∨ le_n = none ∨ le_e = none) → r.trace = []) ∧
      (¬ (h = none ∨ prime_size ≤ 0 ∨ exp_size ≤ 0 ∨ le_n = none ∨ le_e = none) →
        r.ret_code = SGX_SUCCESS ∨ r.ret_code = SGX_ERROR_UNEXPECTED)) ∧
    (∀ (ω : Oracle) (n_byte_size e_byte_size d_byte_size : Int)
        (le_n le_e le_d : Option Bytes) (h : Option Ptr) (r : Priv1State),
      r = sgx_create_rsa_priv1_key ω n_byte_size e_byte_size d_byte_size le_n le_e le_d h →
      (r.ret_code = SGX_ERROR_INVALID_PARAMETER ↔
        (n_byte_size ≤ 0 ∨ e_byte_size ≤ 0 ∨ d_byte_size ≤ 0 ∨ h = none ∨
          le_n = none ∨ le_e = none ∨ le_d = none)) ∧
      ((n_byte_size ≤ 0 ∨ e_byte_size ≤ 0 ∨ d_byte_size ≤ 0 ∨ h = none ∨
          le_n = none ∨ le_e = none ∨ le_d = none) → r.trace = []) ∧
      (¬ (n_byte_size ≤ 0 ∨ e_byte_size ≤ 0 ∨ d_byte_size ≤ 0 ∨ h = none ∨
          le_n = none ∨ le_e = none ∨ le_d = none) →
        r.ret_code = SGX_SUCCESS ∨ r.ret_code = SGX_ERROR_UNEXPECTED)) ∧
    (∀ (ω : Oracle) (rsa_key : Ptr) (pout_data : Option Bytes) (pout_len : Option Nat)
        (pin_data : Option Bytes) (pin_len : Nat) (r : OaepState),
      r = sgx_rsa_pub_encrypt_sha256 ω rsa_key pout_data pout_len pin_data pin_len →
      (r.ret_code = SGX_ERROR_INVALID_PARAMETER ↔
        (rsa_key = 0 ∨ pin_data = none ∨ pin_len < 1 ∨ pin_len ≥ INT_MAX)) ∧
      ((rsa_key = 0 ∨ pin_data = none ∨ pin_len < 1 ∨ pin_len ≥ INT_MAX) → r.trace = []) ∧
      (¬ (rsa_key = 0 ∨ pin_data = none ∨ pin_len < 1 ∨ pin_len ≥ INT_MAX) →
        r.ret_code = SGX_SUCCESS ∨ r.ret_code = SGX_ERROR_UNEXPECTED)) ∧
    (∀ (ω : Oracle) (rsa_key : Ptr) (pout_data : Option Bytes) (pout_len : Option Nat)
        (pin_data : Option Bytes) (pin_len : Nat) (r : OaepState),
      r = sgx_rsa_priv_decrypt_sha256 ω rsa_key pout_data pout_len pin_data pin_len →
      (r.ret_code = SGX_ERROR_INVALID_PARAMETER ↔
        (rsa_key = 0 ∨ pout_len = none ∨ pin_data = none)) ∧
      ((rsa_key = 0 ∨ pout_len = none ∨ pin_data = none) → r.trace = []) ∧
      (¬ (rsa_key = 0 ∨ pout_len = none ∨ pin_data = none) →
        r.ret_code = SGX_SUCCESS ∨ r.ret_code = SGX_ERROR_UNEXPECTED)) ∧
    (∀ (ω : Oracle) (hash_drg : Option Bytes) (hash_drg_len : Int)
        (sgx_nistp256_r_m1 : Option Bytes) (sgx_nistp256_r_m1_len : Int)
        (out_key : Option Bytes) (out_key_len : Int) (r : EcdsaState),
      r = sgx_calculate_ecdsa_priv_key ω hash_drg hash_drg_len sgx_nistp256_r_m1
          sgx_nistp256_r_m1_len out_key out_key_len →
      (r.ret_code = SGX_ERROR_INVALID_PARAMETER ↔
        (out_key = none ∨ hash_drg_len ≤ 0 ∨ sgx_nistp256_r_m1_len ≤ 0 ∨
          out_key_len ≤ 0 ∨ hash_drg = none ∨ sgx_nistp256_r_m1 = none)) ∧
      ((out_key = none ∨ hash_drg_len ≤ 0 ∨ sgx_nistp256_r_m1_len ≤ 0 ∨
          out_key_len ≤ 0 ∨ hash_drg = none ∨ sgx_nistp256_r_m1 = none) → r.trace = []) ∧
      (¬ (out_key = none ∨ hash_drg_len ≤ 0 ∨ sgx_nistp256_r_m1_len ≤ 0 ∨
          out_key_len ≤ 0 ∨ hash_drg = none ∨ sgx_nistp256_r_m1 = none) →
        r.ret_code = SGX_SUCCESS ∨ r.ret_code = SGX_ERROR_UNEXPECTED)) := by
  refine ⟨?_, ?_, ?_, ?_, ?_, ?_, ?_⟩
  · intro ω n_byte_size e_byte_size p_n p_d p_e p_p p_q p_dmp1 p_dmq1 p_iqmp r hr
    subst hr
    unfold sgx_create_rsa_key_pair
    split
    · rename_i hchk
      exact ⟨⟨fun _ => hchk, fun _ => rfl⟩, fun _ => rfl, fun hn => absurd hchk hn⟩
    · rename_i hchk
      have := key_pair_body_status ω n_byte_size e_byte_size
        { p_pri_key := 0, p_pub_key := 0, error_code := ippStsNoErr,
          ret_code := SGX_ERROR_UNEXPECTED, p_rand := 0, p_prime := 0, scratch_buffer := 0,
          pri_size := 0, bn_n := 0, bn_e := 0, bn_d := 0, bn_e_s := 0, bn_p := 0, bn_q := 0,
          bn_dmp1 := 0, bn_dmq1 := 0, bn_iqmp := 0, validate_keys := IPP_IS_INVALID,
          size := 0, p_n := p_n, p_d := p_d, p_e := p_e, p_p := p_p, p_q := p_q,
          p_dmp1 := p_dmp1, p_dmq1 := p_dmq1, p_iqmp := p_iqmp, trace := [] } (Or.inl rfl)
      simp only [hchk, iff_false, false_implies, not_false_eq_true, true_implies, true_and]
      rcases this with h' | h' <;> simp [h']
  · intro ω prime_size exp_size e p q dmp1 dmq1 iqmp h r hr
    subst hr
    unfold sgx_create_rsa_priv2_key
    split
    · rename_i hchk
      exact ⟨⟨fun _ => hchk, fun _ => rfl⟩, fun _ => rfl, fun hn => absurd hchk hn⟩
    · rename_i hchk
      have := priv2_body_status ω prime_size
        { p_rsa2 := 0, p_p := 0, p_q := 0, p_dmp1 := 0, p_dmq1 := 0, p_iqmp := 0,
          rsa2_size := 0, ret_code := SGX_ERROR_UNEXPECTED, error_code := ippStsNoErr,
          new_pri_key2 := h, trace := [] } (Or.inl rfl)
      simp only [hchk, iff_false, false_implies, not_false_eq_true, true_implies, true_and]
      split <;> (rcases this with h' | h' <;> simp [h'])
  · intro ω prime_size exp_size le_n le_e h r hr
    subst hr
    unfold sgx_create_rsa_pub1_key
    split
    · rename_i hchk
      exact ⟨⟨fun _ => hchk, fun _ => rfl⟩, fun _ => rfl, fun hn => absurd hchk hn⟩
    · rename_i hchk
      have := pub1_body_status ω prime_size exp_size
        { p_pub_key := 0, p_n := 0, p_e := 0, rsa_size := 0,
          ret_code := SGX_ERROR_UNEXPECTED, error_code := ippStsNoErr,
          new_pub_key1 := h, trace := [] } (Or.inl rfl)
      simp only [hchk, iff_false, false_implies, not_false_eq_true, true_implies, true_and]
      split <;> (rcases this with h' | h' <;> simp [h'])
  · intro ω n_byte_size e_byte_size d_byte_size le_n le_e le_d h r hr
    subst hr
    unfold sgx_create_rsa_priv1_key
    split
    · rename_i hchk
      exact ⟨⟨fun _ => hchk, fun _ => rfl⟩, fun _ => rfl, fun hn => absurd hchk hn⟩
    · rename_i hchk
      have := priv1_body_status ω n_byte_size d_byte_size
        { p_rsa1 := 0, p_n := 0, p_d := 0, rsa1_size := 0,
          ret_code := SGX_ERROR_UNEXPECTED, error_code := ippStsNoErr,
          new_pri_key1 := h, trace := [] } (Or.inl rfl)
      simp only [hchk, iff_false, false_implies, not_false_eq_true, true_implies, true_and]
      split <;> (rcases this with h' | h' <;> simp [h'])
  · intro ω rsa_key pout_data pout_len pin_data pin_len r hr
    subst hr
    unfold sgx_rsa_pub_encrypt_sha256
    split
    · rename_i hchk
      exact ⟨⟨fun _ => hchk, fun _ => rfl⟩, fun _ => rfl, fun hn => absurd hchk hn⟩
    · rename_i hchk
      split
      · exact ⟨⟨fun h => by simp at h, fun h => absurd h hchk⟩, fun h => absurd h hchk,
          fun _ => Or.inl rfl⟩
      · have := encrypt_body_status ω rsa_key pin_len
          { p_scratch_buffer := 0, seeds := List.replicate RSA_SEED_SIZE_SHA256 0,
            scratch_buff_size := 0, ret_code := SGX_ERROR_UNEXPECTED,
            pout_data := pout_data, pout_len := pout_len, trace := [] } (Or.inl rfl)
        simp only [hchk, iff_false, false_implies, not_false_eq_true, true_implies, true_and]
        rcases this with h' | h' <;> simp [h']
  · intro ω rsa_key pout_data pout_len pin_data pin_len r hr
    subst hr
    unfold sgx_rsa_priv_decrypt_sha256
    split
    · rename_i hchk
      exact ⟨⟨fun _ => hchk, fun _ => rfl⟩, fun _ => rfl, fun hn => absurd hchk hn⟩
    · rename_i hchk
      split
      · exact ⟨⟨fun h => by simp at h, fun h => absurd h hchk⟩, fun h => absurd h hchk,
          fun _ => Or.inl rfl⟩
      · have := decrypt_body_status ω rsa_key
          { p_scratch_buffer := 0, seeds := [],
            scratch_buff_size := 0, ret_code := SGX_ERROR_UNEXPECTED,
            pout_data := pout_data, pout_len := pout_len, trace := [] } (Or.inl rfl)
        simp only [hchk, iff_false, false_implies, not_false_eq_true, true_implies, true_and]
        rcases this with h' | h' <;> simp [h']
  · intro ω hash_drg hash_drg_len sgx_nistp256_r_m1 sgx_nistp256_r_m1_len out_key out_key_len r hr
    subst hr
    unfold sgx_calculate_ecdsa_priv_key
    split
    · rename_i hchk
      exact ⟨⟨fun _ => hchk, fun _ => rfl⟩, fun _ => rfl, fun hn => absurd hchk hn⟩
    · rename_i hchk
      have := ecdsa_body_status ω hash_drg hash_drg_len sgx_nistp256_r_m1
        sgx_nistp256_r_m1_len
        { ret_code := SGX_ERROR_UNEXPECTED, ipp_status := ippStsNoErr,
          bn_d := 0, bn_m := 0, bn_o := 0, bn_one := 0,
          v_d := 0, v_m := 0, v_o := 0, v_one := 0,
          out_key := out_key, trace := [] } (Or.inl rfl)
      simp only [hchk, iff_false, false_implies, not_false_eq_true, true_implies, true_and]
      split <;> (rcases this with h' | h' <;> simp [h'])

/-- C8 at concrete inputs: an empty plaintext makes the encryption return
`SGX_ERROR_INVALID_PARAMETER` with an empty log; with valid arguments and a failing
allocation the form-1 importer returns `SGX_ERROR_UNEXPECTED`. -/
theorem invalid_parameter_iff_argument_check_fails_witness :
    ((sgx_rsa_pub_encrypt_sha256 ω_ok 5 (some [0, 0]) (some 0) (some []) 0).ret_code
        = SGX_ERROR_INVALID_PARAMETER ∧
      (sgx_rsa_pub_encrypt_sha256 ω_ok 5 (some [0, 0]) (some 0) (some []) 0).trace = []) ∧
    ((sgx_create_rsa_priv1_key (ω_fail_at 3) 8 4 8 (some [1]) (some [1]) (some [1])
        (some 0)).ret_code = SGX_SUCCESS ∨
      (sgx_create_rsa_priv1_key (ω_fail_at 3) 8 4 8 (some [1]) (some [1]) (some [1])
        (some 0)).ret_code = SGX_ERROR_UNEXPECTED) :=
  have h1 := invalid_parameter_iff_argument_check_fails.2.2.2.2.1 ω_ok 5 (some [0, 0])
    (some 0) (some []) 0 _ rfl
  have h2 := invalid_parameter_iff_argument_check_fails.2.2.2.1 (ω_fail_at 3) 8 4 8
    (some [1]) (some [1]) (some [1]) (some 0) _ rfl
  ⟨⟨h1.1.2 (by decide), h1.2.1 (by decide)⟩, h2.2.2 (by decide)⟩

/-! ## The OAEP wrappers: seed and scratch buffer -/

/-- The 32 bytes of `seeds` are zero whenever `sgx_rsa_pub_encrypt_sha256`
returns: the array starts as zeros and, once the loop was entered, line 370
overwrites it. -/
theorem encrypt_seed_zero_at_return (ω : Oracle) (rsa_key : Ptr) (pout_data : Option Bytes)
    (pout_len : Option Nat) (pin_data : Option Bytes) (pin_len : Nat) :
    (sgx_rsa_pub_encrypt_sha256 ω rsa_key pout_data pout_len pin_data pin_len).seeds.take 32
      = List.replicate 32 0 := by
  unfold sgx_rsa_pub_encrypt_sha256
  simp only []
  split
  · simp [RSA_SEED_SIZE_SHA256]
  · split
    · simp [RSA_SEED_SIZE_SHA256]
    · simp [zeroFill, RSA_SEED_SIZE_SHA256, List.take_append_of_le_length]

/-- No step of the two loop bodies calls `memset` or `memset_s`. -/
theorem oaep_bodies_never_zero (ω : Oracle) (rsa_key : Ptr) (pin_len : Nat) (s : OaepState)
    (hs : ∀ ev ∈ s.trace, ev.fn ≠ Fn.memset ∧ ev.fn ≠ Fn.memset_s) :
    (∀ ev ∈ (runBody (encrypt_body ω rsa_key pin_len) s).1.trace,
      ev.fn ≠ Fn.memset ∧ ev.fn ≠ Fn.memset_s) ∧
    (∀ ev ∈ (runBody (decrypt_body ω rsa_key) s).1.trace,
      ev.fn ≠ Fn.memset ∧ ev.fn ≠ Fn.memset_s) := by
  constructor
  · refine runBody_inv
      (fun t : OaepState => ∀ ev ∈ t.trace, ev.fn ≠ Fn.memset ∧ ev.fn ≠ Fn.memset_s) _ ?_ s hs
    intro f hf t ht
    simp only [encrypt_body, List.mem_cons, List.mem_singleton, List.not_mem_nil,
      or_false] at hf
    rcases hf with rfl | rfl | rfl | rfl | rfl <;>
      first
        | exact ht
        | (intro ev hev
           simp only [List.mem_append, List.mem_singleton] at hev
           rcases hev with hev | rfl
           · exact ht ev hev
           · simp)
  · refine runBody_inv
      (fun t : OaepState => ∀ ev ∈ t.trace, ev.fn ≠ Fn.memset ∧ ev.fn ≠ Fn.memset_s) _ ?_ s hs
    intro f hf t ht
    simp only [decrypt_body, List.mem_cons, List.mem_singleton, List.not_mem_nil,
      or_false] at hf
    rcases hf with rfl | rfl | rfl | rfl <;>
      first
        | exact ht
        | (intro ev hev
           simp only [List.mem_append, List.mem_singleton] at hev
           rcases hev with hev | rfl
           · exact ht ev hev
           · simp)

/-- On every path of the two OAEP wrappers the only zeroing call in the log is
the `memset_s` of the local seed array (it names no heap block): nothing
overwrites the scratch block between its `malloc` and its release. -/
theorem oaep_no_zeroing_of_scratch (ω : Oracle) (rsa_key : Ptr) (pout_data : Option Bytes)
    (pout_len : Option Nat) (pin_data : Option Bytes) (pin_len : Nat) :
    (∀ ev ∈ (sgx_rsa_pub_encrypt_sha256 ω rsa_key pout_data pout_len pin_data pin_len).trace,
      ev.fn ≠ Fn.memset ∧ (ev.fn = Fn.memset_s → ev.ptrs = [])) ∧
    (∀ ev ∈ (sgx_rsa_priv_decrypt_sha256 ω rsa_key pout_data pout_len pin_data pin_len).trace,
      ev.fn ≠ Fn.memset ∧ ev.fn ≠ Fn.memset_s) := by
  constructor
  · unfold sgx_rsa_pub_encrypt_sha256
    simp only []
    split
    · simp
    · split
      · simp
      · have h := (oaep_bodies_never_zero ω rsa_key pin_len
          { p_scratch_buffer := 0, seeds := List.replicate RSA_SEED_SIZE_SHA256 0,
            scratch_buff_size := 0, ret_code := SGX_ERROR_UNEXPECTED,
            pout_data := pout_data, pout_len := pout_len, trace := [] } (by simp)).1
        intro ev hev
        simp only [SAFE_FREE_MM, List.mem_append, List.mem_singleton] at hev
        rcases hev with (hev | rfl) | hev
        · exact ⟨(h ev hev).1, fun hm => absurd hm (h ev hev).2⟩
        · simp
        · split at hev
          · simp only [List.mem_singleton] at hev
            subst hev
            simp
          · simp at hev
  · unfold sgx_rsa_priv_decrypt_sha256
    simp only []
    split
    · simp
    · split
      · simp
      · have h := (oaep_bodies_never_zero ω rsa_key pin_len
          { p_scratch_buffer := 0, seeds := [],
            scratch_buff_size := 0, ret_code := SGX_ERROR_UNEXPECTED,
            pout_data := pout_data, pout_len := pout_len, trace := [] } (by simp)).2
        intro ev hev
        simp only [SAFE_FREE_MM, List.mem_append] at hev
        rcases hev with hev | hev
        · exact h ev hev
        · split at hev
          · simp only [List.mem_singleton] at hev
            subst hev
            simp
          · simp at hev

/-! ## Where the code departs from the claims -/

/-- C2, evaluated: the engine generates a pair (private key object `103`, modulus `107`,
exponent `108`), the public key `118` is set from that modulus and exponent, and the one
consistency check, run on `118` and `103`, itself fails (status `5` at call site 21) while
`IPP_IS_VALID` stands in the flag.  No check has vouched for the pair, yet
`sgx_create_rsa_key_pair` returns `SGX_SUCCESS` and the caller's buffers hold the pair's
components. -/
theorem key_pair_returns_unvalidated_pair :
    (ω_validation_fails 21).status ≠ ippStsNoErr ∧
    (sgx_create_rsa_key_pair ω_validation_fails 16 4
      (some [0, 0, 0, 0, 0, 0, 0, 0, 0, 0, 0, 0, 0, 0, 0, 0])
      (some [0, 0, 0, 0, 0, 0, 0, 0, 0, 0, 0, 0, 0, 0, 0, 0]) (some [1, 0, 1, 0])
      (some [0, 0, 0, 0, 0, 0, 0, 0]) (some [0, 0, 0, 0, 0, 0, 0, 0])
      (some [0, 0, 0, 0, 0, 0, 0, 0]) (some [0, 0, 0, 0, 0, 0, 0, 0])
      (some [0, 0, 0, 0, 0, 0, 0, 0])).trace.filter
        (fun ev => ev.fn == Fn.ippsRSA_GenerateKeys || ev.fn == Fn.ippsRSA_SetPublicKey
          || ev.fn == Fn.ippsRSA_ValidateKeys) =
      [ ⟨Fn.ippsRSA_GenerateKeys, [1], [106, 107, 108, 109, 103, 105, 101, 100]⟩,
        ⟨Fn.ippsRSA_SetPublicKey, [], [107, 108, 118]⟩,
        ⟨Fn.ippsRSA_ValidateKeys, [10], [118, 103, 0, 105, 101, 100]⟩ ] ∧
    calls Fn.ippsRSA_ValidateKeys
      (sgx_create_rsa_key_pair ω_validation_fails 16 4
        (some [0, 0, 0, 0, 0, 0, 0, 0, 0, 0, 0, 0, 0, 0, 0, 0])
        (some [0, 0, 0, 0, 0, 0, 0, 0, 0, 0, 0, 0, 0, 0, 0, 0]) (some [1, 0, 1, 0])
        (some [0, 0, 0, 0, 0, 0, 0, 0]) (some [0, 0, 0, 0, 0, 0, 0, 0])
        (some [0, 0, 0, 0, 0, 0, 0, 0]) (some [0, 0, 0, 0, 0, 0, 0, 0])
        (some [0, 0, 0, 0, 0, 0, 0, 0])).trace = 1 ∧
    (sgx_create_rsa_key_pair ω_validation_fails 16 4
      (some [0, 0, 0, 0, 0, 0, 0, 0, 0, 0, 0, 0, 0, 0, 0, 0])
      (some [0, 0, 0, 0, 0, 0, 0, 0, 0, 0, 0, 0, 0, 0, 0, 0]) (some [1, 0, 1, 0])
      (some [0, 0, 0, 0, 0, 0, 0, 0]) (some [0, 0, 0, 0, 0, 0, 0, 0])
      (some [0, 0, 0, 0, 0, 0, 0, 0]) (some [0, 0, 0, 0, 0, 0, 0, 0])
      (some [0, 0, 0, 0, 0, 0, 0, 0])).ret_code = SGX_SUCCESS ∧
    (sgx_create_rsa_key_pair ω_validation_fails 16 4
      (some [0, 0, 0, 0, 0, 0, 0, 0, 0, 0, 0, 0, 0, 0, 0, 0])
      (some [0, 0, 0, 0, 0, 0, 0, 0, 0, 0, 0, 0, 0, 0, 0, 0]) (some [1, 0, 1, 0])
      (some [0, 0, 0, 0, 0, 0, 0, 0]) (some [0, 0, 0, 0, 0, 0, 0, 0])
      (some [0, 0, 0, 0, 0, 0, 0, 0]) (some [0, 0, 0, 0, 0, 0, 0, 0])
      (some [0, 0, 0, 0, 0, 0, 0, 0])).p_n
      = some [23, 0, 0, 1, 0, 0, 0, 0, 0, 0, 0, 0, 0, 0, 0, 0] ∧
    (sgx_create_rsa_key_pair ω_validation_fails 16 4
      (some [0, 0, 0, 0, 0, 0, 0, 0, 0, 0, 0, 0, 0, 0, 0, 0])
      (some [0, 0, 0, 0, 0, 0, 0, 0, 0, 0, 0, 0, 0, 0, 0, 0]) (some [1, 0, 1, 0])
      (some [0, 0, 0, 0, 0, 0, 0, 0]) (some [0, 0, 0, 0, 0, 0, 0, 0])
      (some [0, 0, 0, 0, 0, 0, 0, 0]) (some [0, 0, 0, 0, 0, 0, 0, 0])
      (some [0, 0, 0, 0, 0, 0, 0, 0])).p_d
      = some [27, 0, 0, 1, 0, 0, 0, 0, 0, 0, 0, 0, 0, 0, 0, 0] := by
  decide

/-- C3, evaluated: the engine generates and validates a pair, hands out the eight bytes of
`n`, and then fails at the size query for `e` (call site 24).  The call returns
`SGX_ERROR_UNEXPECTED` while the caller's `n` buffer holds the modulus bytes, neither its
old content nor zeros; the later buffers are untouched. -/
theorem key_pair_failure_after_partial_extraction :
    (sgx_create_rsa_key_pair ω_extract_fails 8 4 (some [170, 170, 170, 170, 170, 170, 170, 170])
      (some [187, 187, 187, 187, 187, 187, 187, 187]) (some [1, 0, 1, 0])
      (some [204, 204, 204, 204]) (some [204, 204, 204, 204]) (some [204, 204, 204, 204])
      (some [204, 204, 204, 204]) (some [204, 204, 204, 204])).ret_code
      = SGX_ERROR_UNEXPECTED ∧
    (sgx_create_rsa_key_pair ω_extract_fails 8 4 (some [170, 170, 170, 170, 170, 170, 170, 170])
      (some [187, 187, 187, 187, 187, 187, 187, 187]) (some [1, 0, 1, 0])
      (some [204, 204, 204, 204]) (some [204, 204, 204, 204]) (some [204, 204, 204, 204])
      (some [204, 204, 204, 204]) (some [204, 204, 204, 204])).p_n
      = some [21, 205, 91, 7, 0, 0, 0, 129] ∧
    (sgx_create_rsa_key_pair ω_extract_fails 8 4 (some [170, 170, 170, 170, 170, 170, 170, 170])
      (some [187, 187, 187, 187, 187, 187, 187, 187]) (some [1, 0, 1, 0])
      (some [204, 204, 204, 204]) (some [204, 204, 204, 204]) (some [204, 204, 204, 204])
      (some [204, 204, 204, 204]) (some [204, 204, 204, 204])).p_d
      = some [187, 187, 187, 187, 187, 187, 187, 187] := by
  decide

/-- C9, evaluated: the validation returns a non-success status (`-1`) and leaves
`IPP_IS_VALID` in the flag, every other call succeeds; the status is discarded and
`sgx_create_rsa_key_pair` returns `SGX_SUCCESS`. -/
theorem key_pair_ignores_validation_status :
    (ω_validate_error 21).status ≠ ippStsNoErr ∧
    (sgx_create_rsa_key_pair ω_validate_error 8 4 (some [0, 0, 0, 0, 0, 0, 0, 0])
      (some [0, 0, 0, 0, 0, 0, 0, 0]) (some [1, 0, 1, 0]) (some [0, 0, 0, 0])
      (some [0, 0, 0, 0]) (some [0, 0, 0, 0]) (some [0, 0, 0, 0])
      (some [0, 0, 0, 0])).ret_code = SGX_SUCCESS := by
  decide

/-- The failure path of `sgx_create_rsa_priv2_key` with `prime_size = 8`, whose last
engine call fails: the key object at address `106` was sized and initialised for factors of
`8 / 2 * 8 = 32` bits and is passed to `secure_free_rsa_pri2_key` with the int `8`; the
five BigIntegers were created and released with `8 / 2 = 4` bytes. -/
theorem priv2_failure_frees_key_with_other_size :
    (sgx_create_rsa_priv2_key (ω_fail_at 8) 8 4 (some [1, 0, 1, 0]) (some [3, 0, 0, 0])
      (some [5, 0, 0, 0]) (some [1, 0, 0, 0]) (some [1, 0, 0, 0]) (some [2, 0, 0, 0])
      (some 7)).trace =
      [ ⟨Fn.newBN, [4], [100]⟩, ⟨Fn.newBN, [4], [101]⟩, ⟨Fn.newBN, [4], [102]⟩,
        ⟨Fn.newBN, [4], [103]⟩, ⟨Fn.newBN, [4], [104]⟩,
        ⟨Fn.ippsRSA_GetSizePrivateKeyType2, [32, 32], []⟩,
        ⟨Fn.malloc, [64], [106]⟩,
        ⟨Fn.ippsRSA_InitPrivateKeyType2, [32, 32, 64], [106]⟩,
        ⟨Fn.ippsRSA_SetPrivateKeyType2, [], [100, 101, 102, 103, 104, 106]⟩,
        ⟨Fn.secure_free_BN, [4], [100]⟩, ⟨Fn.secure_free_BN, [4], [101]⟩,
        ⟨Fn.secure_free_BN, [4], [102]⟩, ⟨Fn.secure_free_BN, [4], [103]⟩,
        ⟨Fn.secure_free_BN, [4], [104]⟩,
        ⟨Fn.secure_free_rsa_pri2_key, [8], [106]⟩ ] ∧
    (8 : Int) * 8 ≠ 32 := by
  decide

/-- C10, evaluated: the three calls of `secure_free_rsa_pri2_key` in the file do not agree
on what its int argument is.  `sgx_create_rsa_key_pair` with `n_byte_size = 16` sizes its
key object for factors of `64` bits and releases it with the int `8` (line 214);
`sgx_create_rsa_priv2_key` with `prime_size = 8` sizes its key object for factors of `32`
bits and, on its failure path, releases it with the same int `8` (line 276), the int that
`sgx_free_rsa_key` too hands on for that key (line 466).  Read as a prime byte length, as
the claim and line 214 do, `8 * 8` is not the `32` bits of the second object; and whatever
factor bit length `bits a` the helper derives from its int `a`, it is not the bit length the
object was initialised with in both runs: one of the two objects is cleared with a size
other than the one it was allocated with. -/
theorem secure_free_rsa_pri2_key_sizes_disagree :
    ((⟨Fn.ippsRSA_InitPrivateKeyType2, [64, 64, 64], [103]⟩ : Event) ∈
        (sgx_create_rsa_key_pair ω_ok 16 4
          (some [0, 0, 0, 0, 0, 0, 0, 0, 0, 0, 0, 0, 0, 0, 0, 0])
          (some [0, 0, 0, 0, 0, 0, 0, 0, 0, 0, 0, 0, 0, 0, 0, 0]) (some [1, 0, 1, 0])
          (some [0, 0, 0, 0, 0, 0, 0, 0]) (some [0, 0, 0, 0, 0, 0, 0, 0])
          (some [0, 0, 0, 0, 0, 0, 0, 0]) (some [0, 0, 0, 0, 0, 0, 0, 0])
          (some [0, 0, 0, 0, 0, 0, 0, 0])).trace ∧
      (⟨Fn.secure_free_rsa_pri2_key, [8], [103]⟩ : Event) ∈
        (sgx_create_rsa_key_pair ω_ok 16 4
          (some [0, 0, 0, 0, 0, 0, 0, 0, 0, 0, 0, 0, 0, 0, 0, 0])
          (some [0, 0, 0, 0, 0, 0, 0, 0, 0, 0, 0, 0, 0, 0, 0, 0]) (some [1, 0, 1, 0])
          (some [0, 0, 0, 0, 0, 0, 0, 0]) (some [0, 0, 0, 0, 0, 0, 0, 0])
          (some [0, 0, 0, 0, 0, 0, 0, 0]) (some [0, 0, 0, 0, 0, 0, 0, 0])
          (some [0, 0, 0, 0, 0, 0, 0, 0])).trace) ∧
    ((⟨Fn.ippsRSA_InitPrivateKeyType2, [32, 32, 64], [106]⟩ : Event) ∈
        (sgx_create_rsa_priv2_key (ω_fail_at 8) 8 4 (some [1, 0, 1, 0]) (some [3, 0, 0, 0])
          (some [5, 0, 0, 0]) (some [1, 0, 0, 0]) (some [1, 0, 0, 0]) (some [2, 0, 0, 0])
          (some 7)).trace ∧
      (⟨Fn.secure_free_rsa_pri2_key, [8], [106]⟩ : Event) ∈
        (sgx_create_rsa_priv2_key (ω_fail_at 8) 8 4 (some [1, 0, 1, 0]) (some [3, 0, 0, 0])
          (some [5, 0, 0, 0]) (some [1, 0, 0, 0]) (some [1, 0, 0, 0]) (some [2, 0, 0, 0])
          (some 7)).trace) ∧
    (sgx_free_rsa_key 106 sgx_rsa_key_type_t.SGX_RSA_PRIVATE_KEY 8 4).2
      = [⟨Fn.secure_free_rsa_pri2_key, [8], [106]⟩] ∧
    (8 : Int) * 8 ≠ 32 ∧
    ∀ bits : Int → Int,
      ¬ ((∀ a b sz p,
            (⟨Fn.ippsRSA_InitPrivateKeyType2, [b, b, sz], [p]⟩ : Event) ∈
              (sgx_create_rsa_key_pair ω_ok 16 4
                (some [0, 0, 0, 0, 0, 0, 0, 0, 0, 0, 0, 0, 0, 0, 0, 0])
                (some [0, 0, 0, 0, 0, 0, 0, 0, 0, 0, 0, 0, 0, 0, 0, 0]) (some [1, 0, 1, 0])
                (some [0, 0, 0, 0, 0, 0, 0, 0]) (some [0, 0, 0, 0, 0, 0, 0, 0])
                (some [0, 0, 0, 0, 0, 0, 0, 0]) (some [0, 0, 0, 0, 0, 0, 0, 0])
                (some [0, 0, 0, 0, 0, 0, 0, 0])).trace →
            (⟨Fn.secure_free_rsa_pri2_key, [a], [p]⟩ : Event) ∈
              (sgx_create_rsa_key_pair ω_ok 16 4
                (some [0, 0, 0, 0, 0, 0, 0, 0, 0, 0, 0, 0, 0, 0, 0, 0])
                (some [0, 0, 0, 0, 0, 0, 0, 0, 0, 0, 0, 0, 0, 0, 0, 0]) (some [1, 0, 1, 0])
                (some [0, 0, 0, 0, 0, 0, 0, 0]) (some [0, 0, 0, 0, 0, 0, 0, 0])
                (some [0, 0, 0, 0, 0, 0, 0, 0]) (some [0, 0, 0, 0, 0, 0, 0, 0])
                (some [0, 0, 0, 0, 0, 0, 0, 0])).trace →
            bits a = b) ∧
         (∀ a b sz p,
            (⟨Fn.ippsRSA_InitPrivateKeyType2, [b, b, sz], [p]⟩ : Event) ∈
              (sgx_create_rsa_priv2_key (ω_fail_at 8) 8 4 (some [1, 0, 1, 0])
                (some [3, 0, 0, 0]) (some [5, 0, 0, 0]) (some [1, 0, 0, 0])
                (some [1, 0, 0, 0]) (some [2, 0, 0, 0]) (some 7)).trace →
            (⟨Fn.secure_free_rsa_pri2_key, [a], [p]⟩ : Event) ∈
              (sgx_create_rsa_priv2_key (ω_fail_at 8) 8 4 (some [1, 0, 1, 0])
                (some [3, 0, 0, 0]) (some [5, 0, 0, 0]) (some [1, 0, 0, 0])
                (some [1, 0, 0, 0]) (some [2, 0, 0, 0]) (some 7)).trace →
            bits a = b)) := by
  refine ⟨by decide, by decide, by decide, by decide, ?_⟩
  intro bits h
  have h1 : bits 8 = 64 := h.1 8 64 64 103 (by decide) (by decide)
  have h2 : bits 8 = 32 := h.2 8 32 64 106 (by decide) (by decide)
  have h' : (64 : Int) = 32 := h1.symm.trans h2
  exact absurd h' (by decide)

/-- C11, evaluated: an encryption and a decryption in which every external call succeeds.
The scratch block at `4096` (512 bytes for the encryption, 64 for the decryption) is handed
to the engine and then to `SAFE_FREE_MM`, the last entry of each log; no `memset` or
`memset_s` names it, so it is released with whatever the engine left in it.  The only
zeroing call is the `memset_s` of the 32-byte seed, which is all zero at return. -/
theorem oaep_scratch_released_without_zeroing :
    (sgx_rsa_pub_encrypt_sha256 ω_encrypt 5 (some [0, 0, 0, 0]) (some 0) (some [1, 2, 3])
      3).ret_code = SGX_SUCCESS ∧
    (sgx_rsa_pub_encrypt_sha256 ω_encrypt 5 (some [0, 0, 0, 0]) (some 0) (some [1, 2, 3])
      3).trace =
      [ ⟨Fn.ippsRSA_GetBufferSizePublicKey, [], [5]⟩,
        ⟨Fn.malloc, [512], [4096]⟩,
        ⟨Fn.sgx_read_rand, [32], []⟩,
        ⟨Fn.ippsRSAEncrypt_OAEP, [3, 0], [5, 4096]⟩,
        ⟨Fn.memset_s, [32, 0, 32], []⟩,
        ⟨Fn.free, [], [4096]⟩ ] ∧
    (sgx_rsa_pub_encrypt_sha256 ω_encrypt 5 (some [0, 0, 0, 0]) (some 0) (some [1, 2, 3])
      3).seeds = List.replicate 32 0 ∧
    (sgx_rsa_priv_decrypt_sha256 ω_decrypt 5 (some [0, 0, 0, 0]) (some 0)
      (some [222, 173, 190, 239]) 4).ret_code = SGX_SUCCESS ∧
    (sgx_rsa_priv_decrypt_sha256 ω_decrypt 5 (some [0, 0, 0, 0]) (some 0)
      (some [222, 173, 190, 239]) 4).trace =
      [ ⟨Fn.ippsRSA_GetBufferSizePrivateKey, [], [5]⟩,
        ⟨Fn.malloc, [64], [4096]⟩,
        ⟨Fn.ippsRSADecrypt_OAEP, [0], [5, 4096]⟩,
        ⟨Fn.free, [], [4096]⟩ ] := by
  decide

end SgxRsa
